import Mathlib

/-!
# SCFF DirectShow Filter: imaging core

A shallow embedding of `scff_imaging::Engine`, `scff_imaging::NativeLayout`,
`scff_imaging::ComplexLayout` and `scff_imaging::AVPictureWithFillImage`.

Conventions of the embedding.

* A C++ `int` is an `Int`; arithmetic written in the source with `+` and `-` is
  the 32-bit two's complement arithmetic `int_add` / `int_sub`.
* An image buffer is a `Bitmap`, one sample per pixel, addressed by `(x, y)`.
  An image whose `avpicture` is `none` is empty (`IsEmpty()`).
* A pointer held by a processor to an image that it does not own is replaced by
  passing the image in and returning the written image. A pointer to one of the
  two output images of the engine is an `ImageIndex`.
* A call that the C++ program cannot survive (null dereference, array index out
  of range, freeing a pointer that no allocation returned) makes the embedded
  function return `none`.
* The operating system, the scale library and the allocator are not part of the
  program. What they return during one `Init` is an `InitEnv`, what they return
  during one frame is a `FrameEnv`.
-/

namespace scff_imaging

/-! ## Basic types -/

/-- Number of elements of the parameter arrays (`kMaxProcessorSize`). -/
abbrev kMaxProcessorSize : Nat := 8

/-- Error codes. The header declaring the enumeration is not among the sources;
the named constructors are the codes the sources mention, `kOtherError` stands
for every other code of the enumeration. -/
inductive ErrorCode where
  | kNoError
  | kProcessorUninitializedError
  | kComplexLayoutInvalidPixelFormatError
  | kComplexLayoutBoundError
  | kAVPictureWithFillImageOutOfMemoryError
  | kAVPictureWithFillImageCannotCreateAVPictureError
  | kAVPictureWithFillImageCannotFillError
  | kOtherError (code : Nat)
  deriving DecidableEq, Repr

/-- Pixel formats: the four formats of the data model and the value carried by
an image that has not been created. -/
inductive ImagePixelFormat where
  | kInvalidPixelFormat
  | kI420
  | kUYVY
  | kRGB0
  | kYV12
  deriving DecidableEq, Repr

/-- Which of the two output buffers (`ImageIndex`). -/
inductive ImageIndex where
  | kFront
  | kBack
  deriving DecidableEq, Repr

/-- Requests understood by the worker thread (`RequestType`). -/
inductive RequestType where
  | kInvalid
  | kResetLayout
  | kSetNativeLayout
  | kSetComplexLayout
  | kRun
  | kStop
  | kExit
  deriving DecidableEq, Repr

/-- One source of a layout (`LayoutParameter`). The scaler setting is
`swscale_config`; the revision of native-layout.cc calls it `sws_flags`. -/
structure LayoutParameter where
  bound_x : Int
  bound_y : Int
  bound_width : Int
  bound_height : Int
  window : Nat
  clipping_x : Int
  clipping_y : Int
  clipping_width : Int
  clipping_height : Int
  show_cursor : Bool
  show_layered_window : Bool
  swscale_config : Nat
  stretch : Bool
  keep_aspect_ratio : Bool
  deriving DecidableEq, Repr

/-- A C array `LayoutParameter[kMaxProcessorSize]`. -/
abbrev ParamArray := Fin kMaxProcessorSize → LayoutParameter

/-- Reduction of an integer to the range of a 32-bit `int`. -/
def int_wrap (z : Int) : Int := (z + 2147483648) % 4294967296 - 2147483648

/-- The C expression `a + b` on `int`. -/
def int_add (a b : Int) : Int := int_wrap (a + b)

/-- The C expression `a - b` on `int`. -/
def int_sub (a b : Int) : Int := int_wrap (a - b)

/-- The value is representable as a 32-bit `int`. -/
def InIntRange (z : Int) : Prop := -2147483648 ≤ z ∧ z ≤ 2147483647

/-! ## Images -/

/-- Content of an image buffer: the sample of the pixel at `(x, y)`. -/
abbrev Bitmap := Int → Int → Nat

/-- The colour made by `ff_draw_color` from the RGBA bytes `{0, 0, 0, 0}`. -/
def kBlack : Nat := 0

/-- An image: format, size and the buffer, `none` while the image is empty. -/
structure Image where
  pixel_format : ImagePixelFormat
  width : Int
  height : Int
  avpicture : Option Bitmap

/-- Modelled from the spec: the image classes are declared in headers that are
not among the sources. A default constructed image is empty (§3 "an uncreated
image is empty"); its format and size are placeholders that nothing reads. -/
def Image.uncreated : Image :=
  { pixel_format := ImagePixelFormat.kInvalidPixelFormat, width := -1, height := -1,
    avpicture := none }

/-- Embeds `IsEmpty()`: the buffer pointer is null. -/
def Image.IsEmpty (img : Image) : Bool := img.avpicture.isNone

/-- Modelled from the spec: `Create` of the image classes used by the engine and
the layouts, whose sources are absent (§4.1). `outcome` is what the allocation
reports, `fresh` the content of the new buffer. On success the image has the
requested format and size and is not empty, on failure it stays as it was. -/
def Image.Create (outcome : ErrorCode) (fresh : Bitmap) (img : Image)
    (pixel_format : ImagePixelFormat) (width height : Int) : ErrorCode × Image :=
  if outcome = ErrorCode.kNoError then
    (ErrorCode.kNoError,
      { pixel_format := pixel_format, width := width, height := height,
        avpicture := some fresh })
  else (outcome, img)

/-- An operator writes the whole buffer of an image; an empty image has no
buffer to write. -/
def Image.store (img : Image) (b : Bitmap) : Image :=
  { img with avpicture := img.avpicture.map (fun _ => b) }

/-- Modelled from the spec: the canonical contiguous byte layout of a buffer
(§4.7 "planes concatenated, each plane stride-packed"), here the samples of the
rows `0 .. height - 1`, each row from `x = 0` to `x = width - 1`. -/
def canonicalBytes (b : Bitmap) (width height : Int) : List Nat :=
  (List.range height.toNat).flatMap
    (fun (y : Nat) =>
      (List.range width.toNat).map (fun (x : Nat) => b (Int.ofNat x) (Int.ofNat y)))

/-- Modelled from the spec: `utilities::CalculateImageSize`, the canonical byte
size of an image. -/
def CalculateImageSize (img : Image) : Nat := img.height.toNat * img.width.toNat

/-- The external `avpicture_layout(src, format, width, height, dest, dest_size)`:
when the destination is large enough its first bytes become the canonical bytes
of the source, otherwise it reports an error and writes nothing. -/
def avpicture_layout (src : Bitmap) (width height : Int) (dest : List Nat) : List Nat :=
  let bytes := canonicalBytes src width height
  if bytes.length ≤ dest.length then bytes ++ dest.drop bytes.length else dest

/-- The Win32 `ZeroMemory(sample, data_size)`. -/
def ZeroMemory (sample : List Nat) : List Nat := List.replicate sample.length 0

/-- Modelled from the spec: `utilities::CanUseDrawUtils`, the "planar" flag of a
pixel format (§3: true for I420, YV12 and RGB0). -/
def CanUseDrawUtils (pixel_format : ImagePixelFormat) : Bool :=
  match pixel_format with
  | ImagePixelFormat.kI420 => true
  | ImagePixelFormat.kYV12 => true
  | ImagePixelFormat.kRGB0 => true
  | _ => false

/-- Modelled from the spec: `utilities::Contains(bound_x, bound_y, bound_width,
bound_height, x, y, width, height)`: the rectangle `(x, y, width, height)` lies
fully inside the bound rectangle (§8). -/
def Contains (bound_x bound_y bound_width bound_height x y width height : Int) : Bool :=
  decide (bound_x ≤ x) && decide (bound_y ≤ y) &&
    decide (x + width ≤ bound_x + bound_width) &&
    decide (y + height ≤ bound_y + bound_height)

/-! ## Draw primitives -/

/-- The pixel `(x, y)` lies in the rectangle with origin `(rx, ry)` and size
`(w, h)`. -/
def inRect (rx ry w h x y : Int) : Bool :=
  decide (rx ≤ x) && decide (x < rx + w) && decide (ry ≤ y) && decide (y < ry + h)

/-- The external `ff_fill_rectangle(ctx, color, dst, x, y, w, h)` (§6). -/
def ff_fill_rectangle (color : Nat) (dst : Bitmap) (x y w h : Int) : Bitmap :=
  fun px py => if inRect x y w h px py then color else dst px py

/-- The external `ff_copy_rectangle2(ctx, dst, src, dst_x, dst_y, src_x, src_y,
w, h)` (§6). -/
def ff_copy_rectangle2 (dst src : Bitmap) (dst_x dst_y src_x src_y w h : Int) : Bitmap :=
  fun px py =>
    if inRect dst_x dst_y w h px py then src (px - dst_x + src_x) (py - dst_y + src_y)
    else dst px py

/-! ## Processors -/

/-- Modelled from the spec: `ErrorOccured` of the processor base class, whose
header is absent (§7 latching rule); it has the shape of
`Engine::LayoutErrorOccured`. The value is the new current error. -/
def Processor.ErrorOccured (current error_code : ErrorCode) : ErrorCode :=
  if error_code ≠ ErrorCode.kNoError then error_code else current

/-- Modelled from the spec: `InitDone` of the processor base class (§3
"Uninitialized → Ready"); it has the shape of `Engine::LayoutInitDone`. The
value is the new current error. -/
def Processor.InitDone (current : ErrorCode) : ErrorCode :=
  if current = ErrorCode.kProcessorUninitializedError then ErrorCode.kNoError else current

/-- A constructed screen capture operator: its constructor arguments. The
native layout belongs to a revision whose constructor has no flip argument. -/
structure ScreenCapture where
  flip_vertical : Option Bool
  size : Int
  parameters : List LayoutParameter

/-- A constructed scale operator: its constructor argument. -/
structure Scale where
  swscale_config : Nat

/-- A constructed padding operator: its constructor arguments. -/
structure Padding where
  padding_left : Int
  padding_right : Int
  padding_top : Int
  padding_bottom : Int

/-- Result of `utilities::CalculatePaddingSize` (its four output arguments). -/
structure PaddingSize where
  padding_top : Int
  padding_bottom : Int
  padding_left : Int
  padding_right : Int

/-- The functions of `utilities` whose definitions are not among the sources
and that the spec does not determine. -/
structure Utilities where
  IsTopdownPixelFormat : ImagePixelFormat → Bool
  CalculatePaddingSize : Int → Int → Int → Int → Bool → Bool → PaddingSize

/-- What the allocator and the `Init` of the operators report during one
`Init` of a layout, per element. -/
structure InitEnv where
  error_captured_image : Fin kMaxProcessorSize → ErrorCode
  captured_fresh : Fin kMaxProcessorSize → Bitmap
  error_converted_image : Fin kMaxProcessorSize → ErrorCode
  converted_fresh : Fin kMaxProcessorSize → Bitmap
  error_scale_init : Fin kMaxProcessorSize → ErrorCode
  error_screen_capture : ErrorCode
  error_padding_init : ErrorCode

/-- What the operators report and write during one frame, per element:
the captured desktop, the scaled picture, and what a failing padding leaves
in its output. -/
structure FrameEnv where
  error_screen_capture : ErrorCode
  captured : Fin kMaxProcessorSize → Bitmap
  error_scale : Fin kMaxProcessorSize → ErrorCode
  converted : Fin kMaxProcessorSize → Bitmap
  error_padding : ErrorCode
  padding_failed : Bitmap

/-- Modelled from the spec: `Padding::Run`, whose source is absent (§4.3): fill
the four margin rectangles of the outer image with black, then copy the inner
image to `(left, top)`. -/
def Padding.Run (p : Padding) (inner : Bitmap) (inner_width inner_height : Int)
    (outer : Bitmap) (outer_width outer_height : Int) : Bitmap :=
  let o1 := ff_fill_rectangle kBlack outer 0 0 outer_width p.padding_top
  let o2 := ff_fill_rectangle kBlack o1 0 (outer_height - p.padding_bottom)
    outer_width p.padding_bottom
  let o3 := ff_fill_rectangle kBlack o2 0 p.padding_top p.padding_left inner_height
  let o4 := ff_fill_rectangle kBlack o3 (outer_width - p.padding_right) p.padding_top
    p.padding_right inner_height
  ff_copy_rectangle2 o4 inner p.padding_left p.padding_top 0 0 inner_width inner_height

/-! ## Native layout -/

/-- State of a `NativeLayout`. -/
structure NativeLayout where
  error_code_ : ErrorCode
  parameter_ : LayoutParameter
  screen_capture_ : Option ScreenCapture
  scale_ : Option Scale
  padding_ : Option Padding
  captured_image_ : Image
  converted_image_ : Image

/-- Embeds `NativeLayout::NativeLayout(parameter)`. -/
def NativeLayout.new (parameter : LayoutParameter) : NativeLayout :=
  { error_code_ := ErrorCode.kProcessorUninitializedError,
    parameter_ := parameter,
    screen_capture_ := none,
    scale_ := none,
    padding_ := none,
    captured_image_ := Image.uncreated,
    converted_image_ := Image.uncreated }

/-- The inherited `ErrorOccured(error_code)` on a native layout: the returned
code and the layout afterwards. -/
def NativeLayout.ErrorOccured (l : NativeLayout) (error_code : ErrorCode) :
    ErrorCode × NativeLayout :=
  (Processor.ErrorOccured l.error_code_ error_code,
    { l with error_code_ := Processor.ErrorOccured l.error_code_ error_code })

/-- The inherited `InitDone()` on a native layout. -/
def NativeLayout.InitDone (l : NativeLayout) : ErrorCode × NativeLayout :=
  (Processor.InitDone l.error_code_,
    { l with error_code_ := Processor.InitDone l.error_code_ })

/-- Embeds `NativeLayout::CanUsePadding` for the bound output image. -/
def NativeLayout.CanUsePadding (out : Image) : Bool :=
  match out.pixel_format with
  | ImagePixelFormat.kI420 => true
  | ImagePixelFormat.kRGB0 => true
  | ImagePixelFormat.kUYVY => false
  | _ => false

/-- Embeds `NativeLayout::Init`, `out` being the bound output image. -/
def NativeLayout.Init (u : Utilities) (env : InitEnv) (out : Image) (l : NativeLayout) :
    ErrorCode × NativeLayout :=
  let captured_width := l.parameter_.clipping_width
  let captured_height := l.parameter_.clipping_height
  let pad : PaddingSize :=
    if NativeLayout.CanUsePadding out then
      u.CalculatePaddingSize out.width out.height captured_width captured_height
        l.parameter_.stretch l.parameter_.keep_aspect_ratio
    else { padding_top := 0, padding_bottom := 0, padding_left := 0, padding_right := 0 }
  let converted_width :=
    if NativeLayout.CanUsePadding out then
      int_sub out.width (int_add pad.padding_left pad.padding_right)
    else out.width
  let converted_height :=
    if NativeLayout.CanUsePadding out then
      int_sub out.height (int_add pad.padding_top pad.padding_bottom)
    else out.height
  let r_captured := Image.Create (env.error_captured_image 0) (env.captured_fresh 0)
    l.captured_image_ ImagePixelFormat.kRGB0 captured_width captured_height
  let l1 := { l with captured_image_ := r_captured.2 }
  if r_captured.1 ≠ ErrorCode.kNoError then
    NativeLayout.ErrorOccured l1 r_captured.1
  else
    let r_converted :=
      if NativeLayout.CanUsePadding out then
        Image.Create (env.error_converted_image 0) (env.converted_fresh 0)
          l1.converted_image_ out.pixel_format converted_width converted_height
      else (ErrorCode.kNoError, l1.converted_image_)
    let l2 := { l1 with converted_image_ := r_converted.2 }
    if r_converted.1 ≠ ErrorCode.kNoError then
      NativeLayout.ErrorOccured l2 r_converted.1
    else if env.error_screen_capture ≠ ErrorCode.kNoError then
      NativeLayout.ErrorOccured l2 env.error_screen_capture
    else
      let screen_capture : ScreenCapture :=
        { flip_vertical := none, size := 1, parameters := [l.parameter_] }
      let l3 := { l2 with screen_capture_ := some screen_capture }
      if env.error_scale_init 0 ≠ ErrorCode.kNoError then
        NativeLayout.ErrorOccured l3 (env.error_scale_init 0)
      else
        let scale : Scale := { swscale_config := l.parameter_.swscale_config }
        let l4 := { l3 with scale_ := some scale }
        if NativeLayout.CanUsePadding out then
          if env.error_padding_init ≠ ErrorCode.kNoError then
            NativeLayout.ErrorOccured l4 env.error_padding_init
          else
            let padding : Padding :=
              { padding_left := pad.padding_left, padding_right := pad.padding_right,
                padding_top := pad.padding_top, padding_bottom := pad.padding_bottom }
            let l5 := { l4 with padding_ := some padding }
            NativeLayout.InitDone l5
        else
          NativeLayout.InitDone l4

/-- Embeds `NativeLayout::Run`, `out` being the bound output image. The value is the
returned code, the layout and the output image afterwards. The output pointer
is the one `Init` saw; `NativeLayout.RunBound` covers an output pointer that
was set again after `Init`. -/
def NativeLayout.Run (frame : FrameEnv) (l : NativeLayout) (out : Image) :
    Option (ErrorCode × NativeLayout × Image) :=
  if l.error_code_ ≠ ErrorCode.kNoError then some (l.error_code_, l, out)
  else
    match l.screen_capture_ with
    | none => none
    | some _ =>
      let l1 := { l with captured_image_ := l.captured_image_.store (frame.captured 0) }
      if frame.error_screen_capture ≠ ErrorCode.kNoError then
        some ((l1.ErrorOccured frame.error_screen_capture).1,
          (l1.ErrorOccured frame.error_screen_capture).2, out)
      else
        match l1.scale_ with
        | none => none
        | some _ =>
          let l2 :=
            if NativeLayout.CanUsePadding out then
              { l1 with converted_image_ := l1.converted_image_.store (frame.converted 0) }
            else l1
          let out2 :=
            if NativeLayout.CanUsePadding out then out else out.store (frame.converted 0)
          if frame.error_scale 0 ≠ ErrorCode.kNoError then
            some ((l2.ErrorOccured (frame.error_scale 0)).1,
              (l2.ErrorOccured (frame.error_scale 0)).2, out2)
          else if NativeLayout.CanUsePadding out then
            match l2.padding_ with
            | none => none
            | some p =>
              match l2.converted_image_.avpicture with
              | none => none
              | some inner =>
                match out2.avpicture with
                | none => none
                | some outer =>
                  if frame.error_padding ≠ ErrorCode.kNoError then
                    some ((l2.ErrorOccured frame.error_padding).1,
                      (l2.ErrorOccured frame.error_padding).2,
                      out2.store frame.padding_failed)
                  else
                    some (l2.error_code_, l2,
                      out2.store (Padding.Run p inner l2.converted_image_.width
                        l2.converted_image_.height outer out2.width out2.height))
          else some (l2.error_code_, l2, out2)

/-- Embeds `NativeLayout::Run` for a layout whose output pointer may have been set
again after `Init`. `current` is the image the output pointer names now, `bound`
the image it named during `Init`. `Init` hands that image to `scale_`
(`scale->SetOutputImage(GetOutputImage())`) when padding is not used, and to
`padding_` (`padding->SetOutputImage(GetOutputImage())`) when it is; `Run` hands
them no other image, so they write `bound`. `Run` reads the output pointer in
`CanUsePadding()` only. The value is the returned code, the layout and the
image `bound` afterwards. -/
def NativeLayout.RunBound (frame : FrameEnv) (l : NativeLayout) (current bound : Image) :
    Option (ErrorCode × NativeLayout × Image) :=
  if l.error_code_ ≠ ErrorCode.kNoError then some (l.error_code_, l, bound)
  else
    match l.screen_capture_ with
    | none => none
    | some _ =>
      let l1 := { l with captured_image_ := l.captured_image_.store (frame.captured 0) }
      if frame.error_screen_capture ≠ ErrorCode.kNoError then
        some ((l1.ErrorOccured frame.error_screen_capture).1,
          (l1.ErrorOccured frame.error_screen_capture).2, bound)
      else
        match l1.scale_ with
        | none => none
        | some _ =>
          let l2 :=
            if NativeLayout.CanUsePadding bound then
              { l1 with converted_image_ := l1.converted_image_.store (frame.converted 0) }
            else l1
          let out2 :=
            if NativeLayout.CanUsePadding bound then bound else bound.store (frame.converted 0)
          if frame.error_scale 0 ≠ ErrorCode.kNoError then
            some ((l2.ErrorOccured (frame.error_scale 0)).1,
              (l2.ErrorOccured (frame.error_scale 0)).2, out2)
          else if NativeLayout.CanUsePadding current then
            match l2.padding_ with
            | none => none
            | some p =>
              match l2.converted_image_.avpicture with
              | none => none
              | some inner =>
                match out2.avpicture with
                | none => none
                | some outer =>
                  if frame.error_padding ≠ ErrorCode.kNoError then
                    some ((l2.ErrorOccured frame.error_padding).1,
                      (l2.ErrorOccured frame.error_padding).2,
                      out2.store frame.padding_failed)
                  else
                    some (l2.error_code_, l2,
                      out2.store (Padding.Run p inner l2.converted_image_.width
                        l2.converted_image_.height outer out2.width out2.height))
          else some (l2.error_code_, l2, out2)

/-! ## Complex layout -/

/-- State of a `ComplexLayout`. -/
structure ComplexLayout where
  error_code_ : ErrorCode
  element_count_ : Int
  parameters_ : ParamArray
  screen_capture_ : Option ScreenCapture
  scale_ : Fin kMaxProcessorSize → Option Scale
  element_x_ : Fin kMaxProcessorSize → Int
  element_y_ : Fin kMaxProcessorSize → Int
  captured_image_ : Fin kMaxProcessorSize → Image
  converted_image_ : Fin kMaxProcessorSize → Image

/-- Embeds `ComplexLayout::ComplexLayout(element_count, parameters)`. -/
def ComplexLayout.new (element_count : Int) (parameters : ParamArray) : ComplexLayout :=
  { error_code_ := ErrorCode.kProcessorUninitializedError,
    element_count_ := element_count,
    parameters_ := parameters,
    screen_capture_ := none,
    scale_ := fun _ => none,
    element_x_ := fun _ => -1,
    element_y_ := fun _ => -1,
    captured_image_ := fun _ => Image.uncreated,
    converted_image_ := fun _ => Image.uncreated }

/-- The inherited `ErrorOccured(error_code)` on a complex layout: the returned
code and the layout afterwards. -/
def ComplexLayout.ErrorOccured (l : ComplexLayout) (error_code : ErrorCode) :
    ErrorCode × ComplexLayout :=
  (Processor.ErrorOccured l.error_code_ error_code,
    { l with error_code_ := Processor.ErrorOccured l.error_code_ error_code })

/-- The inherited `InitDone()` on a complex layout. -/
def ComplexLayout.InitDone (l : ComplexLayout) : ErrorCode × ComplexLayout :=
  (Processor.InitDone l.error_code_,
    { l with error_code_ := Processor.InitDone l.error_code_ })

/-- Embeds `ComplexLayout::InitByIndex(index)`, `out` being the bound output image. -/
def ComplexLayout.InitByIndex (u : Utilities) (env : InitEnv) (out : Image)
    (l : ComplexLayout) (index : Fin kMaxProcessorSize) : ErrorCode × ComplexLayout :=
  let p := l.parameters_ index
  if !Contains 0 0 out.width out.height p.bound_x p.bound_y p.bound_width p.bound_height then
    (ErrorCode.kComplexLayoutBoundError, l)
  else
    let pad := u.CalculatePaddingSize p.bound_width p.bound_height
      p.clipping_width p.clipping_height p.stretch p.keep_aspect_ratio
    let l1 := { l with
      element_x_ := Function.update l.element_x_ index (int_add p.bound_x pad.padding_left),
      element_y_ := Function.update l.element_y_ index (int_add p.bound_y pad.padding_top) }
    let element_width :=
      int_sub p.bound_width (int_add pad.padding_left pad.padding_right)
    let element_height :=
      int_sub p.bound_height (int_add pad.padding_top pad.padding_bottom)
    let r_captured := Image.Create (env.error_captured_image index) (env.captured_fresh index)
      (l1.captured_image_ index) ImagePixelFormat.kRGB0 p.clipping_width p.clipping_height
    let l2 := { l1 with
      captured_image_ := Function.update l1.captured_image_ index r_captured.2 }
    if r_captured.1 ≠ ErrorCode.kNoError then (r_captured.1, l2)
    else
      let r_converted :=
        Image.Create (env.error_converted_image index) (env.converted_fresh index)
          (l2.converted_image_ index) out.pixel_format element_width element_height
      let l3 := { l2 with
        converted_image_ := Function.update l2.converted_image_ index r_converted.2 }
      if r_converted.1 ≠ ErrorCode.kNoError then (r_converted.1, l3)
      else if env.error_scale_init index ≠ ErrorCode.kNoError then
        (env.error_scale_init index, l3)
      else
        let scale : Scale := { swscale_config := p.swscale_config }
        (ErrorCode.kNoError, { l3 with scale_ := Function.update l3.scale_ index (some scale) })

/-- The element loop of `ComplexLayout::Init`,
`for (int i = 0; i < element_count_; i++)`: `remaining` iterations are left and
the next index is `i`. The value is `kNoError` when all iterations pass,
otherwise the code of the first failing `InitByIndex`. -/
def ComplexLayout.InitElements (u : Utilities) (env : InitEnv) (out : Image) :
    Nat → Nat → ComplexLayout → Option (ErrorCode × ComplexLayout)
  | 0, _, l => some (ErrorCode.kNoError, l)
  | remaining + 1, i, l =>
    if h : i < kMaxProcessorSize then
      let r := ComplexLayout.InitByIndex u env out l ⟨i, h⟩
      if r.1 ≠ ErrorCode.kNoError then some r
      else ComplexLayout.InitElements u env out remaining (i + 1) r.2
    else none

/-- Embeds `ComplexLayout::Init`, `out` being the bound output image. -/
def ComplexLayout.Init (u : Utilities) (env : InitEnv) (out : Image) (l : ComplexLayout) :
    Option (ErrorCode × ComplexLayout) :=
  if !CanUseDrawUtils out.pixel_format then
    some (l.ErrorOccured ErrorCode.kComplexLayoutInvalidPixelFormatError)
  else
    match ComplexLayout.InitElements u env out l.element_count_.toNat 0 l with
    | none => none
    | some (error_element, l1) =>
      if error_element ≠ ErrorCode.kNoError then some (l1.ErrorOccured error_element)
      else if env.error_screen_capture ≠ ErrorCode.kNoError then
        some (l1.ErrorOccured env.error_screen_capture)
      else
        let screen_capture : ScreenCapture :=
          { flip_vertical := some (!u.IsTopdownPixelFormat out.pixel_format),
            size := l1.element_count_,
            parameters := List.ofFn l1.parameters_ }
        let l2 := { l1 with screen_capture_ := some screen_capture }
        some l2.InitDone

/-- The scale loop of `ComplexLayout::Run`,
`for (int i = element_count_ - 1; i >= 0; i--)`: the indices `k - 1, ..., 0` are
left. The value is `kNoError` when every scale passes, otherwise the code of the
first failing one. -/
def ComplexLayout.ScaleElements (frame : FrameEnv) :
    Nat → ComplexLayout → Option (ErrorCode × ComplexLayout)
  | 0, l => some (ErrorCode.kNoError, l)
  | k + 1, l =>
    if h : k < kMaxProcessorSize then
      match l.scale_ ⟨k, h⟩ with
      | none => none
      | some _ =>
        let l1 := { l with
          converted_image_ := Function.update l.converted_image_ ⟨k, h⟩
            ((l.converted_image_ ⟨k, h⟩).store (frame.converted ⟨k, h⟩)) }
        if frame.error_scale ⟨k, h⟩ ≠ ErrorCode.kNoError then
          some (frame.error_scale ⟨k, h⟩, l1)
        else ComplexLayout.ScaleElements frame k l1
    else none

/-- The draw loop of `ComplexLayout::Run`,
`for (int i = 0; i < element_count_; i++)`: `remaining` iterations are left, the
next index is `i`, and `out` is the buffer of the output image. -/
def ComplexLayout.DrawElements (l : ComplexLayout) : Nat → Nat → Bitmap → Option Bitmap
  | 0, _, out => some out
  | remaining + 1, i, out =>
    if h : i < kMaxProcessorSize then
      match (l.converted_image_ ⟨i, h⟩).avpicture with
      | none => none
      | some src =>
        ComplexLayout.DrawElements l remaining (i + 1)
          (ff_copy_rectangle2 out src (l.element_x_ ⟨i, h⟩) (l.element_y_ ⟨i, h⟩) 0 0
            (l.converted_image_ ⟨i, h⟩).width (l.converted_image_ ⟨i, h⟩).height)
    else none

/-- Embeds `ComplexLayout::Run`, `out` being the bound output image. The value is the
returned code, the layout and the output image afterwards. -/
def ComplexLayout.Run (frame : FrameEnv) (l : ComplexLayout) (out : Image) :
    Option (ErrorCode × ComplexLayout × Image) :=
  if l.error_code_ ≠ ErrorCode.kNoError then some (l.error_code_, l, out)
  else
    match l.screen_capture_ with
    | none => none
    | some _ =>
      let l1 := { l with captured_image_ := fun i =>
        if (i.val : Int) < l.element_count_ then (l.captured_image_ i).store (frame.captured i)
        else l.captured_image_ i }
      if frame.error_screen_capture ≠ ErrorCode.kNoError then
        some ((l1.ErrorOccured frame.error_screen_capture).1,
          (l1.ErrorOccured frame.error_screen_capture).2, out)
      else
        match ComplexLayout.ScaleElements frame l1.element_count_.toNat l1 with
        | none => none
        | some (error_scale, l2) =>
          if error_scale ≠ ErrorCode.kNoError then
            some ((l2.ErrorOccured error_scale).1, (l2.ErrorOccured error_scale).2, out)
          else
            match out.avpicture with
            | none => none
            | some buffer =>
              match ComplexLayout.DrawElements l2 l2.element_count_.toNat 0
                  (ff_fill_rectangle kBlack buffer 0 0 out.width out.height) with
              | none => none
              | some drawn => some (l2.error_code_, l2, out.store drawn)

/-! ## Engine -/

/-- The two kinds of layout processor. -/
inductive LayoutProcessor where
  | native (l : NativeLayout)
  | complex (l : ComplexLayout)

/-- The image that an `ImageIndex` names, of the two output images. -/
def ImageIndex.select (i : ImageIndex) (front back : Image) : Image :=
  match i with
  | ImageIndex.kFront => front
  | ImageIndex.kBack => back

/-- An installed layout: the processor, the engine image its output pointer
names (`SetOutputImage` / `SwapOutputImage`) and the engine image the output
pointer named when `Init` ran. Engine.cc sets the output pointer to
`&front_image_` before every `Init`. -/
structure Layout where
  output_image_ : ImageIndex
  processor : LayoutProcessor
  init_output_image_ : ImageIndex := ImageIndex.kFront

/-- Modelled from the spec: `SwapOutputImage` of the layout base class, whose
header is absent (§4.7 "rebind the layout's output"). It sets the output
pointer of the layout. Native-layout.cc has no `SwapOutputImage` of its own,
and the operators that `NativeLayout::Init` bound keep their image. -/
def Layout.SwapOutputImage (layout : Layout) (image : ImageIndex) : Layout :=
  { layout with output_image_ := image }

/-- The virtual call `layout_->Run()`, `front` and `back` being the two output
images of the engine. `ComplexLayout::Run` reads the output pointer and draws
into the image it names now. The operators of a `NativeLayout` write the image
the output pointer named during `Init`, whatever it names now. The value is
the returned code, the layout, the index of the image the run writes and that
image afterwards. -/
def Layout.Run (frame : FrameEnv) (layout : Layout) (front back : Image) :
    Option (ErrorCode × Layout × ImageIndex × Image) :=
  match layout.processor with
  | LayoutProcessor.native l =>
    (NativeLayout.RunBound frame l (layout.output_image_.select front back)
        (layout.init_output_image_.select front back)).map
      (fun r => (r.1, { layout with processor := LayoutProcessor.native r.2.1 },
        layout.init_output_image_, r.2.2))
  | LayoutProcessor.complex l =>
    (ComplexLayout.Run frame l (layout.output_image_.select front back)).map
      (fun r => (r.1, { layout with processor := LayoutProcessor.complex r.2.1 },
        layout.output_image_, r.2.2))

/-- State of an `Engine`. The frame rate only sets the sleep between frames and
is left out. -/
structure Engine where
  error_code_ : ErrorCode
  output_pixel_format_ : ImagePixelFormat
  output_width_ : Int
  output_height_ : Int
  front_image_ : Image
  back_image_ : Image
  splash_image_ : Image
  layout_ : Option Layout
  layout_error_code_ : ErrorCode
  last_update_image_ : ImageIndex
  element_count_ : Int
  parameters_ : ParamArray

/-- Embeds `Engine::Engine(output_pixel_format, output_width, output_height, fps)`.
The constructor does not initialise `element_count_` and `parameters_`; their
indeterminate values are arguments here. -/
def Engine.new (output_pixel_format : ImagePixelFormat) (output_width output_height : Int)
    (element_count : Int) (parameters : ParamArray) : Engine :=
  { error_code_ := ErrorCode.kProcessorUninitializedError,
    output_pixel_format_ := output_pixel_format,
    output_width_ := output_width,
    output_height_ := output_height,
    front_image_ := Image.uncreated,
    back_image_ := Image.uncreated,
    splash_image_ := Image.uncreated,
    layout_ := none,
    layout_error_code_ := ErrorCode.kProcessorUninitializedError,
    last_update_image_ := ImageIndex.kFront,
    element_count_ := element_count,
    parameters_ := parameters }

/-- The engine image that an `ImageIndex` names. -/
def Engine.image (e : Engine) (i : ImageIndex) : Image :=
  match i with
  | ImageIndex.kFront => e.front_image_
  | ImageIndex.kBack => e.back_image_

/-- Replace the engine image that an `ImageIndex` names. -/
def Engine.setImage (e : Engine) (i : ImageIndex) (img : Image) : Engine :=
  match i with
  | ImageIndex.kFront => { e with front_image_ := img }
  | ImageIndex.kBack => { e with back_image_ := img }

/-- The function `Clear(image)` of engine.cc: fill the image with black when draw-utils can
handle its format, else do nothing. -/
def Clear (image : Image) : Option Image :=
  if !CanUseDrawUtils image.pixel_format then some image
  else
    match image.avpicture with
    | none => none
    | some buffer =>
      some (image.store (ff_fill_rectangle kBlack buffer 0 0 image.width image.height))

/-- Embeds `Engine::GetCurrentError` (inherited). -/
def Engine.GetCurrentError (e : Engine) : ErrorCode := e.error_code_

/-- Embeds `Engine::GetCurrentLayoutError`. -/
def Engine.GetCurrentLayoutError (e : Engine) : ErrorCode := e.layout_error_code_

/-- Embeds `Engine::LayoutInitDone`. -/
def Engine.LayoutInitDone (e : Engine) : Option Engine :=
  if e.layout_error_code_ = ErrorCode.kProcessorUninitializedError then
    match Clear e.front_image_ with
    | none => none
    | some front =>
      match Clear e.back_image_ with
      | none => none
      | some back =>
        some { e with layout_error_code_ := ErrorCode.kNoError,
                      front_image_ := front, back_image_ := back }
  else some e

/-- Embeds `Engine::LayoutErrorOccured`. -/
def Engine.LayoutErrorOccured (e : Engine) (error_code : ErrorCode) : Engine :=
  if error_code ≠ ErrorCode.kNoError then { e with layout_error_code_ := error_code }
  else e

/-- Embeds `Engine::CopyFrontImage(sample, data_size)`: the returned code, the
destination buffer afterwards and the engine afterwards. The destination
buffer is the list `sample`, `data_size` its length. -/
def Engine.CopyFrontImage (e : Engine) (sample : List Nat) :
    Option (ErrorCode × List Nat × Engine) :=
  if e.GetCurrentError ≠ ErrorCode.kNoError then
    some (e.GetCurrentError, ZeroMemory sample, e)
  else if e.GetCurrentLayoutError ≠ ErrorCode.kNoError then
    match e.splash_image_.avpicture with
    | none => none
    | some buffer =>
      some (e.GetCurrentError,
        avpicture_layout buffer e.splash_image_.width e.splash_image_.height sample, e)
  else
    match e.last_update_image_ with
    | ImageIndex.kFront =>
      match e.front_image_.avpicture with
      | none => none
      | some buffer =>
        some (e.GetCurrentError,
          avpicture_layout buffer e.front_image_.width e.front_image_.height sample, e)
    | ImageIndex.kBack =>
      match e.back_image_.avpicture with
      | none => none
      | some buffer =>
        some (e.GetCurrentError,
          avpicture_layout buffer e.back_image_.width e.back_image_.height sample, e)

/-- Embeds `Engine::SetLayoutParameters(element_count, parameters)`. -/
def Engine.SetLayoutParameters (u : Utilities) (e : Engine) (element_count : Int)
    (parameters : ParamArray) : Engine :=
  { e with
    element_count_ := element_count,
    parameters_ := fun i =>
      if u.IsTopdownPixelFormat e.output_pixel_format_ then
        { parameters i with
          bound_y := int_sub e.output_height_
            (int_add (parameters i).bound_y (parameters i).bound_height) }
      else parameters i }

/-- Embeds `Engine::DoResetLayout`. -/
def Engine.DoResetLayout (e : Engine) : Engine :=
  { e with layout_ := none, layout_error_code_ := ErrorCode.kProcessorUninitializedError }

/-- Embeds `Engine::DoSetNativeLayout`. -/
def Engine.DoSetNativeLayout (u : Utilities) (env : InitEnv) (e : Engine) : Option Engine :=
  let e1 := e.DoResetLayout
  let native_layout := NativeLayout.new (e1.parameters_ 0)
  let r := NativeLayout.Init u env e1.front_image_ native_layout
  if r.1 ≠ ErrorCode.kNoError then some (e1.LayoutErrorOccured r.1)
  else
    let layout : Layout :=
      { output_image_ := ImageIndex.kFront, processor := LayoutProcessor.native r.2,
        init_output_image_ := ImageIndex.kFront }
    Engine.LayoutInitDone { e1 with layout_ := some layout }

/-- Embeds `Engine::DoSetComplexLayout`. -/
def Engine.DoSetComplexLayout (u : Utilities) (env : InitEnv) (e : Engine) : Option Engine :=
  let e1 := e.DoResetLayout
  let complex_layout := ComplexLayout.new e1.element_count_ e1.parameters_
  match ComplexLayout.Init u env e1.front_image_ complex_layout with
  | none => none
  | some r =>
    if r.1 ≠ ErrorCode.kNoError then some (e1.LayoutErrorOccured r.1)
    else
      let layout : Layout :=
        { output_image_ := ImageIndex.kFront, processor := LayoutProcessor.complex r.2,
          init_output_image_ := ImageIndex.kFront }
      Engine.LayoutInitDone { e1 with layout_ := some layout }

/-- Embeds `Engine::Run`: run the installed layout; the image it writes is one of
the two output images of the engine. -/
def Engine.Run (frame : FrameEnv) (e : Engine) : Option (ErrorCode × Engine) :=
  match e.layout_ with
  | none => none
  | some layout =>
    match Layout.Run frame layout e.front_image_ e.back_image_ with
    | none => none
    | some (error, layout1, written, out1) =>
      let e1 := { e.setImage written out1 with layout_ := some layout1 }
      let e2 := if error ≠ ErrorCode.kNoError then e1.LayoutErrorOccured error else e1
      some (e2.GetCurrentError, e2)

/-- Embeds `Engine::Update`. -/
def Engine.Update (frame : FrameEnv) (e : Engine) : Option Engine :=
  if e.GetCurrentLayoutError ≠ ErrorCode.kNoError then some e
  else
    match e.layout_ with
    | none => none
    | some layout =>
      match e.last_update_image_ with
      | ImageIndex.kFront =>
        (Engine.Run frame { e with layout_ := some (layout.SwapOutputImage ImageIndex.kBack) }).map
          (fun r => { r.2 with last_update_image_ := ImageIndex.kBack })
      | ImageIndex.kBack =>
        (Engine.Run frame { e with layout_ := some (layout.SwapOutputImage ImageIndex.kFront) }).map
          (fun r => { r.2 with last_update_image_ := ImageIndex.kFront })

/-- What the allocator and the splash screen processor report during
`Engine::Init`. -/
structure EngineInitEnv where
  error_front_image : ErrorCode
  front_fresh : Bitmap
  error_back_image : ErrorCode
  back_fresh : Bitmap
  error_splash_image : ErrorCode
  splash_fresh : Bitmap
  error_splash_screen : ErrorCode
  error_splash_image_pull : ErrorCode
  splash_artwork : Bitmap

/-- The inherited `ErrorOccured(error_code)` on the engine. -/
def Engine.ErrorOccured (e : Engine) (error_code : ErrorCode) : ErrorCode × Engine :=
  (Processor.ErrorOccured e.error_code_ error_code,
    { e with error_code_ := Processor.ErrorOccured e.error_code_ error_code })

/-- The inherited `InitDone()` on the engine. -/
def Engine.InitDone (e : Engine) : ErrorCode × Engine :=
  (Processor.InitDone e.error_code_, { e with error_code_ := Processor.InitDone e.error_code_ })

/-- Embeds `Engine::Init`. The request `kResetLayout` sent to the fresh worker thread
is the call of `DoResetLayout`. -/
def Engine.Init (env : EngineInitEnv) (e : Engine) : ErrorCode × Engine :=
  let r_front := Image.Create env.error_front_image env.front_fresh e.front_image_
    e.output_pixel_format_ e.output_width_ e.output_height_
  let e1 := { e with front_image_ := r_front.2 }
  if r_front.1 ≠ ErrorCode.kNoError then e1.ErrorOccured r_front.1
  else
    let r_back := Image.Create env.error_back_image env.back_fresh e1.back_image_
      e1.output_pixel_format_ e1.output_width_ e1.output_height_
    let e2 := { e1 with back_image_ := r_back.2 }
    if r_back.1 ≠ ErrorCode.kNoError then e2.ErrorOccured r_back.1
    else
      let r_splash := Image.Create env.error_splash_image env.splash_fresh e2.splash_image_
        e2.output_pixel_format_ e2.output_width_ e2.output_height_
      let e3 := { e2 with splash_image_ := r_splash.2 }
      if r_splash.1 ≠ ErrorCode.kNoError then e3.ErrorOccured r_splash.1
      else if env.error_splash_screen ≠ ErrorCode.kNoError then
        e3.ErrorOccured env.error_splash_screen
      else
        let e4 := { e3 with splash_image_ := e3.splash_image_.store env.splash_artwork }
        if env.error_splash_image_pull ≠ ErrorCode.kNoError then
          e4.ErrorOccured env.error_splash_image_pull
        else e4.DoResetLayout.InitDone

/-! ## Worker thread -/

/-- The engine together with the position of its worker thread: inside
`DoLoop` or waiting in `ThreadProc`, or terminated. -/
structure Worker where
  engine : Engine
  in_loop : Bool
  terminated : Bool

/-- What can happen to a running engine: a request sent with `CallWorker` (with
what the next layout `Init` will be told by its environment), one pass of the
frame loop, and the two calls made by other threads. -/
inductive Step where
  | request (r : RequestType) (env : InitEnv)
  | update (frame : FrameEnv)
  | setLayoutParameters (element_count : Int) (parameters : ParamArray)
  | copyFrontImage (sample : List Nat)

/-- Embeds `Engine::DoLoop` seeing a request: `kRun` is answered at once, `kStop` ends
the loop and is answered by `ThreadProc`; any other request is never
answered (`none`). -/
def Worker.DoLoop (w : Worker) (r : RequestType) : Option Worker :=
  match r with
  | RequestType.kRun => some w
  | RequestType.kStop => some { w with in_loop := false }
  | RequestType.kInvalid => none
  | RequestType.kResetLayout => none
  | RequestType.kSetNativeLayout => none
  | RequestType.kSetComplexLayout => none
  | RequestType.kExit => none

/-- Embeds `Engine::ThreadProc` receiving a request outside the frame loop. `none`:
the request is never answered, or the program does not survive it. -/
def Worker.ThreadProc (u : Utilities) (w : Worker) (r : RequestType) (env : InitEnv) :
    Option Worker :=
  match r with
  | RequestType.kResetLayout => some { w with engine := w.engine.DoResetLayout }
  | RequestType.kSetNativeLayout =>
    (w.engine.DoSetNativeLayout u env).map (fun e => { w with engine := e })
  | RequestType.kSetComplexLayout =>
    (w.engine.DoSetComplexLayout u env).map (fun e => { w with engine := e })
  | RequestType.kRun => some { w with in_loop := true }
  | RequestType.kStop => some w
  | RequestType.kExit => some { w with terminated := true }
  | RequestType.kInvalid => none

/-- The worker thread serving one request sent with `CallWorker`. -/
def Worker.serve (u : Utilities) (w : Worker) (r : RequestType) (env : InitEnv) :
    Option Worker :=
  if w.terminated then none
  else if w.in_loop then w.DoLoop r
  else w.ThreadProc u r env

/-- One step of a running engine. -/
def Worker.step (u : Utilities) (w : Worker) (s : Step) : Option Worker :=
  match s with
  | Step.request r env => w.serve u r env
  | Step.update frame =>
    if w.in_loop && !w.terminated then
      (w.engine.Update frame).map (fun e => { w with engine := e })
    else none
  | Step.setLayoutParameters element_count parameters =>
    some { w with engine := w.engine.SetLayoutParameters u element_count parameters }
  | Step.copyFrontImage sample =>
    (w.engine.CopyFrontImage sample).map (fun r => { w with engine := r.2.2 })

/-- A sequence of steps, from left to right. -/
def Worker.steps (u : Utilities) (w : Worker) : List Step → Option Worker
  | [] => some w
  | s :: rest =>
    match w.step u s with
    | none => none
    | some w1 => Worker.steps u w1 rest

/-- The controller helper `Engine::SetNativeLayout()`. -/
def Engine.SetNativeLayout (env : InitEnv) : List Step :=
  [Step.request RequestType.kStop env, Step.request RequestType.kSetNativeLayout env,
   Step.request RequestType.kRun env]

/-- The controller helper `Engine::SetComplexLayout()`. -/
def Engine.SetComplexLayout (env : InitEnv) : List Step :=
  [Step.request RequestType.kStop env, Step.request RequestType.kSetComplexLayout env,
   Step.request RequestType.kRun env]

/-- The controller helper `Engine::ResetLayout()`. -/
def Engine.ResetLayout (env : InitEnv) : List Step :=
  [Step.request RequestType.kStop env, Step.request RequestType.kResetLayout env,
   Step.request RequestType.kRun env]

/-- The step is a request to install a layout. -/
def Step.isSetLayout : Step → Bool
  | Step.request RequestType.kSetNativeLayout _ => true
  | Step.request RequestType.kSetComplexLayout _ => true
  | _ => false

/-- The parameter at `index` passes the bound check of `InitByIndex` and the
environment lets the element initialise. -/
def ElementInitialises (env : InitEnv) (out : Image) (parameters : ParamArray)
    (index : Fin kMaxProcessorSize) : Prop :=
  Contains 0 0 out.width out.height (parameters index).bound_x (parameters index).bound_y
      (parameters index).bound_width (parameters index).bound_height = true ∧
    env.error_captured_image index = ErrorCode.kNoError ∧
    env.error_converted_image index = ErrorCode.kNoError ∧
    env.error_scale_init index = ErrorCode.kNoError

/-- The pixel `(x, y)` of the output lies in the rectangle that element
`index` is drawn to: origin `(element_x_, element_y_)`, size of the converted
image. -/
def ComplexLayout.inElement (l : ComplexLayout) (index : Fin kMaxProcessorSize)
    (x y : Int) : Bool :=
  inRect (l.element_x_ index) (l.element_y_ index) (l.converted_image_ index).width
    (l.converted_image_ index).height x y

/-- The flip that `Engine::SetLayoutParameters` applies to `bound_y`,
`output_height - (bound_y + bound_height)`, over exact integers. -/
def flipBoundY (output_height bound_y bound_height : Int) : Int :=
  output_height - (bound_y + bound_height)

/-- The other one of the two output buffers. -/
def ImageIndex.other : ImageIndex → ImageIndex
  | ImageIndex.kFront => ImageIndex.kBack
  | ImageIndex.kBack => ImageIndex.kFront

/-- The invariant of C16: when the layout error is `kNoError` a layout is
installed (`layout_` is not null). -/
def Engine.LayoutInstalledIfNoError (e : Engine) : Prop :=
  e.layout_error_code_ = ErrorCode.kNoError → ∃ layout, e.layout_ = some layout

/-- The operators and images that `NativeLayout::Run` dereferences exist. -/
def NativeLayout.Ready (l : NativeLayout) (out : Image) : Prop :=
  (∃ sc, l.screen_capture_ = some sc) ∧ (∃ s, l.scale_ = some s) ∧
    (NativeLayout.CanUsePadding out = true →
      (∃ p, l.padding_ = some p) ∧ (∃ b, l.converted_image_.avpicture = some b) ∧
        ∃ b, out.avpicture = some b)

/-- The operators and images that `ComplexLayout::Run` dereferences exist and
the element count fits the arrays. -/
def ComplexLayout.Ready (l : ComplexLayout) (out : Image) : Prop :=
  (∃ sc, l.screen_capture_ = some sc) ∧ l.element_count_ ≤ kMaxProcessorSize ∧
    (∃ b, out.avpicture = some b) ∧
    ∀ j : Fin kMaxProcessorSize, (j.val : Int) < l.element_count_ →
      (∃ s, l.scale_ j = some s) ∧ ∃ b, (l.converted_image_ j).avpicture = some b

/-! ## AVPictureWithFillImage -/

/-- An `AVPicture` that `avpicture_fill` has pointed into a buffer: the byte
count that the fill reported. -/
structure AVPicture where
  filled_size : Int

/-- State of an `AVPictureWithFillImage`: the fields of the base class `Image`
and the two pointers, `none` for `nullptr`. The buffer is the list of its
bytes. -/
structure AVPictureWithFillImage where
  pixel_format : ImagePixelFormat
  width : Int
  height : Int
  raw_bitmap_ : Option (List Nat)
  avpicture_ : Option AVPicture

/-- Embeds `AVPictureWithFillImage::AVPictureWithFillImage()`; the fields of the
base class are those of `Image.uncreated`. -/
def AVPictureWithFillImage.new : AVPictureWithFillImage :=
  { pixel_format := Image.uncreated.pixel_format,
    width := Image.uncreated.width,
    height := Image.uncreated.height,
    raw_bitmap_ := none,
    avpicture_ := none }

/-- Embeds `AVPictureWithFillImage::IsEmpty`. -/
def AVPictureWithFillImage.IsEmpty (img : AVPictureWithFillImage) : Bool :=
  img.avpicture_.isNone

/-- What the callees of one `AVPictureWithFillImage::Create` report: the code of
the base class `Image::Create`, whether `av_malloc` finds memory, the bytes of
the block it returns, whether `new AVPicture()` yields an object (in standard
C++ it always does), and the value of `avpicture_fill`. -/
structure CreateEnv where
  error_create : ErrorCode
  malloc_ok : Bool
  fresh : Nat → Nat
  new_avpicture_ok : Bool
  result_fill : Int

/-- The external `av_malloc(size)` called with an `int`: a negative `int`
becomes a `size_t` beyond every allocation limit, so the result is null;
otherwise the environment decides, and the block has `size` bytes. -/
def av_malloc (env : CreateEnv) (size : Int) : Option (List Nat) :=
  if size < 0 then none
  else if env.malloc_ok then some ((List.range size.toNat).map env.fresh)
  else none

/-- Embeds `AVPictureWithFillImage::Create(pixel_format, width, height)`.
`CalculateDataSize` is `utilities::CalculateDataSize`, whose definition is not
among the sources. The base class `Image::Create` is absent too: modelled from
the spec (§4.1), it records format and size when it reports `kNoError`.

On the two failure paths after `av_malloc` (no `AVPicture` object, fill count
different from `size`) the source calls `av_freep(raw_bitmap)`: it hands over
the block itself, not the address of the pointer to it. `av_freep` then frees
the pointer that the first bytes of the fresh block spell and leaves the block
allocated. The program does not survive that call in a defined way, so the
value on these two paths is `none`, and the `return` statements that follow
the call (`kAVPictureWithFillImageCannotCreateAVPictureError`,
`kAVPictureWithFillImageCannotFillError`) are not reached in the embedding. -/
def AVPictureWithFillImage.Create (CalculateDataSize : ImagePixelFormat → Int → Int → Int)
    (env : CreateEnv) (img : AVPictureWithFillImage) (pixel_format : ImagePixelFormat)
    (width height : Int) : Option (ErrorCode × AVPictureWithFillImage) :=
  if env.error_create ≠ ErrorCode.kNoError then some (env.error_create, img)
  else
    let img1 := { img with pixel_format := pixel_format, width := width, height := height }
    let size := CalculateDataSize pixel_format width height
    match av_malloc env size with
    | none => some (ErrorCode.kAVPictureWithFillImageOutOfMemoryError, img1)
    | some raw_bitmap =>
      if env.new_avpicture_ok = false then none
      else if env.result_fill ≠ size then none
      else
        some (ErrorCode.kNoError,
          { img1 with avpicture_ := some { filled_size := env.result_fill },
                      raw_bitmap_ := some raw_bitmap })

/-! ## Concrete inputs -/

/-- A parameter with a 2x1 clipping and a bound equal to a 2x1 output. -/
def exParameter : LayoutParameter :=
  { bound_x := 0, bound_y := 0, bound_width := 2, bound_height := 1, window := 0,
    clipping_x := 0, clipping_y := 0, clipping_width := 2, clipping_height := 1,
    show_cursor := false, show_layered_window := false, swscale_config := 0,
    stretch := false, keep_aspect_ratio := false }

/-- Eight copies of `exParameter`. -/
def exParameters : ParamArray := fun _ => exParameter

/-- Utilities in which RGB0 is the topdown format and no padding is needed. -/
def exUtilities : Utilities :=
  { IsTopdownPixelFormat := fun f => decide (f = ImagePixelFormat.kRGB0),
    CalculatePaddingSize := fun _ _ _ _ _ _ =>
      { padding_top := 0, padding_bottom := 0, padding_left := 0, padding_right := 0 } }

/-- An `Init` environment in which every allocation and every operator `Init`
succeeds. -/
def exInitEnv : InitEnv :=
  { error_captured_image := fun _ => ErrorCode.kNoError,
    captured_fresh := fun _ _ _ => 0,
    error_converted_image := fun _ => ErrorCode.kNoError,
    converted_fresh := fun _ _ _ => 0,
    error_scale_init := fun _ => ErrorCode.kNoError,
    error_screen_capture := ErrorCode.kNoError,
    error_padding_init := ErrorCode.kNoError }

/-- An engine `Init` environment in which everything succeeds; the splash
artwork has the sample `1 + x` at `(x, y)`. -/
def exEngineInitEnv : EngineInitEnv :=
  { error_front_image := ErrorCode.kNoError,
    front_fresh := fun _ _ => 0,
    error_back_image := ErrorCode.kNoError,
    back_fresh := fun _ _ => 0,
    error_splash_image := ErrorCode.kNoError,
    splash_fresh := fun _ _ => 0,
    error_splash_screen := ErrorCode.kNoError,
    error_splash_image_pull := ErrorCode.kNoError,
    splash_artwork := fun x _ => (1 + x).toNat }

/-- A frame in which every operator succeeds and every sample is `c`. -/
def exFrame (c : Nat) : FrameEnv :=
  { error_screen_capture := ErrorCode.kNoError,
    captured := fun _ _ _ => c,
    error_scale := fun _ => ErrorCode.kNoError,
    converted := fun _ _ _ => c,
    error_padding := ErrorCode.kNoError,
    padding_failed := fun _ _ => 0 }

/-- The engine for a 2x1 output of the given format after construction and
`Init`. -/
def exEngine (pixel_format : ImagePixelFormat) : Engine :=
  (Engine.Init exEngineInitEnv (Engine.new pixel_format 2 1 1 exParameters)).2

/-- The worker of `exEngine`, waiting for its first request. -/
def exWorker (pixel_format : ImagePixelFormat) : Worker :=
  { engine := exEngine pixel_format, in_loop := false, terminated := false }

/-- The steps of the C2 witness: the frame loop runs without a layout. -/
def exLatchSteps : List Step :=
  [Step.request RequestType.kRun exInitEnv, Step.update (exFrame 7),
   Step.setLayoutParameters 1 exParameters, Step.copyFrontImage [0, 0],
   Step.request RequestType.kStop exInitEnv]

/-- The worker that `exLatchSteps` leads to from `exWorker kI420`. -/
def exLatchedWorker : Worker :=
  { engine := (exEngine ImagePixelFormat.kI420).SetLayoutParameters exUtilities 1 exParameters,
    in_loop := false, terminated := false }

/-- An engine with no layout error whose front image holds `3, 4`, whose back
image holds `5, 6` and whose last updated image is the front image. -/
def exReadyEngine : Engine :=
  { exEngine ImagePixelFormat.kI420 with
    layout_error_code_ := ErrorCode.kNoError,
    front_image_ := (exEngine ImagePixelFormat.kI420).front_image_.store
      (fun x _ => (3 + x).toNat),
    back_image_ := (exEngine ImagePixelFormat.kI420).back_image_.store
      (fun x _ => (5 + x).toNat),
    last_update_image_ := ImageIndex.kFront }

/-- The engine for a topdown RGB0 640x480 output. -/
def exTopdownEngine : Engine :=
  (Engine.Init exEngineInitEnv
    (Engine.new ImagePixelFormat.kRGB0 640 480 1 exParameters)).2

/-- Parameters with `bound_y = 10` and `bound_height = 100`. -/
def exFlipParameters : ParamArray :=
  fun _ => { exParameter with bound_y := 10, bound_height := 100 }

/-- An `Init` environment in which the `Init` of every scale operator fails
with code 5. -/
def exScaleFailsInitEnv : InitEnv :=
  { exInitEnv with error_scale_init := fun _ => ErrorCode.kOtherError 5 }

/-- The complex layout with one element after a successful `Init` on the front
image of the 2x1 I420 engine. -/
def exComplexLayout : ComplexLayout :=
  ((ComplexLayout.Init exUtilities exInitEnv (exEngine ImagePixelFormat.kI420).front_image_
    (ComplexLayout.new 1 exParameters)).getD
      (ErrorCode.kNoError, ComplexLayout.new 1 exParameters)).2

/-- The engine for a UYVY 640x480 output after construction and `Init`. -/
def exUyvyEngine : Engine :=
  (Engine.Init exEngineInitEnv
    (Engine.new ImagePixelFormat.kUYVY 640 480 1 exParameters)).2

/-- The UYVY 2x1 engine after a first `SetNativeLayout()` and one frame, all
samples of the frame being `7`. -/
def exFirstFrameWorker : Option Worker :=
  (exWorker ImagePixelFormat.kUYVY).steps exUtilities
    (Engine.SetNativeLayout exInitEnv ++ [Step.update (exFrame 7)])

/-- The same engine after a second frame, all samples of the frame being `8`. -/
def exOldFrameWorker : Option Worker :=
  exFirstFrameWorker.bind (fun w => w.steps exUtilities [Step.update (exFrame 8)])

/-- The same engine after a second `SetNativeLayout()`. -/
def exNewLayoutWorker : Option Worker :=
  exOldFrameWorker.bind (fun w => w.steps exUtilities (Engine.SetNativeLayout exInitEnv))

/-- What serving a request to install a layout leaves: either a layout error
and no layout, or no layout error, a layout, and front and back passed
through `Clear`. -/
def Engine.InstallResult (e e1 : Engine) : Prop :=
  (∃ err, err ≠ ErrorCode.kNoError ∧
    e1 = { e with layout_ := none, layout_error_code_ := err }) ∨
  (∃ layout front back, Clear e.front_image_ = some front ∧
    Clear e.back_image_ = some back ∧
    e1 = { e with layout_ := some layout, layout_error_code_ := ErrorCode.kNoError,
                  front_image_ := front, back_image_ := back })

/-- The I420 2x1 engine after `SetNativeLayout()`. -/
def exPlanarNewWorker : Worker :=
  (((exWorker ImagePixelFormat.kI420).steps exUtilities
    (Engine.SetNativeLayout exInitEnv)).getD (exWorker ImagePixelFormat.kI420))

/-- Two elements on a 2x1 output: the bound of element 1 is `(1, 0, 2, 1)` and
leaves the output on the right. -/
def exBoundParameters : ParamArray :=
  fun i => if i = 1 then { exParameter with bound_x := 1 } else exParameter

/-- A parameter whose bound rectangle is `(-5, 700, 10000, 3)`. -/
def exOutsideParameter : LayoutParameter :=
  { exParameter with bound_x := -5, bound_y := 700, bound_width := 10000, bound_height := 3 }

/-- A created 3x1 I420 image. -/
def exDrawOutput : Image :=
  (Image.Create ErrorCode.kNoError (fun _ _ => 9) Image.uncreated ImagePixelFormat.kI420 3 1).2

/-- The complex layout of the two elements of `exBoundParameters`, bounds
`(0, 0, 2, 1)` and `(1, 0, 2, 1)`, after `Init` on the 3x1 image. -/
def exDrawLayout : ComplexLayout :=
  ((ComplexLayout.Init exUtilities exInitEnv exDrawOutput
    (ComplexLayout.new 2 exBoundParameters)).getD
      (ErrorCode.kNoError, ComplexLayout.new 2 exBoundParameters)).2

/-- A frame in which the scale of element `i` writes the sample `i + 1`. -/
def exDrawFrame : FrameEnv :=
  { exFrame 0 with converted := fun i _ _ => i.val + 1 }

/-- What `Run` returns for `exDrawFrame` on `exDrawLayout` and `exDrawOutput`. -/
def exDrawResult : ErrorCode × ComplexLayout × Image :=
  (ComplexLayout.Run exDrawFrame exDrawLayout exDrawOutput).getD
    (ErrorCode.kOtherError 0, exDrawLayout, exDrawOutput)

/-- A frame in which the screen capture fails with code 5. -/
def exCaptureFailsFrame : FrameEnv :=
  { exFrame 7 with error_screen_capture := ErrorCode.kOtherError 5 }

/-- The layout that `SetNativeLayout()` installed on the I420 2x1 engine. -/
def exInstalledLayout : Layout :=
  exPlanarNewWorker.engine.layout_.getD
    { output_image_ := ImageIndex.kFront,
      processor := LayoutProcessor.native (NativeLayout.new exParameter) }

/-- What the layout of `exPlanarNewWorker`, its output pointer set to the back
image, returns for the frame `exCaptureFailsFrame`. -/
def exFailedUpdateRun : ErrorCode × Layout × ImageIndex × Image :=
  (Layout.Run exCaptureFailsFrame (exInstalledLayout.SwapOutputImage ImageIndex.kBack)
    exPlanarNewWorker.engine.front_image_ exPlanarNewWorker.engine.back_image_).getD
    (ErrorCode.kNoError, exInstalledLayout, ImageIndex.kBack,
      exPlanarNewWorker.engine.back_image_)

/-- Steps of the C16 witness: install a native layout, run two frames, stage
parameters, reset, install a complex layout, run a frame. -/
def exInvariantSteps : List Step :=
  Engine.SetNativeLayout exInitEnv ++
    [Step.update (exFrame 7), Step.update exCaptureFailsFrame,
     Step.setLayoutParameters 1 exParameters, Step.copyFrontImage [0, 0]] ++
    Engine.ResetLayout exInitEnv ++ Engine.SetComplexLayout exInitEnv ++
    [Step.update (exFrame 3)]

/-- The worker that `exInvariantSteps` leads to from `exWorker kI420`. -/
def exInvariantWorker : Worker :=
  ((exWorker ImagePixelFormat.kI420).steps exUtilities exInvariantSteps).getD
    (exWorker ImagePixelFormat.kI420)

/-- A parameter like `exParameter` that asks to keep the aspect ratio. -/
def exKeepAspectParameter : LayoutParameter :=
  { exParameter with keep_aspect_ratio := true, stretch := true }

/-- A data size function for the examples: one byte per pixel. -/
def exCalculateDataSize : ImagePixelFormat → Int → Int → Int :=
  fun _ width height => width * height

/-- A `Create` environment in which everything succeeds and the fill reports
`n` bytes. -/
def exCreateEnv (n : Int) : CreateEnv :=
  { error_create := ErrorCode.kNoError, malloc_ok := true, fresh := fun _ => 0,
    new_avpicture_ok := true, result_fill := n }

/-! ## Lemmas on the primitives -/

theorem length_canonicalBytes (b : Bitmap) (w h : Int) :
    (canonicalBytes b w h).length = h.toNat * w.toNat := by
  simp [canonicalBytes, List.flatMap_def, List.length_flatten, Function.comp_def]

theorem avpicture_layout_exact (b : Bitmap) (w h : Int) (sample : List Nat)
    (hsize : sample.length = h.toNat * w.toNat) :
    avpicture_layout b w h sample = canonicalBytes b w h := by
  unfold avpicture_layout
  simp [length_canonicalBytes, hsize]

/-! ## Copy-out -/

/-- C1. When the engine's own error code is not `kNoError`, `CopyFrontImage`
does not fail, returns that code, and the destination buffer, whatever its
size, consists of zero bytes only; the layout error, the image index and the
three images play no part. -/
theorem C1_copy_front_image_engine_error (e : Engine) (sample : List Nat)
    (herror : e.error_code_ ≠ ErrorCode.kNoError) :
    e.CopyFrontImage sample
      = some (e.error_code_, List.replicate sample.length 0, e) := by
  simp [Engine.CopyFrontImage, Engine.GetCurrentError, herror, ZeroMemory]

/-- Witness of C1: an engine that was constructed and never initialised. -/
theorem C1_copy_front_image_engine_error_witness :
    (Engine.new ImagePixelFormat.kI420 640 480 1 exParameters).CopyFrontImage [5, 6, 7]
      = some (ErrorCode.kProcessorUninitializedError, [0, 0, 0],
          Engine.new ImagePixelFormat.kI420 640 480 1 exParameters) :=
  C1_copy_front_image_engine_error
    (Engine.new ImagePixelFormat.kI420 640 480 1 exParameters) [5, 6, 7] (by decide)

/-! ## Error latch -/

theorem Engine.Update_of_layout_error (frame : FrameEnv) (e : Engine)
    (hlayout : e.layout_error_code_ ≠ ErrorCode.kNoError) :
    Engine.Update frame e = some e := by
  simp [Engine.Update, Engine.GetCurrentLayoutError, hlayout]

theorem Engine.CopyFrontImage_engine (e : Engine) (sample : List Nat)
    (r : ErrorCode × List Nat × Engine) (h : e.CopyFrontImage sample = some r) :
    r.2.2 = e := by
  unfold Engine.CopyFrontImage at h
  split_ifs at h
  · cases h; rfl
  · split at h
    · cases h
    · cases h; rfl
  · split at h
    · split at h
      · cases h
      · cases h; rfl
    · split at h
      · cases h
      · cases h; rfl

theorem Engine.CopyFrontImage_splash (e : Engine) (sample : List Nat) (buffer : Bitmap)
    (herror : e.error_code_ = ErrorCode.kNoError)
    (hlayout : e.layout_error_code_ ≠ ErrorCode.kNoError)
    (hsplash : e.splash_image_.avpicture = some buffer)
    (hsize : sample.length = CalculateImageSize e.splash_image_) :
    e.CopyFrontImage sample
      = some (ErrorCode.kNoError,
          canonicalBytes buffer e.splash_image_.width e.splash_image_.height, e) := by
  unfold CalculateImageSize at hsize
  simp [Engine.CopyFrontImage, Engine.GetCurrentError, Engine.GetCurrentLayoutError, herror,
    hlayout, hsplash, avpicture_layout_exact _ _ _ _ hsize]

/-- A step that is not a request to install a layout keeps the engine error
and the splash image, and keeps a layout error. -/
theorem Worker.step_latch (u : Utilities) (w w1 : Worker) (s : Step)
    (hs : s.isSetLayout = false) (hstep : w.step u s = some w1)
    (hlayout : w.engine.layout_error_code_ ≠ ErrorCode.kNoError) :
    w1.engine.error_code_ = w.engine.error_code_ ∧
      w1.engine.splash_image_ = w.engine.splash_image_ ∧
      w1.engine.layout_error_code_ ≠ ErrorCode.kNoError := by
  cases s with
  | request r env =>
    cases r <;> simp [Step.isSetLayout] at hs <;>
      simp only [Worker.step, Worker.serve, Worker.DoLoop, Worker.ThreadProc] at hstep <;>
      split_ifs at hstep <;> cases hstep <;>
      simp [Engine.DoResetLayout, hlayout]
  | update frame =>
    simp only [Worker.step] at hstep
    split_ifs at hstep
    rw [Engine.Update_of_layout_error frame w.engine hlayout] at hstep
    cases hstep
    exact ⟨rfl, rfl, hlayout⟩
  | setLayoutParameters element_count parameters =>
    simp only [Worker.step] at hstep
    cases hstep
    exact ⟨rfl, rfl, hlayout⟩
  | copyFrontImage sample =>
    simp only [Worker.step] at hstep
    cases hcopy : w.engine.CopyFrontImage sample with
    | none => simp [hcopy] at hstep
    | some r =>
      have hr := Engine.CopyFrontImage_engine w.engine sample r hcopy
      simp [hcopy] at hstep
      cases hstep
      simp [hr, hlayout]

theorem Worker.steps_latch (u : Utilities) (steps : List Step) :
    ∀ (w w1 : Worker), (∀ s ∈ steps, s.isSetLayout = false) →
      w.steps u steps = some w1 →
      w.engine.layout_error_code_ ≠ ErrorCode.kNoError →
      w1.engine.error_code_ = w.engine.error_code_ ∧
        w1.engine.splash_image_ = w.engine.splash_image_ ∧
        w1.engine.layout_error_code_ ≠ ErrorCode.kNoError := by
  induction steps with
  | nil =>
    intro w w1 _ hsteps hlayout
    simp only [Worker.steps] at hsteps
    cases hsteps
    exact ⟨rfl, rfl, hlayout⟩
  | cons s rest ih =>
    intro w w1 hall hsteps hlayout
    simp only [Worker.steps] at hsteps
    cases hstep : w.step u s with
    | none => simp [hstep] at hsteps
    | some w2 =>
      simp only [hstep] at hsteps
      obtain ⟨h1, h2, h3⟩ :=
        Worker.step_latch u w w2 s (hall s (List.mem_cons_self s rest)) hstep hlayout
      obtain ⟨k1, k2, k3⟩ :=
        ih w2 w1 (fun t ht => hall t (List.mem_cons_of_mem s ht)) hsteps h3
      exact ⟨k1.trans h1, k2.trans h2, k3⟩

theorem Engine.Init_success (env : EngineInitEnv) (pixel_format : ImagePixelFormat)
    (width height element_count : Int) (parameters : ParamArray) (e : Engine)
    (hinit : Engine.Init env (Engine.new pixel_format width height element_count parameters)
      = (ErrorCode.kNoError, e)) :
    e.error_code_ = ErrorCode.kNoError ∧
      e.layout_error_code_ = ErrorCode.kProcessorUninitializedError ∧
      e.splash_image_.avpicture = some env.splash_artwork := by
  simp only [Engine.Init, Engine.new, Image.Create, Engine.ErrorOccured, Engine.InitDone,
    Engine.DoResetLayout, Processor.ErrorOccured, Processor.InitDone, Image.store] at hinit
  split_ifs at hinit <;> simp_all
  all_goals (cases hinit; simp)

/-- C2. Error latch. (1) The engine left by construction and a successful `Init`
has no engine error, the layout error `kProcessorUninitializedError` and a
created splash image. (2) From every state with no engine error, a layout error
and a created splash image, after every sequence of steps none of which is a
request to install a layout (frame updates, `SetLayoutParameters`,
`CopyFrontImage`, the requests `Run`, `Stop`, and also `ResetLayout`), the layout
error is still set, `Update` changes nothing, and `CopyFrontImage` into a buffer
of the splash size writes exactly the canonical bytes of the splash image. -/
theorem C2_error_latch (u : Utilities) :
    (∀ (env : EngineInitEnv) (pixel_format : ImagePixelFormat)
        (width height element_count : Int) (parameters : ParamArray) (e : Engine),
        Engine.Init env (Engine.new pixel_format width height element_count parameters)
          = (ErrorCode.kNoError, e) →
        e.error_code_ = ErrorCode.kNoError ∧
          e.layout_error_code_ = ErrorCode.kProcessorUninitializedError ∧
          e.splash_image_.avpicture = some env.splash_artwork) ∧
    (∀ (w w1 : Worker) (steps : List Step) (buffer : Bitmap) (sample : List Nat),
        w.engine.error_code_ = ErrorCode.kNoError →
        w.engine.layout_error_code_ ≠ ErrorCode.kNoError →
        w.engine.splash_image_.avpicture = some buffer →
        (∀ s ∈ steps, s.isSetLayout = false) →
        w.steps u steps = some w1 →
        sample.length = CalculateImageSize w.engine.splash_image_ →
        w1.engine.layout_error_code_ ≠ ErrorCode.kNoError ∧
          (∀ frame, Engine.Update frame w1.engine = some w1.engine) ∧
          w1.engine.CopyFrontImage sample
            = some (ErrorCode.kNoError,
                canonicalBytes buffer w.engine.splash_image_.width
                  w.engine.splash_image_.height, w1.engine)) := by
  refine ⟨fun env pixel_format width height element_count parameters e hinit =>
    Engine.Init_success env pixel_format width height element_count parameters e hinit, ?_⟩
  intro w w1 steps buffer sample herror hlayout hsplash hall hsteps hsize
  obtain ⟨h1, h2, h3⟩ := Worker.steps_latch u steps w w1 hall hsteps hlayout
  refine ⟨h3, fun frame => Engine.Update_of_layout_error frame w1.engine h3, ?_⟩
  have := Engine.CopyFrontImage_splash w1.engine sample buffer (h1.trans herror) h3
    (by rw [h2]; exact hsplash) (by rw [h2]; exact hsize)
  rw [h2] at this
  exact this

/-- Witness of C2: the engine after `Init` runs the frame loop without a layout;
the splash artwork of the 2x1 output has the bytes `1, 2`. -/
theorem C2_error_latch_witness :
    exLatchedWorker.engine.layout_error_code_ ≠ ErrorCode.kNoError ∧
      (∀ frame, Engine.Update frame exLatchedWorker.engine = some exLatchedWorker.engine) ∧
      exLatchedWorker.engine.CopyFrontImage [0, 0]
        = some (ErrorCode.kNoError, [1, 2], exLatchedWorker.engine) :=
  (C2_error_latch exUtilities).2 (exWorker ImagePixelFormat.kI420) exLatchedWorker
    exLatchSteps (fun x _ => (1 + x).toNat) [0, 0] rfl (by decide) rfl
    (by simp [exLatchSteps, Step.isSetLayout]) rfl rfl

/-- C3. With no engine error and no layout error, `CopyFrontImage` into a buffer
of the image size writes the canonical bytes of `front_image_` when
`last_update_image_` is `kFront` and of `back_image_` when it is `kBack`. The
bytes are the same whatever the other image and the splash image hold, and the
engine returned is the engine given. -/
theorem C3_copy_front_image_last_update (e : Engine) (sample : List Nat) (buffer : Bitmap)
    (herror : e.error_code_ = ErrorCode.kNoError)
    (hlayout : e.layout_error_code_ = ErrorCode.kNoError) :
    (e.last_update_image_ = ImageIndex.kFront →
      e.front_image_.avpicture = some buffer →
      sample.length = CalculateImageSize e.front_image_ →
      ∀ (other splash : Image),
        Engine.CopyFrontImage { e with back_image_ := other, splash_image_ := splash } sample
          = some (ErrorCode.kNoError,
              canonicalBytes buffer e.front_image_.width e.front_image_.height,
              { e with back_image_ := other, splash_image_ := splash })) ∧
    (e.last_update_image_ = ImageIndex.kBack →
      e.back_image_.avpicture = some buffer →
      sample.length = CalculateImageSize e.back_image_ →
      ∀ (other splash : Image),
        Engine.CopyFrontImage { e with front_image_ := other, splash_image_ := splash } sample
          = some (ErrorCode.kNoError,
              canonicalBytes buffer e.back_image_.width e.back_image_.height,
              { e with front_image_ := other, splash_image_ := splash })) := by
  constructor
  · intro hlast hbuffer hsize other splash
    unfold CalculateImageSize at hsize
    simp [Engine.CopyFrontImage, Engine.GetCurrentError, Engine.GetCurrentLayoutError, herror,
      hlayout, hlast, hbuffer, avpicture_layout_exact _ _ _ _ hsize]
  · intro hlast hbuffer hsize other splash
    unfold CalculateImageSize at hsize
    simp [Engine.CopyFrontImage, Engine.GetCurrentError, Engine.GetCurrentLayoutError, herror,
      hlayout, hlast, hbuffer, avpicture_layout_exact _ _ _ _ hsize]

/-- Witness of C3: front holds `3, 4` and is the last updated image; the back
image and the splash image are replaced by themselves. -/
theorem C3_copy_front_image_last_update_witness :
    exReadyEngine.CopyFrontImage [0, 0] = some (ErrorCode.kNoError, [3, 4], exReadyEngine) :=
  (C3_copy_front_image_last_update exReadyEngine [0, 0] (fun x _ => (3 + x).toNat) rfl rfl).1
    rfl rfl rfl exReadyEngine.back_image_ exReadyEngine.splash_image_

/-! ## Staging of parameters -/

theorem int_wrap_of_range (z : Int) (h : InIntRange z) : int_wrap z = z := by
  unfold InIntRange at h
  unfold int_wrap
  omega

/-- C4. `SetLayoutParameters` is a total function with no error result. It
stages `element_count` as given. When the output format is topdown, every staged
parameter is the given one with `bound_y` replaced by
`output_height_ - (bound_y + bound_height)` in `int` arithmetic, which is the
exact integer value whenever the sum and the difference fit in an `int`; when
the output format is not topdown every staged parameter is the given one. The
installed layout, the layout error, the image index, the engine error and the
images are unchanged. -/
theorem C4_set_layout_parameters (u : Utilities) (e : Engine) (element_count : Int)
    (parameters : ParamArray) :
    (e.SetLayoutParameters u element_count parameters).element_count_ = element_count ∧
    (u.IsTopdownPixelFormat e.output_pixel_format_ = true →
      ∀ i, (e.SetLayoutParameters u element_count parameters).parameters_ i
        = { parameters i with
            bound_y := int_sub e.output_height_
              (int_add (parameters i).bound_y (parameters i).bound_height) }) ∧
    (u.IsTopdownPixelFormat e.output_pixel_format_ = true →
      ∀ i, InIntRange ((parameters i).bound_y + (parameters i).bound_height) →
        InIntRange (e.output_height_ - ((parameters i).bound_y + (parameters i).bound_height)) →
        ((e.SetLayoutParameters u element_count parameters).parameters_ i).bound_y
          = e.output_height_ - ((parameters i).bound_y + (parameters i).bound_height)) ∧
    (u.IsTopdownPixelFormat e.output_pixel_format_ = false →
      ∀ i, (e.SetLayoutParameters u element_count parameters).parameters_ i = parameters i) ∧
    (e.SetLayoutParameters u element_count parameters).layout_ = e.layout_ ∧
    (e.SetLayoutParameters u element_count parameters).layout_error_code_
      = e.layout_error_code_ ∧
    (e.SetLayoutParameters u element_count parameters).last_update_image_
      = e.last_update_image_ ∧
    (e.SetLayoutParameters u element_count parameters).error_code_ = e.error_code_ ∧
    (e.SetLayoutParameters u element_count parameters).front_image_ = e.front_image_ ∧
    (e.SetLayoutParameters u element_count parameters).back_image_ = e.back_image_ ∧
    (e.SetLayoutParameters u element_count parameters).splash_image_ = e.splash_image_ := by
  refine ⟨rfl, ?_, ?_, ?_, rfl, rfl, rfl, rfl, rfl, rfl, rfl⟩
  · intro htop i
    simp [Engine.SetLayoutParameters, htop]
  · intro htop i hsum hdiff
    simp only [Engine.SetLayoutParameters, htop, if_true, int_sub, int_add]
    rw [int_wrap_of_range _ hsum, int_wrap_of_range _ hdiff]
  · intro htop i
    simp [Engine.SetLayoutParameters, htop]

/-- Witness of C4: topdown RGB0 640x480, `bound_y = 10`, `bound_height = 100`
stages `bound_y = 370`. -/
theorem C4_set_layout_parameters_witness :
    ((exTopdownEngine.SetLayoutParameters exUtilities 1 exFlipParameters).parameters_ 0).bound_y
      = 370 :=
  (C4_set_layout_parameters exUtilities exTopdownEngine 1 exFlipParameters).2.2.1 rfl 0
    (by unfold InIntRange; decide) (by unfold InIntRange; decide)

/-! ## Installing a layout -/

theorem Clear_of_created (image : Image) (buffer : Bitmap)
    (hbuffer : image.avpicture = some buffer) :
    ∃ cleared, Clear image = some cleared := by
  unfold Clear
  split_ifs
  · exact ⟨_, rfl⟩
  · simp [hbuffer]

/-- C6. For every engine state `e`, serving `SetNativeLayout` (resp.
`SetComplexLayout`) builds a native layout from `parameters_[0]` (resp. a
complex layout from `element_count_` and `parameters_`) and runs its `Init` on
`front_image_`. If `Init` returns an error `err`, the result is `e` with no
layout and with layout error `err`. If `Init` returns `kNoError` and the front
and back images are created, the result is `e` with the new layout installed
and bound to the front image, layout error `kNoError`, and front and back
passed through `Clear`. Whatever layout `e` held is gone, and all other fields,
the engine's own error among them, are those of `e`. -/
theorem C6_set_layout_request (u : Utilities) (env : InitEnv) (e : Engine) :
    (∀ err,
      (NativeLayout.Init u env e.front_image_ (NativeLayout.new (e.parameters_ 0))).1 = err →
      err ≠ ErrorCode.kNoError →
      e.DoSetNativeLayout u env = some { e with layout_ := none, layout_error_code_ := err }) ∧
    ((NativeLayout.Init u env e.front_image_ (NativeLayout.new (e.parameters_ 0))).1
        = ErrorCode.kNoError →
      ∀ fb bb, e.front_image_.avpicture = some fb → e.back_image_.avpicture = some bb →
      ∃ front back, Clear e.front_image_ = some front ∧ Clear e.back_image_ = some back ∧
        e.DoSetNativeLayout u env = some { e with
          layout_ := some
            { output_image_ := ImageIndex.kFront,
              processor := LayoutProcessor.native
                (NativeLayout.Init u env e.front_image_ (NativeLayout.new (e.parameters_ 0))).2 },
          layout_error_code_ := ErrorCode.kNoError,
          front_image_ := front,
          back_image_ := back }) ∧
    (∀ err l, ComplexLayout.Init u env e.front_image_
          (ComplexLayout.new e.element_count_ e.parameters_) = some (err, l) →
      err ≠ ErrorCode.kNoError →
      e.DoSetComplexLayout u env = some { e with layout_ := none, layout_error_code_ := err }) ∧
    (∀ l, ComplexLayout.Init u env e.front_image_
          (ComplexLayout.new e.element_count_ e.parameters_) = some (ErrorCode.kNoError, l) →
      ∀ fb bb, e.front_image_.avpicture = some fb → e.back_image_.avpicture = some bb →
      ∃ front back, Clear e.front_image_ = some front ∧ Clear e.back_image_ = some back ∧
        e.DoSetComplexLayout u env = some { e with
          layout_ := some
            { output_image_ := ImageIndex.kFront, processor := LayoutProcessor.complex l },
          layout_error_code_ := ErrorCode.kNoError,
          front_image_ := front,
          back_image_ := back }) := by
  refine ⟨?_, ?_, ?_, ?_⟩
  · intro err herr hne
    subst herr
    simp [Engine.DoSetNativeLayout, Engine.DoResetLayout, Engine.LayoutErrorOccured, hne]
  · intro hok fb bb hfb hbb
    obtain ⟨front, hfront⟩ := Clear_of_created _ fb hfb
    obtain ⟨back, hback⟩ := Clear_of_created _ bb hbb
    refine ⟨front, back, hfront, hback, ?_⟩
    simp [Engine.DoSetNativeLayout, Engine.DoResetLayout, Engine.LayoutInitDone, hok, hfront,
      hback]
  · intro err l hinit hne
    simp [Engine.DoSetComplexLayout, Engine.DoResetLayout, Engine.LayoutErrorOccured, hinit, hne]
  · intro l hinit fb bb hfb hbb
    obtain ⟨front, hfront⟩ := Clear_of_created _ fb hfb
    obtain ⟨back, hback⟩ := Clear_of_created _ bb hbb
    refine ⟨front, back, hfront, hback, ?_⟩
    simp [Engine.DoSetComplexLayout, Engine.DoResetLayout, Engine.LayoutInitDone, hinit, hfront,
      hback]

/-- Witness of C6: on the 2x1 I420 engine a native `Init` that succeeds, a
native `Init` whose scale fails with code 5, a complex `Init` that succeeds, and
on the UYVY engine a complex `Init` that is refused. -/
theorem C6_set_layout_request_witness :
    (∃ front back, Clear (exEngine ImagePixelFormat.kI420).front_image_ = some front ∧
      Clear (exEngine ImagePixelFormat.kI420).back_image_ = some back ∧
      (exEngine ImagePixelFormat.kI420).DoSetNativeLayout exUtilities exInitEnv
        = some { exEngine ImagePixelFormat.kI420 with
            layout_ := some
              { output_image_ := ImageIndex.kFront,
                processor := LayoutProcessor.native
                  (NativeLayout.Init exUtilities exInitEnv
                    (exEngine ImagePixelFormat.kI420).front_image_
                    (NativeLayout.new ((exEngine ImagePixelFormat.kI420).parameters_ 0))).2 },
            layout_error_code_ := ErrorCode.kNoError,
            front_image_ := front,
            back_image_ := back }) ∧
    (exEngine ImagePixelFormat.kI420).DoSetNativeLayout exUtilities exScaleFailsInitEnv
      = some { exEngine ImagePixelFormat.kI420 with
          layout_ := none, layout_error_code_ := ErrorCode.kOtherError 5 } ∧
    (∃ front back, Clear (exEngine ImagePixelFormat.kI420).front_image_ = some front ∧
      Clear (exEngine ImagePixelFormat.kI420).back_image_ = some back ∧
      (exEngine ImagePixelFormat.kI420).DoSetComplexLayout exUtilities exInitEnv
        = some { exEngine ImagePixelFormat.kI420 with
            layout_ := some
              { output_image_ := ImageIndex.kFront,
                processor := LayoutProcessor.complex exComplexLayout },
            layout_error_code_ := ErrorCode.kNoError,
            front_image_ := front,
            back_image_ := back }) ∧
    (exEngine ImagePixelFormat.kUYVY).DoSetComplexLayout exUtilities exInitEnv
      = some { exEngine ImagePixelFormat.kUYVY with
          layout_ := none,
          layout_error_code_ := ErrorCode.kComplexLayoutInvalidPixelFormatError } :=
  ⟨(C6_set_layout_request exUtilities exInitEnv (exEngine ImagePixelFormat.kI420)).2.1 rfl
      (fun _ _ => 0) (fun _ _ => 0) rfl rfl,
    (C6_set_layout_request exUtilities exScaleFailsInitEnv
      (exEngine ImagePixelFormat.kI420)).1 (ErrorCode.kOtherError 5) rfl (by decide),
    (C6_set_layout_request exUtilities exInitEnv (exEngine ImagePixelFormat.kI420)).2.2.2
      exComplexLayout rfl (fun _ _ => 0) (fun _ _ => 0) rfl rfl,
    (C6_set_layout_request exUtilities exInitEnv (exEngine ImagePixelFormat.kUYVY)).2.2.1
      ErrorCode.kComplexLayoutInvalidPixelFormatError
      { ComplexLayout.new 1 exParameters with
        error_code_ := ErrorCode.kComplexLayoutInvalidPixelFormatError }
      rfl (by decide)⟩

/-- C7. When the output image has a format that draw-utils cannot handle, then
for every `element_count` and `parameters` `ComplexLayout::Init` returns
`kComplexLayoutInvalidPixelFormatError` and leaves the freshly built layout
with no screen capture, no scale operator and no created image. Serving
`SetComplexLayout` then leaves the engine with that layout error and no layout,
and, when the engine has no error of its own, `CopyFrontImage` into a buffer of
the splash size writes the canonical bytes of the splash image. -/
theorem C7_complex_layout_invalid_pixel_format (u : Utilities) (env : InitEnv) (e : Engine)
    (hformat : CanUseDrawUtils e.front_image_.pixel_format = false) :
    (∀ (element_count : Int) (parameters : ParamArray),
      ∃ l, ComplexLayout.Init u env e.front_image_ (ComplexLayout.new element_count parameters)
          = some (ErrorCode.kComplexLayoutInvalidPixelFormatError, l) ∧
        l.error_code_ = ErrorCode.kComplexLayoutInvalidPixelFormatError ∧
        l.screen_capture_ = none ∧
        ∀ i, l.scale_ i = none ∧ (l.captured_image_ i).IsEmpty = true ∧
          (l.converted_image_ i).IsEmpty = true) ∧
    e.DoSetComplexLayout u env
      = some { e with
          layout_ := none,
          layout_error_code_ := ErrorCode.kComplexLayoutInvalidPixelFormatError } ∧
    (∀ (sample : List Nat) (splash : Bitmap) (e1 : Engine),
      e.DoSetComplexLayout u env = some e1 →
      e.error_code_ = ErrorCode.kNoError →
      e.splash_image_.avpicture = some splash →
      sample.length = CalculateImageSize e.splash_image_ →
      e1.CopyFrontImage sample
        = some (ErrorCode.kNoError,
            canonicalBytes splash e.splash_image_.width e.splash_image_.height, e1)) := by
  have hinit : ∀ (element_count : Int) (parameters : ParamArray),
      ComplexLayout.Init u env e.front_image_ (ComplexLayout.new element_count parameters)
        = some (ErrorCode.kComplexLayoutInvalidPixelFormatError,
            { ComplexLayout.new element_count parameters with
              error_code_ := ErrorCode.kComplexLayoutInvalidPixelFormatError }) := by
    intro element_count parameters
    simp [ComplexLayout.Init, hformat, ComplexLayout.ErrorOccured, Processor.ErrorOccured]
  have hset : e.DoSetComplexLayout u env
      = some { e with
          layout_ := none,
          layout_error_code_ := ErrorCode.kComplexLayoutInvalidPixelFormatError } := by
    simp [Engine.DoSetComplexLayout, Engine.DoResetLayout, hinit, Engine.LayoutErrorOccured]
  refine ⟨?_, hset, ?_⟩
  · intro element_count parameters
    refine ⟨_, hinit element_count parameters, rfl, rfl, ?_⟩
    intro i
    exact ⟨rfl, rfl, rfl⟩
  · intro sample splash e1 he1 herror hsplash hsize
    rw [hset] at he1
    cases he1
    exact Engine.CopyFrontImage_splash _ sample splash herror (by simp) hsplash hsize

/-- Witness of C7: output UYVY 640x480. -/
theorem C7_complex_layout_invalid_pixel_format_witness :
    (exUyvyEngine.DoSetComplexLayout exUtilities exInitEnv
      = some { exUyvyEngine with
          layout_ := none,
          layout_error_code_ := ErrorCode.kComplexLayoutInvalidPixelFormatError }) ∧
    Engine.CopyFrontImage
        { exUyvyEngine with
          layout_ := none,
          layout_error_code_ := ErrorCode.kComplexLayoutInvalidPixelFormatError }
        (List.replicate 307200 0)
      = some (ErrorCode.kNoError, canonicalBytes (fun x _ => (1 + x).toNat) 640 480,
          { exUyvyEngine with
            layout_ := none,
            layout_error_code_ := ErrorCode.kComplexLayoutInvalidPixelFormatError }) :=
  ⟨(C7_complex_layout_invalid_pixel_format exUtilities exInitEnv exUyvyEngine rfl).2.1,
    (C7_complex_layout_invalid_pixel_format exUtilities exInitEnv exUyvyEngine rfl).2.2
      (List.replicate 307200 0) (fun x _ => (1 + x).toNat) _
      (C7_complex_layout_invalid_pixel_format exUtilities exInitEnv exUyvyEngine rfl).2.1
      rfl rfl (by rw [List.length_replicate]; rfl)⟩

/-! ## Ordering after a layout change -/

theorem canonicalBytes_fill (color : Nat) (b : Bitmap) (w h : Int) :
    canonicalBytes (ff_fill_rectangle color b 0 0 w h) w h
      = List.replicate (h.toNat * w.toNat) color := by
  rw [List.eq_replicate_iff]
  refine ⟨length_canonicalBytes _ w h, ?_⟩
  intro v hv
  simp only [canonicalBytes, List.mem_flatMap, List.mem_map, List.mem_range] at hv
  obtain ⟨y, hy, x, hx, hxy⟩ := hv
  rw [← hxy]
  have h1 : (x : Int) < w := by omega
  have h2 : (y : Int) < h := by omega
  simp [ff_fill_rectangle, inRect, h1, h2]

theorem Clear_drawable (image : Image) (buffer : Bitmap)
    (hformat : CanUseDrawUtils image.pixel_format = true)
    (hbuffer : image.avpicture = some buffer) :
    Clear image
      = some { image with
          avpicture := some (ff_fill_rectangle kBlack buffer 0 0 image.width image.height) } := by
  simp [Clear, hformat, hbuffer, Image.store]

theorem Clear_not_drawable (image : Image)
    (hformat : CanUseDrawUtils image.pixel_format = false) :
    Clear image = some image := by
  simp [Clear, hformat]

theorem Worker.steps_SetNativeLayout (u : Utilities) (env : InitEnv) (w w1 : Worker)
    (hsteps : w.steps u (Engine.SetNativeLayout env) = some w1) :
    w.engine.DoSetNativeLayout u env = some w1.engine := by
  simp only [Engine.SetNativeLayout, Worker.steps, Worker.step, Worker.serve, Worker.DoLoop,
    Worker.ThreadProc] at hsteps
  cases hset : w.engine.DoSetNativeLayout u env with
  | none => split_ifs at hsteps <;> simp_all
  | some e1 =>
    split_ifs at hsteps <;> simp_all <;> (cases hsteps; rfl)

theorem Worker.steps_SetComplexLayout (u : Utilities) (env : InitEnv) (w w1 : Worker)
    (hsteps : w.steps u (Engine.SetComplexLayout env) = some w1) :
    w.engine.DoSetComplexLayout u env = some w1.engine := by
  simp only [Engine.SetComplexLayout, Worker.steps, Worker.step, Worker.serve, Worker.DoLoop,
    Worker.ThreadProc] at hsteps
  cases hset : w.engine.DoSetComplexLayout u env with
  | none => split_ifs at hsteps <;> simp_all
  | some e1 =>
    split_ifs at hsteps <;> simp_all <;> (cases hsteps; rfl)


theorem Engine.LayoutInitDone_after_reset (e e1 : Engine) (layout : Layout)
    (hdone : Engine.LayoutInitDone { e.DoResetLayout with layout_ := some layout } = some e1) :
    Engine.InstallResult e e1 := by
  simp only [Engine.LayoutInitDone, Engine.DoResetLayout, if_true] at hdone
  cases hfront : Clear e.front_image_ with
  | none => simp [hfront] at hdone
  | some front =>
    cases hback : Clear e.back_image_ with
    | none => simp [hfront, hback] at hdone
    | some back =>
      simp only [hfront, hback] at hdone
      cases hdone
      exact Or.inr ⟨layout, front, back, hfront, hback, rfl⟩

theorem Engine.DoSetNativeLayout_result (u : Utilities) (env : InitEnv) (e e1 : Engine)
    (hset : e.DoSetNativeLayout u env = some e1) : Engine.InstallResult e e1 := by
  simp only [Engine.DoSetNativeLayout] at hset
  split_ifs at hset with herr
  · cases hset
    refine Or.inl ⟨_, herr, ?_⟩
    rw [Engine.LayoutErrorOccured, if_pos herr]
    rfl
  · exact Engine.LayoutInitDone_after_reset e e1 _ hset

theorem Engine.DoSetComplexLayout_result (u : Utilities) (env : InitEnv) (e e1 : Engine)
    (hset : e.DoSetComplexLayout u env = some e1) : Engine.InstallResult e e1 := by
  simp only [Engine.DoSetComplexLayout] at hset
  split at hset
  · cases hset
  · split_ifs at hset with herr
    · cases hset
      refine Or.inl ⟨_, herr, ?_⟩
      rw [Engine.LayoutErrorOccured, if_pos herr]
      rfl
    · exact Engine.LayoutInitDone_after_reset e e1 _ hset

theorem Engine.CopyFrontImage_after_install (e e1 : Engine) (sample : List Nat)
    (fb bb sb : Bitmap) (hresult : Engine.InstallResult e e1)
    (herror : e.error_code_ = ErrorCode.kNoError)
    (hff : CanUseDrawUtils e.front_image_.pixel_format = true)
    (hbf : CanUseDrawUtils e.back_image_.pixel_format = true)
    (hfb : e.front_image_.avpicture = some fb)
    (hbb : e.back_image_.avpicture = some bb)
    (hsb : e.splash_image_.avpicture = some sb)
    (hfs : sample.length = CalculateImageSize e.front_image_)
    (hbs : sample.length = CalculateImageSize e.back_image_)
    (hss : sample.length = CalculateImageSize e.splash_image_) :
    (e1.layout_error_code_ ≠ ErrorCode.kNoError ∧
      e1.CopyFrontImage sample
        = some (ErrorCode.kNoError,
            canonicalBytes sb e.splash_image_.width e.splash_image_.height, e1)) ∨
    (e1.layout_error_code_ = ErrorCode.kNoError ∧
      e1.CopyFrontImage sample
        = some (ErrorCode.kNoError, List.replicate sample.length kBlack, e1)) := by
  rcases hresult with ⟨err, herr, rfl⟩ | ⟨layout, front, back, hfront, hback, rfl⟩
  · left
    exact ⟨herr, Engine.CopyFrontImage_splash _ sample sb herror herr hsb hss⟩
  · right
    rw [Clear_drawable _ fb hff hfb] at hfront
    rw [Clear_drawable _ bb hbf hbb] at hback
    cases hfront
    cases hback
    refine ⟨rfl, ?_⟩
    unfold CalculateImageSize at hfs hbs
    cases hlast : e.last_update_image_
    · simp only [Engine.CopyFrontImage, Engine.GetCurrentError, Engine.GetCurrentLayoutError,
        herror, hlast, ne_eq, not_true_eq_false, if_false,
        avpicture_layout_exact _ _ _ _ hfs, canonicalBytes_fill, ← hfs]
    · simp only [Engine.CopyFrontImage, Engine.GetCurrentError, Engine.GetCurrentLayoutError,
        herror, hlast, ne_eq, not_true_eq_false, if_false,
        avpicture_layout_exact _ _ _ _ hbs, canonicalBytes_fill, ← hbs]

theorem Engine.images_after_install (e e1 : Engine) (hresult : Engine.InstallResult e e1)
    (hff : CanUseDrawUtils e.front_image_.pixel_format = false)
    (hbf : CanUseDrawUtils e.back_image_.pixel_format = false) :
    e1.front_image_ = e.front_image_ ∧ e1.back_image_ = e.back_image_ ∧
      e1.last_update_image_ = e.last_update_image_ := by
  rcases hresult with ⟨err, herr, rfl⟩ | ⟨layout, front, back, hfront, hback, rfl⟩
  · exact ⟨rfl, rfl, rfl⟩
  · rw [Clear_not_drawable _ hff] at hfront
    rw [Clear_not_drawable _ hbf] at hback
    cases hfront
    cases hback
    exact ⟨rfl, rfl, rfl⟩

/-- Counterexample to C5, output UYVY 2x1. A first native layout is installed
by `SetNativeLayout()`; its scale operator is bound to the front image. The
first frame `7, 7` is written to the front image and `Update` sets
`last_update_image_` to `kBack`; the second frame `8, 8` is written to the
front image and `Update` sets `last_update_image_` to `kFront`. After a second
`SetNativeLayout()` has been acknowledged with no layout error (`Clear` does
nothing on UYVY), and before the new layout has run, `CopyFrontImage` writes
`8, 8`: not the splash bytes `1, 2`, but the frame of the previous layout. -/
theorem C5_ordering_counterexample :
    exFirstFrameWorker.map (fun w =>
        (w.engine.last_update_image_,
          w.engine.front_image_.avpicture.map (fun b => canonicalBytes b 2 1)))
      = some (ImageIndex.kBack, some [7, 7]) ∧
    exOldFrameWorker.map (fun w =>
        (w.engine.last_update_image_,
          w.engine.front_image_.avpicture.map (fun b => canonicalBytes b 2 1)))
      = some (ImageIndex.kFront, some [8, 8]) ∧
    exNewLayoutWorker.map (fun w =>
        (w.engine.error_code_, w.engine.layout_error_code_, w.engine.layout_.isSome,
          w.engine.last_update_image_))
      = some (ErrorCode.kNoError, ErrorCode.kNoError, true, ImageIndex.kFront) ∧
    exNewLayoutWorker.bind (fun w =>
        (w.engine.CopyFrontImage [0, 0]).map (fun r => (r.1, r.2.1)))
      = some (ErrorCode.kNoError, [8, 8]) ∧
    exNewLayoutWorker.bind (fun w =>
        w.engine.splash_image_.avpicture.map (fun b => canonicalBytes b 2 1))
      = some [1, 2] := by
  decide

/-- C5, amended. Let the controller helper `SetNativeLayout()` or
`SetComplexLayout()` be acknowledged on an engine with no error of its own and
created images. (1) If draw-utils can handle the format of the front and back
images, `CopyFrontImage` into a buffer of the image size then writes either the
splash bytes (the new layout failed to initialise) or the all black image that
`LayoutInitDone` left in front and back (the new layout is installed and has
not run yet); the bytes of frames written before are gone. (2) If draw-utils
cannot handle the format, front and back and the image index are as they were
before the helper. -/
theorem C5_ordering_after_set_layout (u : Utilities) (env : InitEnv) (w w1 : Worker)
    (hhelper : w.steps u (Engine.SetNativeLayout env) = some w1 ∨
      w.steps u (Engine.SetComplexLayout env) = some w1) :
    (∀ (sample : List Nat) (fb bb sb : Bitmap),
      w.engine.error_code_ = ErrorCode.kNoError →
      CanUseDrawUtils w.engine.front_image_.pixel_format = true →
      CanUseDrawUtils w.engine.back_image_.pixel_format = true →
      w.engine.front_image_.avpicture = some fb →
      w.engine.back_image_.avpicture = some bb →
      w.engine.splash_image_.avpicture = some sb →
      sample.length = CalculateImageSize w.engine.front_image_ →
      sample.length = CalculateImageSize w.engine.back_image_ →
      sample.length = CalculateImageSize w.engine.splash_image_ →
      (w1.engine.layout_error_code_ ≠ ErrorCode.kNoError ∧
        w1.engine.CopyFrontImage sample
          = some (ErrorCode.kNoError,
              canonicalBytes sb w.engine.splash_image_.width w.engine.splash_image_.height,
              w1.engine)) ∨
      (w1.engine.layout_error_code_ = ErrorCode.kNoError ∧
        w1.engine.CopyFrontImage sample
          = some (ErrorCode.kNoError, List.replicate sample.length kBlack, w1.engine))) ∧
    (CanUseDrawUtils w.engine.front_image_.pixel_format = false →
      CanUseDrawUtils w.engine.back_image_.pixel_format = false →
      w1.engine.front_image_ = w.engine.front_image_ ∧
        w1.engine.back_image_ = w.engine.back_image_ ∧
        w1.engine.last_update_image_ = w.engine.last_update_image_) := by
  have hresult : Engine.InstallResult w.engine w1.engine := by
    rcases hhelper with h | h
    · exact Engine.DoSetNativeLayout_result u env _ _ (Worker.steps_SetNativeLayout u env w w1 h)
    · exact Engine.DoSetComplexLayout_result u env _ _
        (Worker.steps_SetComplexLayout u env w w1 h)
  constructor
  · intro sample fb bb sb herror hff hbf hfb hbb hsb hfs hbs hss
    exact Engine.CopyFrontImage_after_install _ _ sample fb bb sb hresult herror hff hbf hfb hbb
      hsb hfs hbs hss
  · intro hff hbf
    exact Engine.images_after_install _ _ hresult hff hbf

/-- Witness of C5 (amended): the I420 2x1 engine after `SetNativeLayout()`; the
splash bytes are `1, 2`, the cleared image is `0, 0`. -/
theorem C5_ordering_after_set_layout_witness :
    (exPlanarNewWorker.engine.layout_error_code_ ≠ ErrorCode.kNoError ∧
      exPlanarNewWorker.engine.CopyFrontImage [0, 0]
        = some (ErrorCode.kNoError, [1, 2], exPlanarNewWorker.engine)) ∨
    (exPlanarNewWorker.engine.layout_error_code_ = ErrorCode.kNoError ∧
      exPlanarNewWorker.engine.CopyFrontImage [0, 0]
        = some (ErrorCode.kNoError, [0, 0], exPlanarNewWorker.engine)) :=
  (C5_ordering_after_set_layout exUtilities exInitEnv (exWorker ImagePixelFormat.kI420)
    exPlanarNewWorker (Or.inl rfl)).1 [0, 0] (fun _ _ => 0) (fun _ _ => 0)
    (fun x _ => (1 + x).toNat) rfl rfl rfl rfl rfl rfl rfl rfl rfl

/-! ## Bound check of the complex layout -/

theorem ComplexLayout.InitByIndex_bad (u : Utilities) (env : InitEnv) (out : Image)
    (l : ComplexLayout) (index : Fin kMaxProcessorSize)
    (hbad : Contains 0 0 out.width out.height (l.parameters_ index).bound_x
      (l.parameters_ index).bound_y (l.parameters_ index).bound_width
      (l.parameters_ index).bound_height = false) :
    ComplexLayout.InitByIndex u env out l index = (ErrorCode.kComplexLayoutBoundError, l) := by
  simp [ComplexLayout.InitByIndex, hbad]

theorem ComplexLayout.InitByIndex_good (u : Utilities) (env : InitEnv) (out : Image)
    (l : ComplexLayout) (index : Fin kMaxProcessorSize)
    (hgood : Contains 0 0 out.width out.height (l.parameters_ index).bound_x
      (l.parameters_ index).bound_y (l.parameters_ index).bound_width
      (l.parameters_ index).bound_height = true)
    (hcaptured : env.error_captured_image index = ErrorCode.kNoError)
    (hconverted : env.error_converted_image index = ErrorCode.kNoError)
    (hscale : env.error_scale_init index = ErrorCode.kNoError) :
    (ComplexLayout.InitByIndex u env out l index).1 = ErrorCode.kNoError := by
  simp [ComplexLayout.InitByIndex, hgood, hcaptured, hconverted, hscale, Image.Create]

theorem ComplexLayout.InitByIndex_contains (u : Utilities) (env : InitEnv) (out : Image)
    (l : ComplexLayout) (index : Fin kMaxProcessorSize)
    (hok : (ComplexLayout.InitByIndex u env out l index).1 = ErrorCode.kNoError) :
    Contains 0 0 out.width out.height (l.parameters_ index).bound_x
      (l.parameters_ index).bound_y (l.parameters_ index).bound_width
      (l.parameters_ index).bound_height = true := by
  by_contra hbad
  rw [Bool.not_eq_true] at hbad
  rw [ComplexLayout.InitByIndex_bad u env out l index hbad] at hok
  cases hok

/-- The call of `InitByIndex` keeps the parameters and touches no element but its own. -/
theorem ComplexLayout.InitByIndex_frame (u : Utilities) (env : InitEnv) (out : Image)
    (l : ComplexLayout) (index : Fin kMaxProcessorSize) :
    (ComplexLayout.InitByIndex u env out l index).2.parameters_ = l.parameters_ ∧
    ∀ k, k ≠ index →
      (ComplexLayout.InitByIndex u env out l index).2.scale_ k = l.scale_ k ∧
      (ComplexLayout.InitByIndex u env out l index).2.captured_image_ k = l.captured_image_ k ∧
      (ComplexLayout.InitByIndex u env out l index).2.converted_image_ k
        = l.converted_image_ k := by
  simp only [ComplexLayout.InitByIndex]
  constructor
  · split_ifs <;> rfl
  · intro k hk
    split_ifs <;> simp [Function.update_noteq hk]

theorem ComplexLayout.InitElements_bound_error (u : Utilities) (env : InitEnv) (out : Image)
    (index : Fin kMaxProcessorSize) :
    ∀ (m n i : Nat) (l : ComplexLayout), i + m = index.val → m < n →
      (∀ j : Fin kMaxProcessorSize, i ≤ j.val → j.val < index.val →
        ElementInitialises env out l.parameters_ j) →
      Contains 0 0 out.width out.height (l.parameters_ index).bound_x
        (l.parameters_ index).bound_y (l.parameters_ index).bound_width
        (l.parameters_ index).bound_height = false →
      ∃ l1, ComplexLayout.InitElements u env out n i l
          = some (ErrorCode.kComplexLayoutBoundError, l1) ∧
        l1.error_code_ = l.error_code_ ∧
        ∀ k : Fin kMaxProcessorSize, index.val ≤ k.val →
          l1.scale_ k = l.scale_ k ∧ l1.captured_image_ k = l.captured_image_ k ∧
            l1.converted_image_ k = l.converted_image_ k := by
  intro m
  induction m with
  | zero =>
    intro n i l hi hn _ hbad
    obtain ⟨n1, rfl⟩ : ∃ n1, n = n1 + 1 := ⟨n - 1, by omega⟩
    have hlt : i < kMaxProcessorSize := by have := index.isLt; omega
    have hidx : (⟨i, hlt⟩ : Fin kMaxProcessorSize) = index := Fin.ext (by simpa using hi)
    refine ⟨l, ?_, rfl, fun k _ => ⟨rfl, rfl, rfl⟩⟩
    rw [ComplexLayout.InitElements, dif_pos hlt, hidx,
      ComplexLayout.InitByIndex_bad u env out l index hbad]
    simp
  | succ m ih =>
    intro n i l hi hn hgood hbad
    obtain ⟨n1, rfl⟩ : ∃ n1, n = n1 + 1 := ⟨n - 1, by omega⟩
    have hlt : i < kMaxProcessorSize := by have := index.isLt; omega
    obtain ⟨hc, h1, h2, h3⟩ := hgood ⟨i, hlt⟩ (le_refl i) (by simp; omega)
    have hok := ComplexLayout.InitByIndex_good u env out l ⟨i, hlt⟩ hc h1 h2 h3
    obtain ⟨hparams, hframe⟩ := ComplexLayout.InitByIndex_frame u env out l ⟨i, hlt⟩
    have herr :
        (ComplexLayout.InitByIndex u env out l ⟨i, hlt⟩).2.error_code_ = l.error_code_ := by
      simp only [ComplexLayout.InitByIndex]
      split_ifs <;> rfl
    obtain ⟨l1, hrun, hcode, hrest⟩ := ih n1 (i + 1)
      (ComplexLayout.InitByIndex u env out l ⟨i, hlt⟩).2 (by omega) (by omega)
      (by
        intro j hj1 hj2
        rw [hparams]
        exact hgood j (by omega) hj2)
      (by rw [hparams]; exact hbad)
    refine ⟨l1, ?_, hcode.trans herr, ?_⟩
    · rw [ComplexLayout.InitElements, dif_pos hlt]
      simp only [hok, ne_eq, not_true_eq_false, if_false]
      exact hrun
    · intro k hk
      have hne : k ≠ ⟨i, hlt⟩ := by
        intro h
        rw [h] at hk
        simp at hk
        omega
      obtain ⟨a1, a2, a3⟩ := hrest k hk
      obtain ⟨b1, b2, b3⟩ := hframe k hne
      exact ⟨a1.trans b1, a2.trans b2, a3.trans b3⟩

theorem ComplexLayout.InitElements_contains (u : Utilities) (env : InitEnv) (out : Image) :
    ∀ (n i : Nat) (l l1 : ComplexLayout),
      ComplexLayout.InitElements u env out n i l = some (ErrorCode.kNoError, l1) →
      ∀ j : Fin kMaxProcessorSize, i ≤ j.val → j.val < i + n →
        Contains 0 0 out.width out.height (l.parameters_ j).bound_x
          (l.parameters_ j).bound_y (l.parameters_ j).bound_width
          (l.parameters_ j).bound_height = true := by
  intro n
  induction n with
  | zero =>
    intro i l l1 _ j h1 h2
    omega
  | succ n ih =>
    intro i l l1 hrun j h1 h2
    simp only [ComplexLayout.InitElements] at hrun
    split_ifs at hrun with hlt herr
    · rw [Option.some.injEq] at hrun
      exact absurd (congrArg Prod.fst hrun) herr
    · rw [ne_eq, not_not] at herr
      by_cases hj : j.val = i
      · have hidx : (⟨i, hlt⟩ : Fin kMaxProcessorSize) = j := Fin.ext hj.symm
        rw [← hidx]
        exact ComplexLayout.InitByIndex_contains u env out l ⟨i, hlt⟩ herr
      · have := ih (i + 1) _ l1 hrun j (by omega) (by omega)
        rw [(ComplexLayout.InitByIndex_frame u env out l ⟨i, hlt⟩).1] at this
        exact this

theorem ComplexLayout.InitElements_some (u : Utilities) (env : InitEnv) (out : Image) :
    ∀ (n i : Nat) (l : ComplexLayout), i + n ≤ kMaxProcessorSize →
      ∃ r, ComplexLayout.InitElements u env out n i l = some r := by
  intro n
  induction n with
  | zero =>
    intro i l _
    exact ⟨_, rfl⟩
  | succ n ih =>
    intro i l h
    have hlt : i < kMaxProcessorSize := by omega
    simp only [ComplexLayout.InitElements, dif_pos hlt]
    split_ifs
    · exact ⟨_, rfl⟩
    · exact ih (i + 1) _ (by omega)

/-- C8. Let the output image have a format that draw-utils can handle.
(1) If the bound rectangle of element `index` (below `element_count`) does not
lie inside the output image while every element before it lies inside and
initialises without error, `ComplexLayout::Init` returns
`kComplexLayoutBoundError` and no element from `index` on has a scale operator
or a created image. (2) If `Init` returns `kNoError`, every element below
`element_count` has `bound_x >= 0`, `bound_y >= 0`,
`bound_x + bound_width <= width` and `bound_y + bound_height <= height` of the
output image. (3) For `element_count <= kMaxProcessorSize`, `Init` returns. -/
theorem C8_complex_layout_bound (u : Utilities) (env : InitEnv) (out : Image)
    (element_count : Int) (parameters : ParamArray)
    (hformat : CanUseDrawUtils out.pixel_format = true) :
    (∀ index : Fin kMaxProcessorSize, (index.val : Int) < element_count →
      (∀ j : Fin kMaxProcessorSize, j.val < index.val →
        ElementInitialises env out parameters j) →
      Contains 0 0 out.width out.height (parameters index).bound_x
        (parameters index).bound_y (parameters index).bound_width
        (parameters index).bound_height = false →
      ∃ l, ComplexLayout.Init u env out (ComplexLayout.new element_count parameters)
          = some (ErrorCode.kComplexLayoutBoundError, l) ∧
        ∀ k : Fin kMaxProcessorSize, index.val ≤ k.val →
          l.scale_ k = none ∧ (l.captured_image_ k).IsEmpty = true ∧
            (l.converted_image_ k).IsEmpty = true) ∧
    (∀ l, ComplexLayout.Init u env out (ComplexLayout.new element_count parameters)
        = some (ErrorCode.kNoError, l) →
      ∀ i : Fin kMaxProcessorSize, (i.val : Int) < element_count →
        0 ≤ (parameters i).bound_x ∧ 0 ≤ (parameters i).bound_y ∧
          (parameters i).bound_x + (parameters i).bound_width ≤ out.width ∧
          (parameters i).bound_y + (parameters i).bound_height ≤ out.height) ∧
    (element_count ≤ kMaxProcessorSize →
      ∃ r, ComplexLayout.Init u env out (ComplexLayout.new element_count parameters)
        = some r) := by
  refine ⟨?_, ?_, ?_⟩
  · intro index hindex hbefore hbad
    obtain ⟨l1, hrun, hcode, hrest⟩ :=
      ComplexLayout.InitElements_bound_error u env out index index.val element_count.toNat 0
        (ComplexLayout.new element_count parameters) (by omega) (by omega)
        (fun j _ hj => hbefore j hj) hbad
    refine ⟨(l1.ErrorOccured ErrorCode.kComplexLayoutBoundError).2, ?_, ?_⟩
    · simp only [ComplexLayout.Init, hformat, Bool.not_true, Bool.false_eq_true, if_false]
      have hcount : (ComplexLayout.new element_count parameters).element_count_
          = element_count := rfl
      rw [hcount, hrun]
      simp [ComplexLayout.ErrorOccured, Processor.ErrorOccured]
    · intro k hk
      obtain ⟨a1, a2, a3⟩ := hrest k hk
      simp only [ComplexLayout.ErrorOccured]
      rw [a1, a2, a3]
      exact ⟨rfl, rfl, rfl⟩
  · intro l hinit i hi
    simp only [ComplexLayout.Init, hformat, Bool.not_true, Bool.false_eq_true, if_false] at hinit
    have hcount : (ComplexLayout.new element_count parameters).element_count_
        = element_count := rfl
    rw [hcount] at hinit
    cases hrun : ComplexLayout.InitElements u env out element_count.toNat 0
        (ComplexLayout.new element_count parameters) with
    | none => simp [hrun] at hinit
    | some r =>
      obtain ⟨err, l1⟩ := r
      simp only [hrun] at hinit
      by_cases herr : err = ErrorCode.kNoError
      · subst herr
        have hc := ComplexLayout.InitElements_contains u env out element_count.toNat 0 _ l1 hrun
          i (Nat.zero_le _) (by omega)
        have hp : (ComplexLayout.new element_count parameters).parameters_ = parameters := rfl
        rw [hp] at hc
        simp only [Contains, Bool.and_eq_true, decide_eq_true_eq] at hc
        omega
      · simp [herr, ComplexLayout.ErrorOccured, Processor.ErrorOccured] at hinit
  · intro hle
    simp only [ComplexLayout.Init, hformat, Bool.not_true, Bool.false_eq_true, if_false]
    have hcount : (ComplexLayout.new element_count parameters).element_count_
        = element_count := rfl
    rw [hcount]
    obtain ⟨r, hr⟩ := ComplexLayout.InitElements_some u env out element_count.toNat 0
      (ComplexLayout.new element_count parameters) (by simp only [kMaxProcessorSize] at *; omega)
    rw [hr]
    obtain ⟨err, l1⟩ := r
    simp only
    split_ifs <;> exact ⟨_, rfl⟩

/-- Witness of C8 on the 2x1 I420 front image: with two elements of which the
second has the bound `(1, 0, 2, 1)`, `Init` returns the bound error and
elements 1 to 7 stay untouched; with the one element of `exParameters`, `Init`
succeeds and the bound `(0, 0, 2, 1)` lies in the image. -/
theorem C8_complex_layout_bound_witness :
    (∃ l, ComplexLayout.Init exUtilities exInitEnv (exEngine ImagePixelFormat.kI420).front_image_
          (ComplexLayout.new 2 exBoundParameters)
        = some (ErrorCode.kComplexLayoutBoundError, l) ∧
      ∀ k : Fin kMaxProcessorSize, (1 : Fin kMaxProcessorSize).val ≤ k.val →
        l.scale_ k = none ∧ (l.captured_image_ k).IsEmpty = true ∧
          (l.converted_image_ k).IsEmpty = true) ∧
    (0 ≤ (exParameters 0).bound_x ∧ 0 ≤ (exParameters 0).bound_y ∧
      (exParameters 0).bound_x + (exParameters 0).bound_width
        ≤ (exEngine ImagePixelFormat.kI420).front_image_.width ∧
      (exParameters 0).bound_y + (exParameters 0).bound_height
        ≤ (exEngine ImagePixelFormat.kI420).front_image_.height) :=
  ⟨(C8_complex_layout_bound exUtilities exInitEnv
      (exEngine ImagePixelFormat.kI420).front_image_ 2 exBoundParameters rfl).1 1 (by decide)
      (by
        intro j hj
        have hj0 : j = 0 := Fin.ext (by simpa using hj)
        subst hj0
        exact ⟨rfl, rfl, rfl, rfl⟩)
      rfl,
    (C8_complex_layout_bound exUtilities exInitEnv
      (exEngine ImagePixelFormat.kI420).front_image_ 1 exParameters rfl).2.1
      exComplexLayout rfl 0 (by decide)⟩

/-! ## Native layout and the bound rectangle -/

/-- Counterexample to C9: on the 2x1 I420 image `NativeLayout::Init` succeeds
for a parameter whose bound rectangle is `(-5, 700, 10000, 3)`. -/
theorem C9_native_layout_bound_counterexample :
    (NativeLayout.Init exUtilities exInitEnv (exEngine ImagePixelFormat.kI420).front_image_
        (NativeLayout.new exOutsideParameter)).1 = ErrorCode.kNoError ∧
    ¬ (0 ≤ exOutsideParameter.bound_x ∧ 0 ≤ exOutsideParameter.bound_y ∧
      exOutsideParameter.bound_x + exOutsideParameter.bound_width
        ≤ (exEngine ImagePixelFormat.kI420).front_image_.width ∧
      exOutsideParameter.bound_y + exOutsideParameter.bound_height
        ≤ (exEngine ImagePixelFormat.kI420).front_image_.height) := by
  decide

/-- C9, amended. `NativeLayout::Init` never tests the bound rectangle: for every
output image and every parameter, the returned code is the same for every
`bound_x`, `bound_y`, `bound_width` and `bound_height`, and the layout it
leaves is the same but for the two copies of the parameter it keeps, the
member `parameter_` and the parameter array handed to the screen capture
operator. -/
theorem C9_native_layout_ignores_bound (u : Utilities) (env : InitEnv) (out : Image)
    (p : LayoutParameter) (bound_x bound_y bound_width bound_height : Int) :
    (NativeLayout.Init u env out (NativeLayout.new
        { p with bound_x := bound_x, bound_y := bound_y, bound_width := bound_width,
                 bound_height := bound_height })).1
      = (NativeLayout.Init u env out (NativeLayout.new p)).1 ∧
    (NativeLayout.Init u env out (NativeLayout.new
        { p with bound_x := bound_x, bound_y := bound_y, bound_width := bound_width,
                 bound_height := bound_height })).2
      = { (NativeLayout.Init u env out (NativeLayout.new p)).2 with
          parameter_ :=
            { p with bound_x := bound_x, bound_y := bound_y, bound_width := bound_width,
                     bound_height := bound_height },
          screen_capture_ :=
            (NativeLayout.Init u env out (NativeLayout.new p)).2.screen_capture_.map
              (fun screen_capture =>
                { screen_capture with
                  parameters :=
                    [{ p with bound_x := bound_x, bound_y := bound_y,
                              bound_width := bound_width, bound_height := bound_height }] }) } := by
  simp only [NativeLayout.Init, NativeLayout.new]
  split_ifs <;> simp [NativeLayout.ErrorOccured, NativeLayout.InitDone]

/-! ## Draw order of the complex layout -/

theorem ComplexLayout.DrawElements_pixel (l : ComplexLayout) :
    ∀ (n i : Nat) (acc drawn : Bitmap),
      ComplexLayout.DrawElements l n i acc = some drawn →
      ∀ x y : Int,
        (∀ j : Fin kMaxProcessorSize, i ≤ j.val → j.val < i + n →
          l.inElement j x y = true →
          (∀ k : Fin kMaxProcessorSize, j.val < k.val → k.val < i + n →
            l.inElement k x y = false) →
          ∃ src, (l.converted_image_ j).avpicture = some src ∧
            drawn x y = src (x - l.element_x_ j) (y - l.element_y_ j)) ∧
        ((∀ j : Fin kMaxProcessorSize, i ≤ j.val → j.val < i + n →
          l.inElement j x y = false) → drawn x y = acc x y) := by
  intro n
  induction n with
  | zero =>
    intro i acc drawn hdraw x y
    simp only [ComplexLayout.DrawElements] at hdraw
    cases hdraw
    exact ⟨fun j h1 h2 => by omega, fun _ => rfl⟩
  | succ n ih =>
    intro i acc drawn hdraw x y
    simp only [ComplexLayout.DrawElements] at hdraw
    split_ifs at hdraw with hlt
    cases hsrc : (l.converted_image_ ⟨i, hlt⟩).avpicture with
    | none => simp [hsrc] at hdraw
    | some src =>
      simp only [hsrc] at hdraw
      obtain ⟨ih1, ih2⟩ := ih (i + 1) _ drawn hdraw x y
      constructor
      · intro j h1 h2 hin hlast
        by_cases hj : j.val = i
        · have hidx : (⟨i, hlt⟩ : Fin kMaxProcessorSize) = j := Fin.ext hj.symm
          have hrest := ih2 (fun k hk1 hk2 => hlast k (by omega) (by omega))
          refine ⟨src, by rw [← hidx]; exact hsrc, ?_⟩
          rw [hrest, ← hidx]
          rw [← hidx] at hin
          simp only [ComplexLayout.inElement] at hin
          simp [ff_copy_rectangle2, hin]
        · exact ih1 j (by omega) (by omega) hin
            (fun k hk1 hk2 => hlast k hk1 (by omega))
      · intro hnone
        rw [ih2 (fun j h1 h2 => hnone j (by omega) (by omega))]
        have hout := hnone ⟨i, hlt⟩ (le_refl i) (by simp)
        simp only [ComplexLayout.inElement] at hout
        simp [ff_copy_rectangle2, hout]

theorem ComplexLayout.ScaleElements_frame (frame : FrameEnv) :
    ∀ (k : Nat) (l : ComplexLayout) (r : ErrorCode × ComplexLayout),
      ComplexLayout.ScaleElements frame k l = some r →
      r.2.element_count_ = l.element_count_ ∧ r.2.element_x_ = l.element_x_ ∧
        r.2.element_y_ = l.element_y_ ∧ r.2.error_code_ = l.error_code_ := by
  intro k
  induction k with
  | zero =>
    intro l r hscale
    simp only [ComplexLayout.ScaleElements] at hscale
    cases hscale
    exact ⟨rfl, rfl, rfl, rfl⟩
  | succ k ih =>
    intro l r hscale
    simp only [ComplexLayout.ScaleElements] at hscale
    by_cases hlt : k < kMaxProcessorSize
    · rw [dif_pos hlt] at hscale
      cases hs : l.scale_ ⟨k, hlt⟩ with
      | none => simp [hs] at hscale
      | some sc =>
        simp only [hs] at hscale
        by_cases herr : frame.error_scale ⟨k, hlt⟩ ≠ ErrorCode.kNoError
        · rw [if_pos herr] at hscale
          cases hscale
          exact ⟨rfl, rfl, rfl, rfl⟩
        · rw [if_neg herr] at hscale
          have hrest := ih _ r hscale
          exact hrest
    · rw [dif_neg hlt] at hscale
      cases hscale

/-- C10. Draw order. When `ComplexLayout::Run` returns no error, the output
image holds a buffer `drawn` such that for every pixel `(x, y)`: if it lies in
the rectangle of element `j` below the element count and in the rectangle of
no later element, `drawn x y` is the pixel `(x - element_x_[j],
y - element_y_[j])` of the converted image of `j`; and if `(x, y)` is a pixel of
the output image that lies in the rectangle of no element, `drawn x y` is
black. `Run` keeps the element count and the draw origins. -/
theorem C10_complex_layout_draw_order (frame : FrameEnv) (l l1 : ComplexLayout)
    (out out1 : Image)
    (hrun : ComplexLayout.Run frame l out = some (ErrorCode.kNoError, l1, out1)) :
    l1.element_count_ = l.element_count_ ∧ l1.element_x_ = l.element_x_ ∧
      l1.element_y_ = l.element_y_ ∧
    ∃ drawn, out1.avpicture = some drawn ∧
      ∀ x y : Int,
        (∀ j : Fin kMaxProcessorSize, (j.val : Int) < l1.element_count_ →
          l1.inElement j x y = true →
          (∀ k : Fin kMaxProcessorSize, j.val < k.val → (k.val : Int) < l1.element_count_ →
            l1.inElement k x y = false) →
          ∃ src, (l1.converted_image_ j).avpicture = some src ∧
            drawn x y = src (x - l1.element_x_ j) (y - l1.element_y_ j)) ∧
        (0 ≤ x → x < out.width → 0 ≤ y → y < out.height →
          (∀ j : Fin kMaxProcessorSize, (j.val : Int) < l1.element_count_ →
            l1.inElement j x y = false) →
          drawn x y = kBlack) := by
  simp only [ComplexLayout.Run] at hrun
  split at hrun
  · rename_i herror
    simp only [Option.some.injEq, Prod.mk.injEq] at hrun
    exact absurd hrun.1 herror
  split at hrun
  · cases hrun
  split at hrun
  · rename_i hcapture
    simp only [ComplexLayout.ErrorOccured, Processor.ErrorOccured, hcapture, ne_eq,
      not_false_eq_true, if_true, Option.some.injEq, Prod.mk.injEq] at hrun
    exact hrun.1.elim
  split at hrun
  · cases hrun
  rename_i error_scale l2 hscale
  split at hrun
  · rename_i hscale_error
    simp only [ComplexLayout.ErrorOccured, Processor.ErrorOccured, hscale_error, ne_eq,
      not_false_eq_true, if_true, Option.some.injEq, Prod.mk.injEq] at hrun
    exact hrun.1.elim
  split at hrun
  · cases hrun
  rename_i buffer hbuffer
  split at hrun
  · cases hrun
  rename_i drawn hdrawn
  simp only [Option.some.injEq, Prod.mk.injEq] at hrun
  obtain ⟨_, hl, hout⟩ := hrun
  subst hl
  subst hout
  obtain ⟨hcount, hx, hy, _⟩ := ComplexLayout.ScaleElements_frame frame _ _ _ hscale
  refine ⟨hcount, hx, hy, drawn, by simp [Image.store, hbuffer], ?_⟩
  intro x y
  obtain ⟨h1, h2⟩ :=
    ComplexLayout.DrawElements_pixel l2 l2.element_count_.toNat 0 _ drawn hdrawn x y
  constructor
  · intro j hj hin hlast
    exact h1 j (Nat.zero_le _) (by omega) hin (fun k hk1 hk2 => hlast k hk1 (by omega))
  · intro hx0 hx1 hy0 hy1 hnone
    rw [h2 (fun j _ hj => hnone j (by omega))]
    simp [ff_fill_rectangle, inRect, hx0, hx1, hy0, hy1]

/-- Witness of C10: two 2x1 elements at `x = 0` and `x = 1` on a 3x1 output,
element 0 scaled to samples `1`, element 1 to samples `2`. The pixel `x = 1`,
where they overlap, shows element 1: the output is `1, 2, 2`. -/
theorem C10_complex_layout_draw_order_witness :
    (exDrawResult.2.1.element_count_ = exDrawLayout.element_count_ ∧
      exDrawResult.2.1.element_x_ = exDrawLayout.element_x_ ∧
      exDrawResult.2.1.element_y_ = exDrawLayout.element_y_ ∧
      ∃ drawn, exDrawResult.2.2.avpicture = some drawn ∧
        ∀ x y : Int,
          (∀ j : Fin kMaxProcessorSize, (j.val : Int) < exDrawResult.2.1.element_count_ →
            exDrawResult.2.1.inElement j x y = true →
            (∀ k : Fin kMaxProcessorSize, j.val < k.val →
              (k.val : Int) < exDrawResult.2.1.element_count_ →
              exDrawResult.2.1.inElement k x y = false) →
            ∃ src, (exDrawResult.2.1.converted_image_ j).avpicture = some src ∧
              drawn x y = src (x - exDrawResult.2.1.element_x_ j)
                (y - exDrawResult.2.1.element_y_ j)) ∧
          (0 ≤ x → x < exDrawOutput.width → 0 ≤ y → y < exDrawOutput.height →
            (∀ j : Fin kMaxProcessorSize, (j.val : Int) < exDrawResult.2.1.element_count_ →
              exDrawResult.2.1.inElement j x y = false) →
            drawn x y = kBlack)) ∧
    exDrawResult.1 = ErrorCode.kNoError ∧
    exDrawResult.2.2.avpicture.map (fun b => canonicalBytes b 3 1) = some [1, 2, 2] :=
  ⟨C10_complex_layout_draw_order exDrawFrame exDrawLayout exDrawResult.2.1 exDrawOutput
      exDrawResult.2.2 rfl,
    by decide, by decide⟩

/-! ## The flip and the bound check -/

/-- C17. Over exact integers, with `y1 = H - (y + h)`: `0 <= y1` and
`y1 + h <= H` hold exactly when `0 <= y` and `y + h <= H` do; the bound check
`Contains` of `InitByIndex` gives the same answer for the flipped and for the
given rectangle; flipping twice gives `y` back. The value staged by
`SetLayoutParameters` for a topdown output is this flip whenever the sum and
the difference fit in an `int`, and then the check on the staged parameter
accepts exactly the parameters that lie inside the output. -/
theorem C17_flip_preserves_containment (H y h : Int) :
    ((0 ≤ flipBoundY H y h ∧ flipBoundY H y h + h ≤ H) ↔ (0 ≤ y ∧ y + h ≤ H)) ∧
    (∀ W x w : Int, Contains 0 0 W H x (flipBoundY H y h) w h = Contains 0 0 W H x y w h) ∧
    flipBoundY H (flipBoundY H y h) h = y ∧
    (∀ (u : Utilities) (e : Engine) (element_count : Int) (parameters : ParamArray)
      (i : Fin kMaxProcessorSize) (W : Int),
      u.IsTopdownPixelFormat e.output_pixel_format_ = true →
      e.output_height_ = H → (parameters i).bound_y = y → (parameters i).bound_height = h →
      InIntRange (y + h) → InIntRange (H - (y + h)) →
      ((e.SetLayoutParameters u element_count parameters).parameters_ i).bound_y
          = flipBoundY H y h ∧
        Contains 0 0 W H
            ((e.SetLayoutParameters u element_count parameters).parameters_ i).bound_x
            ((e.SetLayoutParameters u element_count parameters).parameters_ i).bound_y
            ((e.SetLayoutParameters u element_count parameters).parameters_ i).bound_width
            ((e.SetLayoutParameters u element_count parameters).parameters_ i).bound_height
          = Contains 0 0 W H (parameters i).bound_x (parameters i).bound_y
              (parameters i).bound_width (parameters i).bound_height) := by
  have hiff : (0 ≤ flipBoundY H y h ∧ flipBoundY H y h + h ≤ H) ↔ (0 ≤ y ∧ y + h ≤ H) := by
    unfold flipBoundY
    constructor <;> intro hh <;> constructor <;> omega
  have hcontains : ∀ W x w : Int,
      Contains 0 0 W H x (flipBoundY H y h) w h = Contains 0 0 W H x y w h := by
    intro W x w
    unfold flipBoundY at *
    rw [Bool.eq_iff_iff]
    simp only [Contains, Bool.and_eq_true, decide_eq_true_eq]
    constructor <;> intro hh <;> refine ⟨⟨⟨?_, ?_⟩, ?_⟩, ?_⟩ <;> omega
  refine ⟨hiff, hcontains, by unfold flipBoundY; omega, ?_⟩
  intro u e element_count parameters i W htop hH hy hh hsum hdiff
  have hstaged : ((e.SetLayoutParameters u element_count parameters).parameters_ i).bound_y
      = flipBoundY H y h := by
    simp only [Engine.SetLayoutParameters, htop, if_true, int_sub, int_add, hH, hy, hh]
    rw [int_wrap_of_range _ hsum, int_wrap_of_range _ hdiff]
    rfl
  refine ⟨hstaged, ?_⟩
  rw [hstaged]
  simp only [Engine.SetLayoutParameters, htop, if_true, hy, hh]
  exact hcontains W _ _

/-- Witness of C17: topdown RGB0 640x480, `bound_y = 10`, `bound_height = 100`. -/
theorem C17_flip_preserves_containment_witness :
    ((exTopdownEngine.SetLayoutParameters exUtilities 1 exFlipParameters).parameters_ 0).bound_y
        = flipBoundY 480 10 100 ∧
      Contains 0 0 640 480
          ((exTopdownEngine.SetLayoutParameters exUtilities 1
            exFlipParameters).parameters_ 0).bound_x
          ((exTopdownEngine.SetLayoutParameters exUtilities 1
            exFlipParameters).parameters_ 0).bound_y
          ((exTopdownEngine.SetLayoutParameters exUtilities 1
            exFlipParameters).parameters_ 0).bound_width
          ((exTopdownEngine.SetLayoutParameters exUtilities 1
            exFlipParameters).parameters_ 0).bound_height
        = Contains 0 0 640 480 (exFlipParameters 0).bound_x (exFlipParameters 0).bound_y
            (exFlipParameters 0).bound_width (exFlipParameters 0).bound_height :=
  (C17_flip_preserves_containment 480 10 100).2.2.2 exUtilities exTopdownEngine 1
    exFlipParameters 0 640 rfl rfl rfl rfl (by unfold InIntRange; decide)
    (by unfold InIntRange; decide)

/-! ## Update -/

theorem NativeLayout.RunBound_same (frame : FrameEnv) (l : NativeLayout) (out : Image) :
    NativeLayout.RunBound frame l out out = NativeLayout.Run frame l out := rfl

/-- What `Update` does when there is no layout error and the layout returns:
the output pointer of the layout is set to the image that is not the last
updated one, the layout is run, the image the run wrote is stored, a returned
error becomes the layout error, and the image index is set to the image the
output pointer names. -/
theorem Engine.Update_run (frame : FrameEnv) (e : Engine) (layout layout1 : Layout)
    (err : ErrorCode) (written : ImageIndex) (out1 : Image)
    (hno_error : e.layout_error_code_ = ErrorCode.kNoError)
    (hlayout : e.layout_ = some layout)
    (hrun : Layout.Run frame (layout.SwapOutputImage e.last_update_image_.other)
      e.front_image_ e.back_image_ = some (err, layout1, written, out1)) :
    Engine.Update frame e
      = some { e.setImage written out1 with
          layout_ := some layout1,
          layout_error_code_ := if err ≠ ErrorCode.kNoError then err else ErrorCode.kNoError,
          last_update_image_ := e.last_update_image_.other } := by
  obtain ⟨ec, fmt, ow, oh, front, back, splash, lay, lerr, last, cnt, params⟩ := e
  simp only at hno_error hlayout
  subst hno_error hlayout
  cases last <;> cases written <;>
    simp only [ImageIndex.other, Layout.SwapOutputImage] at hrun <;>
    by_cases herr : err = ErrorCode.kNoError <;>
    simp [Engine.Update, Engine.GetCurrentLayoutError, Engine.Run,
      Layout.SwapOutputImage, hrun, herr, Engine.setImage, Engine.LayoutErrorOccured,
      ImageIndex.other]

theorem Layout.Run_output_image (frame : FrameEnv) (layout : Layout) (front back : Image)
    (r : ErrorCode × Layout × ImageIndex × Image)
    (hrun : Layout.Run frame layout front back = some r) :
    r.2.1.output_image_ = layout.output_image_ ∧
      r.2.1.init_output_image_ = layout.init_output_image_ := by
  unfold Layout.Run at hrun
  split at hrun
  · simp only [Option.map_eq_some'] at hrun
    obtain ⟨v, _, hv⟩ := hrun
    rw [← hv]
    exact ⟨rfl, rfl⟩
  · simp only [Option.map_eq_some'] at hrun
    obtain ⟨v, _, hv⟩ := hrun
    rw [← hv]
    exact ⟨rfl, rfl⟩

/-- The image a run writes: for a complex layout the image the output pointer
names, for a native layout the image the output pointer named during `Init`. -/
theorem Layout.Run_written (frame : FrameEnv) (layout : Layout) (front back : Image)
    (r : ErrorCode × Layout × ImageIndex × Image)
    (hrun : Layout.Run frame layout front back = some r) :
    (∀ l, layout.processor = LayoutProcessor.complex l → r.2.2.1 = layout.output_image_) ∧
    (∀ l, layout.processor = LayoutProcessor.native l →
      r.2.2.1 = layout.init_output_image_) := by
  unfold Layout.Run at hrun
  split at hrun
  · rename_i l0 hl0
    simp only [Option.map_eq_some'] at hrun
    obtain ⟨v, _, hv⟩ := hrun
    rw [← hv]
    refine ⟨fun l hl => ?_, fun l _ => rfl⟩
    rw [hl0] at hl
    cases hl
  · rename_i l0 hl0
    simp only [Option.map_eq_some'] at hrun
    obtain ⟨v, _, hv⟩ := hrun
    rw [← hv]
    refine ⟨fun l _ => rfl, fun l hl => ?_⟩
    rw [hl0] at hl
    cases hl

/-- With no layout error and a layout installed, an `Update` whose layout run
returns no error stores what the run wrote in the image `written`, leaves the
other output image and the splash image as they were, and sets
`last_update_image_` to the image that was not the last updated one. -/
theorem Engine.Update_success (frame : FrameEnv) (e : Engine) (layout layout1 : Layout)
    (written : ImageIndex) (out1 : Image)
    (hno_error : e.layout_error_code_ = ErrorCode.kNoError)
    (hlayout : e.layout_ = some layout)
    (hrun : Layout.Run frame (layout.SwapOutputImage e.last_update_image_.other)
      e.front_image_ e.back_image_ = some (ErrorCode.kNoError, layout1, written, out1)) :
    ∃ e1, Engine.Update frame e = some e1 ∧
      e1.layout_ = some layout1 ∧
      layout1.output_image_ = e.last_update_image_.other ∧
      e1.image written = out1 ∧
      e1.image written.other = e.image written.other ∧
      e1.splash_image_ = e.splash_image_ ∧
      e1.last_update_image_ = e.last_update_image_.other ∧
      e1.last_update_image_ ≠ e.last_update_image_ ∧
      e1.layout_error_code_ = ErrorCode.kNoError ∧
      e1.error_code_ = e.error_code_ := by
  refine ⟨_, Engine.Update_run frame e layout layout1 _ written out1 hno_error hlayout hrun,
    rfl, ?_⟩
  have hbound := (Layout.Run_output_image frame _ _ _ _ hrun).1
  refine ⟨hbound, ?_⟩
  cases hlast : e.last_update_image_ <;> cases written <;>
    simp [Engine.image, Engine.setImage, ImageIndex.other]

/-- The double buffering of `Update` with a complex layout installed: a run
that returns no error writes the image that is not `last_update_image_` at
entry, the image that is `last_update_image_` at entry is as before, and
`last_update_image_` names the written image afterwards. -/
theorem Engine.Update_complex_success (frame : FrameEnv) (e : Engine)
    (layout layout1 : Layout) (l : ComplexLayout) (written : ImageIndex) (out1 : Image)
    (hno_error : e.layout_error_code_ = ErrorCode.kNoError)
    (hlayout : e.layout_ = some layout)
    (hcomplex : layout.processor = LayoutProcessor.complex l)
    (hrun : Layout.Run frame (layout.SwapOutputImage e.last_update_image_.other)
      e.front_image_ e.back_image_ = some (ErrorCode.kNoError, layout1, written, out1)) :
    ∃ e1, Engine.Update frame e = some e1 ∧
      written = e.last_update_image_.other ∧
      e1.image e.last_update_image_.other = out1 ∧
      e1.image e.last_update_image_ = e.image e.last_update_image_ ∧
      e1.splash_image_ = e.splash_image_ ∧
      e1.last_update_image_ = e.last_update_image_.other := by
  have hwritten : written = e.last_update_image_.other :=
    (Layout.Run_written frame _ _ _ _ hrun).1 l hcomplex
  subst hwritten
  obtain ⟨e1, h1, _, _, h4, h5, h6, h7, _⟩ :=
    Engine.Update_success frame e layout layout1 _ out1 hno_error hlayout hrun
  refine ⟨e1, h1, rfl, h4, ?_, h6, h7⟩
  have hother : e.last_update_image_.other.other = e.last_update_image_ := by
    cases e.last_update_image_ <;> rfl
  rw [hother] at h5
  exact h5

/-- C13 does not hold with a native layout installed. The I420 2x1 engine after
`SetNativeLayout()`: no layout error, `last_update_image_ = kFront`, front and
back black. `Update` with the frame whose samples are all `7` returns no error
and sets `last_update_image_` to `kBack`, but the frame is in the front image,
which was the last updated one, and the back image is as before; the next
`CopyFrontImage` copies the black back image. -/
theorem C13_update_native_writes_front :
    (exPlanarNewWorker.engine.layout_error_code_, exPlanarNewWorker.engine.last_update_image_,
        exPlanarNewWorker.engine.front_image_.avpicture.map (fun b => canonicalBytes b 2 1),
        exPlanarNewWorker.engine.back_image_.avpicture.map (fun b => canonicalBytes b 2 1))
      = (ErrorCode.kNoError, ImageIndex.kFront, some [0, 0], some [0, 0]) ∧
    (Engine.Update (exFrame 7) exPlanarNewWorker.engine).map
        (fun e1 => (e1.layout_error_code_, e1.last_update_image_,
          e1.front_image_.avpicture.map (fun b => canonicalBytes b 2 1),
          e1.back_image_.avpicture.map (fun b => canonicalBytes b 2 1)))
      = some (ErrorCode.kNoError, ImageIndex.kBack, some [7, 7], some [0, 0]) ∧
    ((Engine.Update (exFrame 7) exPlanarNewWorker.engine).bind
        (fun e1 => (e1.CopyFrontImage [9, 9]).map (fun r => (r.1, r.2.1))))
      = some (ErrorCode.kNoError, [0, 0]) := by
  decide

/-- Counterexample to C14: on the I420 2x1 engine with a native layout installed
and `last_update_image_ = kFront`, an `Update` whose screen capture fails with
code 5 leaves the layout error 5 and `last_update_image_ = kBack`. -/
theorem C14_update_failure_counterexample :
    exPlanarNewWorker.engine.layout_error_code_ = ErrorCode.kNoError ∧
    exPlanarNewWorker.engine.last_update_image_ = ImageIndex.kFront ∧
    exFailedUpdateRun.1 = ErrorCode.kOtherError 5 ∧
    (Engine.Update exCaptureFailsFrame exPlanarNewWorker.engine).map
        (fun e1 => (e1.layout_error_code_, e1.last_update_image_))
      = some (ErrorCode.kOtherError 5, ImageIndex.kBack) := by
  decide

/-- C14, amended. With no layout error and a layout installed, an `Update` whose
layout run returns an error `err` leaves the layout error `err` and sets
`last_update_image_` to the image that was not the last updated one, as after
a successful run. The splash image is as before, every later `Update` changes
nothing, and `CopyFrontImage` into a buffer of the splash size writes the
splash bytes. -/
theorem C14_update_failure (frame : FrameEnv) (e : Engine) (layout layout1 : Layout)
    (err : ErrorCode) (written : ImageIndex) (out1 : Image)
    (hno_error : e.layout_error_code_ = ErrorCode.kNoError)
    (hlayout : e.layout_ = some layout)
    (herr : err ≠ ErrorCode.kNoError)
    (hrun : Layout.Run frame (layout.SwapOutputImage e.last_update_image_.other)
      e.front_image_ e.back_image_ = some (err, layout1, written, out1)) :
    ∃ e1, Engine.Update frame e = some e1 ∧
      e1.layout_error_code_ = err ∧
      e1.last_update_image_ = e.last_update_image_.other ∧
      e1.last_update_image_ ≠ e.last_update_image_ ∧
      e1.splash_image_ = e.splash_image_ ∧
      (∀ frame2, Engine.Update frame2 e1 = some e1) ∧
      (∀ (sample : List Nat) (buffer : Bitmap), e.error_code_ = ErrorCode.kNoError →
        e.splash_image_.avpicture = some buffer →
        sample.length = CalculateImageSize e.splash_image_ →
        e1.CopyFrontImage sample
          = some (ErrorCode.kNoError,
              canonicalBytes buffer e.splash_image_.width e.splash_image_.height, e1)) := by
  refine ⟨_, Engine.Update_run frame e layout layout1 _ written out1 hno_error hlayout hrun, ?_⟩
  have hcode : (if err ≠ ErrorCode.kNoError then err else ErrorCode.kNoError) = err :=
    if_pos herr
  refine ⟨hcode, rfl, ?_, ?_, ?_, ?_⟩
  · cases hlast : e.last_update_image_ <;> simp [ImageIndex.other]
  · cases written <;> simp [Engine.setImage]
  · intro frame2
    exact Engine.Update_of_layout_error frame2 _ (by rw [hcode]; exact herr)
  · intro sample buffer herror hsplash hsize
    have hs : ({ e.setImage written out1 with
          layout_ := some layout1,
          layout_error_code_ := if err ≠ ErrorCode.kNoError then err else ErrorCode.kNoError,
          last_update_image_ := e.last_update_image_.other } : Engine).splash_image_
        = e.splash_image_ := by
      cases written <;> simp [Engine.setImage]
    have hcopy := Engine.CopyFrontImage_splash
      ({ e.setImage written out1 with
          layout_ := some layout1,
          layout_error_code_ := if err ≠ ErrorCode.kNoError then err else ErrorCode.kNoError,
          last_update_image_ := e.last_update_image_.other } : Engine) sample buffer
      (by cases written <;> simp [Engine.setImage, herror])
      (by rw [hcode]; exact herr) (by rw [hs]; exact hsplash) (by rw [hs]; exact hsize)
    rw [hs] at hcopy
    exact hcopy

/-- Witness of C14 (amended): the failing frame of the counterexample. -/
theorem C14_update_failure_witness :
    ∃ e1, Engine.Update exCaptureFailsFrame exPlanarNewWorker.engine = some e1 ∧
      e1.layout_error_code_ = ErrorCode.kOtherError 5 ∧
      e1.last_update_image_ = exPlanarNewWorker.engine.last_update_image_.other ∧
      e1.last_update_image_ ≠ exPlanarNewWorker.engine.last_update_image_ ∧
      e1.splash_image_ = exPlanarNewWorker.engine.splash_image_ ∧
      (∀ frame2, Engine.Update frame2 e1 = some e1) ∧
      (∀ (sample : List Nat) (buffer : Bitmap),
        exPlanarNewWorker.engine.error_code_ = ErrorCode.kNoError →
        exPlanarNewWorker.engine.splash_image_.avpicture = some buffer →
        sample.length = CalculateImageSize exPlanarNewWorker.engine.splash_image_ →
        e1.CopyFrontImage sample
          = some (ErrorCode.kNoError,
              canonicalBytes buffer exPlanarNewWorker.engine.splash_image_.width
                exPlanarNewWorker.engine.splash_image_.height, e1)) :=
  C14_update_failure exCaptureFailsFrame exPlanarNewWorker.engine exInstalledLayout
    exFailedUpdateRun.2.1 (ErrorCode.kOtherError 5) exFailedUpdateRun.2.2.1
    exFailedUpdateRun.2.2.2 rfl rfl (by decide) rfl

/-! ## A layout is installed whenever there is no layout error -/

theorem Engine.InstallResult_installed (e e1 : Engine) (hresult : Engine.InstallResult e e1) :
    e1.LayoutInstalledIfNoError := by
  rcases hresult with ⟨err, herr, rfl⟩ | ⟨layout, front, back, _, _, rfl⟩
  · intro h
    exact absurd h herr
  · intro _
    exact ⟨layout, rfl⟩

theorem Engine.Run_layout (frame : FrameEnv) (e : Engine) (r : ErrorCode × Engine)
    (hrun : Engine.Run frame e = some r) : ∃ layout, r.2.layout_ = some layout := by
  unfold Engine.Run at hrun
  split at hrun
  · cases hrun
  split at hrun
  · cases hrun
  rename_i error layout1 written out1 _
  simp only [Option.some.injEq] at hrun
  rw [← hrun]
  refine ⟨layout1, ?_⟩
  simp only [Engine.LayoutErrorOccured]
  split_ifs <;> rfl

theorem Engine.Update_installed (frame : FrameEnv) (e e1 : Engine)
    (hupdate : Engine.Update frame e = some e1) (hinv : e.LayoutInstalledIfNoError) :
    e1.LayoutInstalledIfNoError := by
  unfold Engine.Update at hupdate
  split at hupdate
  · cases hupdate
    exact hinv
  split at hupdate
  · cases hupdate
  split at hupdate <;>
  · simp only [Option.map_eq_some'] at hupdate
    obtain ⟨r, hr, rfl⟩ := hupdate
    obtain ⟨layout1, h1⟩ := Engine.Run_layout frame _ r hr
    intro _
    exact ⟨layout1, h1⟩

theorem Worker.step_installed (u : Utilities) (w w1 : Worker) (s : Step)
    (hstep : w.step u s = some w1) (hinv : w.engine.LayoutInstalledIfNoError) :
    w1.engine.LayoutInstalledIfNoError := by
  cases s with
  | request r env =>
    simp only [Worker.step, Worker.serve] at hstep
    split at hstep
    · cases hstep
    split at hstep
    · cases r <;> simp only [Worker.DoLoop] at hstep <;> cases hstep <;> exact hinv
    · cases r <;> simp only [Worker.ThreadProc] at hstep
      · cases hstep
      · cases hstep
        intro h
        cases h
      · simp only [Option.map_eq_some'] at hstep
        obtain ⟨e1, he1, rfl⟩ := hstep
        exact Engine.InstallResult_installed _ _ (Engine.DoSetNativeLayout_result u env _ _ he1)
      · simp only [Option.map_eq_some'] at hstep
        obtain ⟨e1, he1, rfl⟩ := hstep
        exact Engine.InstallResult_installed _ _ (Engine.DoSetComplexLayout_result u env _ _ he1)
      · cases hstep
        exact hinv
      · cases hstep
        exact hinv
      · cases hstep
        exact hinv
  | update frame =>
    simp only [Worker.step] at hstep
    split at hstep
    · simp only [Option.map_eq_some'] at hstep
      obtain ⟨e1, he1, rfl⟩ := hstep
      exact Engine.Update_installed frame _ _ he1 hinv
    · cases hstep
  | setLayoutParameters element_count parameters =>
    simp only [Worker.step] at hstep
    cases hstep
    exact hinv
  | copyFrontImage sample =>
    simp only [Worker.step, Option.map_eq_some'] at hstep
    obtain ⟨r, hr, rfl⟩ := hstep
    rw [Engine.CopyFrontImage_engine _ sample r hr]
    exact hinv

theorem Worker.steps_installed (u : Utilities) (steps : List Step) :
    ∀ (w w1 : Worker), w.steps u steps = some w1 → w.engine.LayoutInstalledIfNoError →
      w1.engine.LayoutInstalledIfNoError := by
  induction steps with
  | nil =>
    intro w w1 hsteps hinv
    simp only [Worker.steps] at hsteps
    cases hsteps
    exact hinv
  | cons s rest ih =>
    intro w w1 hsteps hinv
    simp only [Worker.steps] at hsteps
    cases hstep : w.step u s with
    | none => simp [hstep] at hsteps
    | some w2 =>
      simp only [hstep] at hsteps
      exact ih w2 w1 hsteps (Worker.step_installed u w w2 s hstep hinv)

theorem Engine.Init_installed (env : EngineInitEnv) (e : Engine)
    (hinv : e.LayoutInstalledIfNoError) : (Engine.Init env e).2.LayoutInstalledIfNoError := by
  simp only [Engine.Init, Engine.ErrorOccured, Engine.InitDone, Engine.DoResetLayout]
  split_ifs <;> first
    | exact hinv
    | (intro h; cases h)

theorem Engine.Update_none (frame : FrameEnv) (e : Engine)
    (hinv : e.LayoutInstalledIfNoError) (hnone : Engine.Update frame e = none) :
    ∃ layout, e.layout_ = some layout ∧
      Layout.Run frame (layout.SwapOutputImage e.last_update_image_.other)
        e.front_image_ e.back_image_ = none := by
  by_cases herr : e.layout_error_code_ = ErrorCode.kNoError
  · obtain ⟨layout, hlayout⟩ := hinv herr
    refine ⟨layout, hlayout, ?_⟩
    cases hrun : Layout.Run frame (layout.SwapOutputImage e.last_update_image_.other)
        e.front_image_ e.back_image_ with
    | none => rfl
    | some r =>
      obtain ⟨err, layout1, written, out1⟩ := r
      rw [Engine.Update_run frame e layout layout1 err written out1 herr hlayout hrun] at hnone
      cases hnone
  · rw [Engine.Update_of_layout_error frame e herr] at hnone
    cases hnone

/-- C16. The invariant "no layout error implies a layout is installed" holds
for the constructed engine, is kept by `Engine::Init`, and is kept by every
sequence of steps of the running engine: requests to the worker, frame
updates, `SetLayoutParameters` and `CopyFrontImage`. In every state so reached
`Update` never meets a null `layout_`: when `Update` does not return, it is
the run of the installed layout that does not. Hence it holds in every state
reached from construction and `Init` by such steps. -/
theorem C16_layout_installed_if_no_error (u : Utilities) :
    (∀ (pixel_format : ImagePixelFormat) (width height element_count : Int)
        (parameters : ParamArray),
      (Engine.new pixel_format width height element_count parameters).LayoutInstalledIfNoError) ∧
    (∀ (env : EngineInitEnv) (e : Engine), e.LayoutInstalledIfNoError →
      (Engine.Init env e).2.LayoutInstalledIfNoError) ∧
    (∀ (w w1 : Worker) (steps : List Step), w.engine.LayoutInstalledIfNoError →
      w.steps u steps = some w1 →
      w1.engine.LayoutInstalledIfNoError ∧
        ∀ frame, Engine.Update frame w1.engine = none →
          ∃ layout, w1.engine.layout_ = some layout ∧
            Layout.Run frame (layout.SwapOutputImage w1.engine.last_update_image_.other)
              w1.engine.front_image_ w1.engine.back_image_ = none) ∧
    (∀ (env : EngineInitEnv) (pixel_format : ImagePixelFormat)
        (width height element_count : Int) (parameters : ParamArray) (steps : List Step)
        (w1 : Worker),
      Worker.steps u
          { engine := (Engine.Init env
              (Engine.new pixel_format width height element_count parameters)).2,
            in_loop := false, terminated := false } steps = some w1 →
      w1.engine.LayoutInstalledIfNoError) := by
  have hnew : ∀ (pixel_format : ImagePixelFormat) (width height element_count : Int)
      (parameters : ParamArray),
      (Engine.new pixel_format width height element_count parameters).LayoutInstalledIfNoError := by
    intro pixel_format width height element_count parameters h
    cases h
  refine ⟨hnew, fun env e hinv => Engine.Init_installed env e hinv, ?_, ?_⟩
  · intro w w1 steps hinv hsteps
    have h1 := Worker.steps_installed u steps w w1 hsteps hinv
    exact ⟨h1, fun frame hnone => Engine.Update_none frame _ h1 hnone⟩
  · intro env pixel_format width height element_count parameters steps w1 hsteps
    exact Worker.steps_installed u steps _ w1 hsteps
      (Engine.Init_installed env _ (hnew pixel_format width height element_count parameters))

/-- Witness of C16: from the engine after `Init`, through two layouts, a failed
frame and a reset. -/
theorem C16_layout_installed_if_no_error_witness :
    exInvariantWorker.engine.LayoutInstalledIfNoError ∧
      ∀ frame, Engine.Update frame exInvariantWorker.engine = none →
        ∃ layout, exInvariantWorker.engine.layout_ = some layout ∧
          Layout.Run frame
            (layout.SwapOutputImage exInvariantWorker.engine.last_update_image_.other)
            exInvariantWorker.engine.front_image_ exInvariantWorker.engine.back_image_
            = none :=
  (C16_layout_installed_if_no_error exUtilities).2.2.1 (exWorker ImagePixelFormat.kI420)
    exInvariantWorker exInvariantSteps
    ((C16_layout_installed_if_no_error exUtilities).2.2.2 exEngineInitEnv
      ImagePixelFormat.kI420 2 1 1 exParameters [] (exWorker ImagePixelFormat.kI420) rfl)
    rfl

/-! ## Run of the layouts: order of the operators and the error latch -/

theorem NativeLayout.nativeRun_latched (frame : FrameEnv) (l : NativeLayout) (out : Image)
    (herror : l.error_code_ ≠ ErrorCode.kNoError) :
    NativeLayout.Run frame l out = some (l.error_code_, l, out) := by
  simp [NativeLayout.Run, herror]

theorem NativeLayout.nativeErrorOccured_records (l : NativeLayout) (err : ErrorCode)
    (herr : err ≠ ErrorCode.kNoError) :
    (l.ErrorOccured err).2.error_code_ = (l.ErrorOccured err).1 ∧ (l.ErrorOccured err).1 = err := by
  simp [NativeLayout.ErrorOccured, Processor.ErrorOccured, herr]

/-- The code that `NativeLayout::Run` returns is the layout's current error
afterwards. -/
theorem NativeLayout.nativeRun_records (frame : FrameEnv) (l : NativeLayout) (out : Image)
    (r : ErrorCode × NativeLayout × Image) (hrun : NativeLayout.Run frame l out = some r) :
    r.2.1.error_code_ = r.1 := by
  simp only [NativeLayout.Run] at hrun
  split at hrun
  · cases hrun
    rfl
  split at hrun
  · cases hrun
  split at hrun
  · rename_i hcapture
    cases hrun
    exact (NativeLayout.nativeErrorOccured_records _ _ hcapture).1
  split at hrun
  · cases hrun
  split at hrun
  · rename_i hscale
    cases hrun
    exact (NativeLayout.nativeErrorOccured_records _ _ hscale).1
  split at hrun
  · split at hrun
    · cases hrun
    split at hrun
    · cases hrun
    split at hrun
    · cases hrun
    split at hrun
    · rename_i hpadding
      cases hrun
      exact (NativeLayout.nativeErrorOccured_records _ _ hpadding).1
    · cases hrun
      rfl
  · cases hrun
    rfl

theorem ComplexLayout.complexRun_latched (frame : FrameEnv) (l : ComplexLayout) (out : Image)
    (herror : l.error_code_ ≠ ErrorCode.kNoError) :
    ComplexLayout.Run frame l out = some (l.error_code_, l, out) := by
  simp [ComplexLayout.Run, herror]

theorem ComplexLayout.complexErrorOccured_records (l : ComplexLayout) (err : ErrorCode)
    (herr : err ≠ ErrorCode.kNoError) :
    (l.ErrorOccured err).2.error_code_ = (l.ErrorOccured err).1 ∧
      (l.ErrorOccured err).1 = err := by
  simp [ComplexLayout.ErrorOccured, Processor.ErrorOccured, herr]

/-- The code that `ComplexLayout::Run` returns is the layout's current error
afterwards. -/
theorem ComplexLayout.complexRun_records (frame : FrameEnv) (l : ComplexLayout) (out : Image)
    (r : ErrorCode × ComplexLayout × Image) (hrun : ComplexLayout.Run frame l out = some r) :
    r.2.1.error_code_ = r.1 := by
  simp only [ComplexLayout.Run] at hrun
  split at hrun
  · cases hrun
    rfl
  split at hrun
  · cases hrun
  split at hrun
  · rename_i hcapture
    cases hrun
    exact (ComplexLayout.complexErrorOccured_records _ _ hcapture).1
  split at hrun
  · cases hrun
  split at hrun
  · rename_i hscale
    cases hrun
    exact (ComplexLayout.complexErrorOccured_records _ _ hscale).1
  split at hrun
  · cases hrun
  split at hrun
  · cases hrun
  cases hrun
  rfl

/-- The scale loop stops at the first failing scale in its order, that of
the largest index, and leaves the converted images of smaller indices
untouched. -/
theorem ComplexLayout.ScaleElements_first_error (frame : FrameEnv)
    (k : Fin kMaxProcessorSize) :
    ∀ (n : Nat) (l : ComplexLayout), k.val < n → n ≤ kMaxProcessorSize →
      (∀ j : Fin kMaxProcessorSize, k.val < j.val → j.val < n →
        (∃ s, l.scale_ j = some s) ∧ frame.error_scale j = ErrorCode.kNoError) →
      (∃ s, l.scale_ k = some s) →
      frame.error_scale k ≠ ErrorCode.kNoError →
      ∃ l1, ComplexLayout.ScaleElements frame n l = some (frame.error_scale k, l1) ∧
        ∀ j : Fin kMaxProcessorSize, j.val < k.val →
          l1.converted_image_ j = l.converted_image_ j := by
  intro n
  induction n with
  | zero =>
    intro l hk
    omega
  | succ n ih =>
    intro l hk hn hafter hscale herr
    have hlt : n < kMaxProcessorSize := by omega
    simp only [ComplexLayout.ScaleElements, dif_pos hlt]
    by_cases hkn : k.val = n
    · have hidx : (⟨n, hlt⟩ : Fin kMaxProcessorSize) = k := Fin.ext hkn.symm
      obtain ⟨s, hs⟩ := hscale
      rw [hidx, hs]
      simp only [herr, ne_eq, not_false_eq_true, if_true]
      refine ⟨_, rfl, ?_⟩
      intro j hj
      have hne : j ≠ k := fun h => by rw [h] at hj; omega
      simp [Function.update_noteq hne]
    · obtain ⟨⟨s, hs⟩, hok⟩ := hafter ⟨n, hlt⟩ (by simp; omega) (by simp)
      rw [hs]
      simp only [hok, ne_eq, not_true_eq_false, if_false]
      obtain ⟨l1, hrun, hrest⟩ := ih
        { l with
          converted_image_ := Function.update l.converted_image_ ⟨n, hlt⟩
            ((l.converted_image_ ⟨n, hlt⟩).store (frame.converted ⟨n, hlt⟩)) }
        (by omega) (by omega)
        (fun j hj1 hj2 => hafter j hj1 (by omega)) hscale herr
      refine ⟨l1, hrun, ?_⟩
      intro j hj
      rw [hrest j hj]
      have hne : j ≠ ⟨n, hlt⟩ := fun h => by rw [h] at hj; simp at hj; omega
      simp [Function.update_noteq hne]

theorem ComplexLayout.ScaleElements_all_ok (frame : FrameEnv) :
    ∀ (n : Nat) (l : ComplexLayout), n ≤ kMaxProcessorSize →
      (∀ j : Fin kMaxProcessorSize, j.val < n →
        (∃ s, l.scale_ j = some s) ∧ frame.error_scale j = ErrorCode.kNoError) →
      ∃ l1, ComplexLayout.ScaleElements frame n l = some (ErrorCode.kNoError, l1) ∧
        ∀ j : Fin kMaxProcessorSize,
          l1.converted_image_ j
            = if j.val < n then (l.converted_image_ j).store (frame.converted j)
              else l.converted_image_ j := by
  intro n
  induction n with
  | zero =>
    intro l _ _
    exact ⟨l, rfl, fun j => by simp⟩
  | succ n ih =>
    intro l hn hall
    have hlt : n < kMaxProcessorSize := by omega
    simp only [ComplexLayout.ScaleElements, dif_pos hlt]
    obtain ⟨⟨s, hs⟩, hok⟩ := hall ⟨n, hlt⟩ (by simp)
    rw [hs]
    simp only [hok, ne_eq, not_true_eq_false, if_false]
    obtain ⟨l1, hrun, hrest⟩ := ih
      { l with
        converted_image_ := Function.update l.converted_image_ ⟨n, hlt⟩
          ((l.converted_image_ ⟨n, hlt⟩).store (frame.converted ⟨n, hlt⟩)) }
      (by omega) (fun j hj => hall j (by omega))
    refine ⟨l1, hrun, ?_⟩
    intro j
    rw [hrest j]
    by_cases hjn : j.val = n
    · have hidx : j = ⟨n, hlt⟩ := Fin.ext hjn
      subst hidx
      simp
    · have hne : j ≠ ⟨n, hlt⟩ := fun h => hjn (by rw [h])
      by_cases hj : j.val < n
      · have hj1 : j.val < n + 1 := by omega
        simp [hj, hj1, Function.update_noteq hne]
      · have hj1 : ¬ j.val < n + 1 := by omega
        simp [hj, hj1, Function.update_noteq hne]

theorem ComplexLayout.DrawElements_some (l : ComplexLayout) :
    ∀ (n i : Nat) (acc : Bitmap), i + n ≤ kMaxProcessorSize →
      (∀ j : Fin kMaxProcessorSize, i ≤ j.val → j.val < i + n →
        ∃ b, (l.converted_image_ j).avpicture = some b) →
      ∃ drawn, ComplexLayout.DrawElements l n i acc = some drawn := by
  intro n
  induction n with
  | zero =>
    intro i acc _ _
    exact ⟨acc, rfl⟩
  | succ n ih =>
    intro i acc hin hall
    have hlt : i < kMaxProcessorSize := by omega
    simp only [ComplexLayout.DrawElements, dif_pos hlt]
    obtain ⟨b, hb⟩ := hall ⟨i, hlt⟩ (le_refl i) (by simp)
    rw [hb]
    exact ih (i + 1) _ (by omega) (fun j h1 h2 => hall j (by omega) (by omega))

/-- Order of the operators of the native layout. (1) Once the current error is not `kNoError`, `Run`
returns it for every frame and changes neither the layout nor the output
image: no operator runs. (2) The code `Run` returns is the current error
afterwards. For a layout with no error whose operators exist: (3) a failing
capture ends `Run` with its code, the converted image and the output image
untouched; (4) after a passing capture a failing scale ends `Run` with its
code, and with padding the output image is untouched; (5) after both a
failing padding ends `Run` with its code; (6) when all pass `Run` returns
`kNoError` and the output is the padding of the freshly scaled image, or the
scaled image itself when the format has no padding. -/
theorem NativeLayout.nativeRun_order (frame : FrameEnv) (l : NativeLayout) (out : Image) :
    (l.error_code_ ≠ ErrorCode.kNoError →
      ∀ frame2 out2, NativeLayout.Run frame2 l out2 = some (l.error_code_, l, out2)) ∧
    (∀ r, NativeLayout.Run frame l out = some r → r.2.1.error_code_ = r.1) ∧
    (l.error_code_ = ErrorCode.kNoError → NativeLayout.Ready l out →
      (frame.error_screen_capture ≠ ErrorCode.kNoError →
        NativeLayout.Run frame l out
          = some (frame.error_screen_capture,
              { l with captured_image_ := l.captured_image_.store (frame.captured 0),
                       error_code_ := frame.error_screen_capture }, out)) ∧
      (frame.error_screen_capture = ErrorCode.kNoError →
        frame.error_scale 0 ≠ ErrorCode.kNoError →
        ∃ l1 out1, NativeLayout.Run frame l out = some (frame.error_scale 0, l1, out1) ∧
          l1.error_code_ = frame.error_scale 0 ∧
          (NativeLayout.CanUsePadding out = true → out1 = out) ∧
          (NativeLayout.CanUsePadding out = false → out1 = out.store (frame.converted 0))) ∧
      (frame.error_screen_capture = ErrorCode.kNoError →
        frame.error_scale 0 = ErrorCode.kNoError →
        NativeLayout.CanUsePadding out = true →
        frame.error_padding ≠ ErrorCode.kNoError →
        ∃ l1 out1, NativeLayout.Run frame l out = some (frame.error_padding, l1, out1) ∧
          l1.error_code_ = frame.error_padding) ∧
      (frame.error_screen_capture = ErrorCode.kNoError →
        frame.error_scale 0 = ErrorCode.kNoError →
        NativeLayout.CanUsePadding out = true →
        frame.error_padding = ErrorCode.kNoError →
        ∃ l1 p outer, l.padding_ = some p ∧ out.avpicture = some outer ∧
          NativeLayout.Run frame l out
            = some (ErrorCode.kNoError, l1,
                out.store (Padding.Run p (frame.converted 0) l.converted_image_.width
                  l.converted_image_.height outer out.width out.height))) ∧
      (frame.error_screen_capture = ErrorCode.kNoError →
        frame.error_scale 0 = ErrorCode.kNoError →
        NativeLayout.CanUsePadding out = false →
        NativeLayout.Run frame l out
          = some (ErrorCode.kNoError,
              { l with captured_image_ := l.captured_image_.store (frame.captured 0) },
              out.store (frame.converted 0)))) := by
  refine ⟨fun herror frame2 out2 => NativeLayout.nativeRun_latched frame2 l out2 herror,
    fun r hrun => NativeLayout.nativeRun_records frame l out r hrun, ?_⟩
  intro hcode hready
  obtain ⟨⟨sc, hsc⟩, ⟨s, hs⟩, hpad⟩ := hready
  refine ⟨?_, ?_, ?_, ?_, ?_⟩
  · intro hcapture
    simp [NativeLayout.Run, hcode, hsc, hcapture, NativeLayout.ErrorOccured,
      Processor.ErrorOccured]
  · intro hcapture hscale
    by_cases hp : NativeLayout.CanUsePadding out = true
    · refine ⟨(NativeLayout.ErrorOccured
          { l with captured_image_ := l.captured_image_.store (frame.captured 0),
                   converted_image_ := l.converted_image_.store (frame.converted 0) }
          (frame.error_scale 0)).2, out, ?_, ?_, fun _ => rfl, fun h => absurd hp (by simp [h])⟩
      · simp [NativeLayout.Run, hcode, hsc, hs, hcapture, hscale, hp,
          NativeLayout.ErrorOccured, Processor.ErrorOccured]
      · simp [NativeLayout.ErrorOccured, Processor.ErrorOccured, hscale]
    · rw [Bool.not_eq_true] at hp
      refine ⟨(NativeLayout.ErrorOccured
          { l with captured_image_ := l.captured_image_.store (frame.captured 0) }
          (frame.error_scale 0)).2, out.store (frame.converted 0), ?_, ?_,
        fun h => absurd h (by simp [hp]), fun _ => rfl⟩
      · simp [NativeLayout.Run, hcode, hsc, hs, hcapture, hscale, hp,
          NativeLayout.ErrorOccured, Processor.ErrorOccured]
      · simp [NativeLayout.ErrorOccured, Processor.ErrorOccured, hscale]
  · intro hcapture hscale hp hpadding
    obtain ⟨⟨p, hpd⟩, ⟨inner, hinner⟩, ⟨outer, houter⟩⟩ := hpad hp
    refine ⟨(NativeLayout.ErrorOccured
        { l with captured_image_ := l.captured_image_.store (frame.captured 0),
                 converted_image_ := l.converted_image_.store (frame.converted 0) }
        frame.error_padding).2, out.store frame.padding_failed, ?_, ?_⟩
    · simp [NativeLayout.Run, hcode, hsc, hs, hcapture, hscale, hp, hpd, hinner, houter,
        hpadding, Image.store, NativeLayout.ErrorOccured, Processor.ErrorOccured]
    · simp [NativeLayout.ErrorOccured, Processor.ErrorOccured, hpadding]
  · intro hcapture hscale hp hpadding
    obtain ⟨⟨p, hpd⟩, ⟨inner, hinner⟩, ⟨outer, houter⟩⟩ := hpad hp
    refine ⟨{ l with captured_image_ := l.captured_image_.store (frame.captured 0),
                     converted_image_ := l.converted_image_.store (frame.converted 0) },
      p, outer, hpd, houter, ?_⟩
    simp [NativeLayout.Run, hcode, hsc, hs, hcapture, hscale, hp, hpd, hinner, houter,
      hpadding, Image.store]
  · intro hcapture hscale hp
    simp [NativeLayout.Run, hcode, hsc, hs, hcapture, hscale, hp]

theorem ComplexLayout.complexRun_order (frame : FrameEnv) (l : ComplexLayout) (out : Image) :
    (l.error_code_ ≠ ErrorCode.kNoError →
      ∀ frame2 out2, ComplexLayout.Run frame2 l out2 = some (l.error_code_, l, out2)) ∧
    (∀ r, ComplexLayout.Run frame l out = some r → r.2.1.error_code_ = r.1) ∧
    (l.error_code_ = ErrorCode.kNoError → ComplexLayout.Ready l out →
      (frame.error_screen_capture ≠ ErrorCode.kNoError →
        ∃ l1, ComplexLayout.Run frame l out = some (frame.error_screen_capture, l1, out) ∧
          l1.error_code_ = frame.error_screen_capture ∧
          l1.converted_image_ = l.converted_image_) ∧
      (frame.error_screen_capture = ErrorCode.kNoError →
        ∀ k : Fin kMaxProcessorSize, (k.val : Int) < l.element_count_ →
          frame.error_scale k ≠ ErrorCode.kNoError →
          (∀ j : Fin kMaxProcessorSize, k.val < j.val → (j.val : Int) < l.element_count_ →
            frame.error_scale j = ErrorCode.kNoError) →
          ∃ l1, ComplexLayout.Run frame l out = some (frame.error_scale k, l1, out) ∧
            l1.error_code_ = frame.error_scale k ∧
            ∀ j : Fin kMaxProcessorSize, j.val < k.val →
              l1.converted_image_ j = l.converted_image_ j) ∧
      (frame.error_screen_capture = ErrorCode.kNoError →
        (∀ j : Fin kMaxProcessorSize, (j.val : Int) < l.element_count_ →
          frame.error_scale j = ErrorCode.kNoError) →
        ∃ l1 buffer drawn, out.avpicture = some buffer ∧
          ComplexLayout.Run frame l out = some (ErrorCode.kNoError, l1, out.store drawn) ∧
          ComplexLayout.DrawElements l1 l.element_count_.toNat 0
            (ff_fill_rectangle kBlack buffer 0 0 out.width out.height) = some drawn ∧
          ∀ j : Fin kMaxProcessorSize, (j.val : Int) < l.element_count_ →
            l1.converted_image_ j = (l.converted_image_ j).store (frame.converted j))) := by
  refine ⟨fun herror frame2 out2 => ComplexLayout.complexRun_latched frame2 l out2 herror,
    fun r hrun => ComplexLayout.complexRun_records frame l out r hrun, ?_⟩
  intro hcode hready
  obtain ⟨⟨sc, hsc⟩, hcount, ⟨buffer, hbuffer⟩, helements⟩ := hready
  obtain ⟨code, count, params, capture, scale, ex, ey, captured, converted⟩ := l
  simp only at hcode hsc hcount helements
  subst hcode hsc
  simp only
  have hn : count.toNat ≤ kMaxProcessorSize := by
    simp only [kMaxProcessorSize] at *
    omega
  refine ⟨?_, ?_, ?_⟩
  · intro hcapture
    refine ⟨(ComplexLayout.ErrorOccured
      (ComplexLayout.mk ErrorCode.kNoError count params (some sc) scale ex ey
        (fun i => if (i.val : Int) < count then (captured i).store (frame.captured i)
          else captured i) converted)
      frame.error_screen_capture).2, ?_, ?_, ?_⟩
    · simp [ComplexLayout.Run, hcapture, ComplexLayout.ErrorOccured, Processor.ErrorOccured]
    · simp [ComplexLayout.ErrorOccured, Processor.ErrorOccured, hcapture]
    · rfl
  · intro hcapture k hk herr hafter
    obtain ⟨l2, hscale, hrest⟩ := ComplexLayout.ScaleElements_first_error frame k
      count.toNat
      (ComplexLayout.mk ErrorCode.kNoError count params (some sc) scale ex ey
        (fun i => if (i.val : Int) < count then (captured i).store (frame.captured i)
          else captured i) converted)
      (by omega) hn
      (fun j hj1 hj2 => ⟨(helements j (by omega)).1, hafter j hj1 (by omega)⟩)
      (helements k hk).1 herr
    refine ⟨(l2.ErrorOccured (frame.error_scale k)).2, ?_, ?_, hrest⟩
    · simp only [ComplexLayout.Run, hcapture, ne_eq, not_true_eq_false,
        not_false_eq_true, if_true, if_false, hscale, herr]
      simp [ComplexLayout.ErrorOccured, Processor.ErrorOccured, herr]
    · simp [ComplexLayout.ErrorOccured, Processor.ErrorOccured, herr]
  · intro hcapture hall
    obtain ⟨l2, hscale, hconv⟩ := ComplexLayout.ScaleElements_all_ok frame
      count.toNat
      (ComplexLayout.mk ErrorCode.kNoError count params (some sc) scale ex ey
        (fun i => if (i.val : Int) < count then (captured i).store (frame.captured i)
          else captured i) converted)
      hn (fun j hj => ⟨(helements j (by omega)).1, hall j (by omega)⟩)
    obtain ⟨hc2, _, _, he2⟩ := ComplexLayout.ScaleElements_frame frame _ _ _ hscale
    have hcreated : ∀ j : Fin kMaxProcessorSize, 0 ≤ j.val →
        j.val < 0 + count.toNat →
        ∃ b, (l2.converted_image_ j).avpicture = some b := by
      intro j _ hj
      obtain ⟨b, hb⟩ := (helements j (by omega)).2
      rw [hconv j]
      have hj1 : j.val < count.toNat := by omega
      simp [hj1, Image.store, hb]
    obtain ⟨drawn, hdrawn⟩ := ComplexLayout.DrawElements_some l2 count.toNat 0
      (ff_fill_rectangle kBlack buffer 0 0 out.width out.height) (by omega) hcreated
    refine ⟨l2, buffer, drawn, hbuffer, ?_, hdrawn, ?_⟩
    · simp only at hc2 he2
      simp only [ComplexLayout.Run, hcapture, ne_eq, not_true_eq_false,
        not_false_eq_true, if_true, if_false, hscale, hbuffer, hc2, hdrawn, he2]
    · intro j hj
      rw [hconv j]
      have hj1 : j.val < count.toNat := by omega
      simp [hj1]

/-- C15. Run error latch of the layouts, for `NativeLayout` and for
`ComplexLayout`. Once the current error is not `kNoError`, `Run` returns it for
every frame and changes neither the layout nor the output image, so no
operator runs. The code that `Run` returns is the current error afterwards,
so a failed `Run` latches. For a layout with no error whose operators exist,
`Run` goes capture, scale, then padding (native) or clear and blit (complex)
and ends at the first operator that fails, with that operator's code: a
failing capture leaves the converted images and the output untouched; a
failing scale (complex: the one of the largest failing index, the loop goes
downwards) leaves the output untouched unless the native layout scales
straight into it; when every operator passes `Run` returns `kNoError`. -/
theorem C15_run_error_latch (frame : FrameEnv) (out : Image) :
    (∀ l : NativeLayout,
      (l.error_code_ ≠ ErrorCode.kNoError →
        ∀ frame2 out2, NativeLayout.Run frame2 l out2 = some (l.error_code_, l, out2)) ∧
      (∀ r, NativeLayout.Run frame l out = some r → r.2.1.error_code_ = r.1) ∧
      (l.error_code_ = ErrorCode.kNoError → NativeLayout.Ready l out →
        (frame.error_screen_capture ≠ ErrorCode.kNoError →
          NativeLayout.Run frame l out
            = some (frame.error_screen_capture,
                { l with captured_image_ := l.captured_image_.store (frame.captured 0),
                         error_code_ := frame.error_screen_capture }, out)) ∧
        (frame.error_screen_capture = ErrorCode.kNoError →
          frame.error_scale 0 ≠ ErrorCode.kNoError →
          ∃ l1 out1, NativeLayout.Run frame l out = some (frame.error_scale 0, l1, out1) ∧
            l1.error_code_ = frame.error_scale 0 ∧
            (NativeLayout.CanUsePadding out = true → out1 = out) ∧
            (NativeLayout.CanUsePadding out = false → out1 = out.store (frame.converted 0))) ∧
        (frame.error_screen_capture = ErrorCode.kNoError →
          frame.error_scale 0 = ErrorCode.kNoError →
          NativeLayout.CanUsePadding out = true →
          frame.error_padding ≠ ErrorCode.kNoError →
          ∃ l1 out1, NativeLayout.Run frame l out = some (frame.error_padding, l1, out1) ∧
            l1.error_code_ = frame.error_padding) ∧
        (frame.error_screen_capture = ErrorCode.kNoError →
          frame.error_scale 0 = ErrorCode.kNoError →
          NativeLayout.CanUsePadding out = true →
          frame.error_padding = ErrorCode.kNoError →
          ∃ l1 p outer, l.padding_ = some p ∧ out.avpicture = some outer ∧
            NativeLayout.Run frame l out
              = some (ErrorCode.kNoError, l1,
                  out.store (Padding.Run p (frame.converted 0) l.converted_image_.width
                    l.converted_image_.height outer out.width out.height))) ∧
        (frame.error_screen_capture = ErrorCode.kNoError →
          frame.error_scale 0 = ErrorCode.kNoError →
          NativeLayout.CanUsePadding out = false →
          NativeLayout.Run frame l out
            = some (ErrorCode.kNoError,
                { l with captured_image_ := l.captured_image_.store (frame.captured 0) },
                out.store (frame.converted 0))))) ∧
    (∀ l : ComplexLayout,
      (l.error_code_ ≠ ErrorCode.kNoError →
        ∀ frame2 out2, ComplexLayout.Run frame2 l out2 = some (l.error_code_, l, out2)) ∧
      (∀ r, ComplexLayout.Run frame l out = some r → r.2.1.error_code_ = r.1) ∧
      (l.error_code_ = ErrorCode.kNoError → ComplexLayout.Ready l out →
        (frame.error_screen_capture ≠ ErrorCode.kNoError →
          ∃ l1, ComplexLayout.Run frame l out = some (frame.error_screen_capture, l1, out) ∧
            l1.error_code_ = frame.error_screen_capture ∧
            l1.converted_image_ = l.converted_image_) ∧
        (frame.error_screen_capture = ErrorCode.kNoError →
          ∀ k : Fin kMaxProcessorSize, (k.val : Int) < l.element_count_ →
            frame.error_scale k ≠ ErrorCode.kNoError →
            (∀ j : Fin kMaxProcessorSize, k.val < j.val → (j.val : Int) < l.element_count_ →
              frame.error_scale j = ErrorCode.kNoError) →
            ∃ l1, ComplexLayout.Run frame l out = some (frame.error_scale k, l1, out) ∧
              l1.error_code_ = frame.error_scale k ∧
              ∀ j : Fin kMaxProcessorSize, j.val < k.val →
                l1.converted_image_ j = l.converted_image_ j) ∧
        (frame.error_screen_capture = ErrorCode.kNoError →
          (∀ j : Fin kMaxProcessorSize, (j.val : Int) < l.element_count_ →
            frame.error_scale j = ErrorCode.kNoError) →
          ∃ l1 buffer drawn, out.avpicture = some buffer ∧
            ComplexLayout.Run frame l out = some (ErrorCode.kNoError, l1, out.store drawn) ∧
            ComplexLayout.DrawElements l1 l.element_count_.toNat 0
              (ff_fill_rectangle kBlack buffer 0 0 out.width out.height) = some drawn ∧
            ∀ j : Fin kMaxProcessorSize, (j.val : Int) < l.element_count_ →
              l1.converted_image_ j = (l.converted_image_ j).store (frame.converted j)))) :=
  ⟨fun l => NativeLayout.nativeRun_order frame l out,
    fun l => ComplexLayout.complexRun_order frame l out⟩

/-- Witness of C15: a native layout that was never initialised returns its
error and touches nothing; on the complex layout of two elements a failing
capture ends `Run` with code 5 and the output untouched. -/
theorem C15_run_error_latch_witness :
    (∀ frame2 out2, NativeLayout.Run frame2 (NativeLayout.new exParameter) out2
      = some ((NativeLayout.new exParameter).error_code_, NativeLayout.new exParameter, out2)) ∧
    (∃ l1, ComplexLayout.Run exCaptureFailsFrame exDrawLayout exDrawOutput
        = some (exCaptureFailsFrame.error_screen_capture, l1, exDrawOutput) ∧
      l1.error_code_ = exCaptureFailsFrame.error_screen_capture ∧
      l1.converted_image_ = exDrawLayout.converted_image_) :=
  ⟨((C15_run_error_latch (exFrame 7) exDrawOutput).1 (NativeLayout.new exParameter)).1
      (by decide),
    (((C15_run_error_latch exCaptureFailsFrame exDrawOutput).2 exDrawLayout).2.2 rfl
      ⟨⟨_, rfl⟩, by decide, ⟨_, rfl⟩, by
        intro j hj
        fin_cases j <;> first
          | exact ⟨⟨_, rfl⟩, ⟨_, rfl⟩⟩
          | exact absurd hj (by decide)⟩).1 (by decide)⟩

/-! ## Native layout: when padding is used -/

/-- A successful `NativeLayout::Init` means that every allocation and every
operator `Init` it made succeeded. -/
theorem NativeLayout.nativeInit_success (u : Utilities) (env : InitEnv) (out : Image)
    (p : LayoutParameter)
    (hok : (NativeLayout.Init u env out (NativeLayout.new p)).1 = ErrorCode.kNoError) :
    env.error_captured_image 0 = ErrorCode.kNoError ∧
      env.error_screen_capture = ErrorCode.kNoError ∧
      env.error_scale_init 0 = ErrorCode.kNoError ∧
      (NativeLayout.CanUsePadding out = true →
        env.error_converted_image 0 = ErrorCode.kNoError ∧
          env.error_padding_init = ErrorCode.kNoError) := by
  simp only [NativeLayout.Init, NativeLayout.new, Image.Create, NativeLayout.ErrorOccured,
    NativeLayout.InitDone, Processor.ErrorOccured, Processor.InitDone] at hok
  split_ifs at hok <;> simp_all

theorem NativeLayout.CanUsePadding_formats (out : Image) :
    (out.pixel_format = ImagePixelFormat.kI420 → NativeLayout.CanUsePadding out = true) ∧
    (out.pixel_format = ImagePixelFormat.kRGB0 → NativeLayout.CanUsePadding out = true) ∧
    (out.pixel_format = ImagePixelFormat.kUYVY → NativeLayout.CanUsePadding out = false) ∧
    (out.pixel_format = ImagePixelFormat.kYV12 → NativeLayout.CanUsePadding out = false) := by
  refine ⟨?_, ?_, ?_, ?_⟩ <;> intro h <;> simp [NativeLayout.CanUsePadding, h]

/-- With padding, a successful `Init` leaves a layout with no error, a screen
capture, a scale, the padding operator of the sizes that
`CalculatePaddingSize` gives for the output and the clipping, and a created
converted image of the output format. -/
theorem NativeLayout.Init_with_padding (u : Utilities) (env : InitEnv) (out : Image)
    (p : LayoutParameter) (hcan : NativeLayout.CanUsePadding out = true)
    (hok : (NativeLayout.Init u env out (NativeLayout.new p)).1 = ErrorCode.kNoError) :
    (NativeLayout.Init u env out (NativeLayout.new p)).2.error_code_ = ErrorCode.kNoError ∧
    (∃ sc, (NativeLayout.Init u env out (NativeLayout.new p)).2.screen_capture_ = some sc) ∧
    (∃ s, (NativeLayout.Init u env out (NativeLayout.new p)).2.scale_ = some s) ∧
    (NativeLayout.Init u env out (NativeLayout.new p)).2.padding_
      = some
        { padding_left := (u.CalculatePaddingSize out.width out.height p.clipping_width
            p.clipping_height p.stretch p.keep_aspect_ratio).padding_left,
          padding_right := (u.CalculatePaddingSize out.width out.height p.clipping_width
            p.clipping_height p.stretch p.keep_aspect_ratio).padding_right,
          padding_top := (u.CalculatePaddingSize out.width out.height p.clipping_width
            p.clipping_height p.stretch p.keep_aspect_ratio).padding_top,
          padding_bottom := (u.CalculatePaddingSize out.width out.height p.clipping_width
            p.clipping_height p.stretch p.keep_aspect_ratio).padding_bottom } ∧
    (NativeLayout.Init u env out (NativeLayout.new p)).2.converted_image_.avpicture
      = some (env.converted_fresh 0) ∧
    (NativeLayout.Init u env out (NativeLayout.new p)).2.converted_image_.pixel_format
      = out.pixel_format := by
  obtain ⟨h1, h2, h3, h4⟩ := NativeLayout.nativeInit_success u env out p hok
  obtain ⟨h5, h6⟩ := h4 hcan
  simp [NativeLayout.Init, NativeLayout.new, Image.Create, NativeLayout.ErrorOccured,
    NativeLayout.InitDone, Processor.ErrorOccured, Processor.InitDone, hcan, h1, h2, h3, h5, h6]

/-- Without padding, `Init` never makes a padding operator nor a converted
image, and a successful `Init` leaves a layout with no error, a screen capture
and a scale. -/
theorem NativeLayout.Init_without_padding (u : Utilities) (env : InitEnv) (out : Image)
    (p : LayoutParameter) (hcan : NativeLayout.CanUsePadding out = false) :
    (NativeLayout.Init u env out (NativeLayout.new p)).2.padding_ = none ∧
    (NativeLayout.Init u env out (NativeLayout.new p)).2.converted_image_ = Image.uncreated ∧
    ((NativeLayout.Init u env out (NativeLayout.new p)).1 = ErrorCode.kNoError →
      (NativeLayout.Init u env out (NativeLayout.new p)).2.error_code_ = ErrorCode.kNoError ∧
      (∃ sc, (NativeLayout.Init u env out (NativeLayout.new p)).2.screen_capture_ = some sc) ∧
      ∃ s, (NativeLayout.Init u env out (NativeLayout.new p)).2.scale_ = some s) := by
  refine ⟨?_, ?_, ?_⟩
  · simp only [NativeLayout.Init, NativeLayout.new, hcan, NativeLayout.ErrorOccured,
      NativeLayout.InitDone, Bool.false_eq_true, if_false]
    split_ifs <;> rfl
  · simp only [NativeLayout.Init, NativeLayout.new, hcan, NativeLayout.ErrorOccured,
      NativeLayout.InitDone, Bool.false_eq_true, if_false]
    split_ifs <;> rfl
  · intro hok
    obtain ⟨h1, h2, h3, _⟩ := NativeLayout.nativeInit_success u env out p hok
    simp [NativeLayout.Init, NativeLayout.new, Image.Create, NativeLayout.ErrorOccured,
      NativeLayout.InitDone, Processor.ErrorOccured, Processor.InitDone, hcan, h1, h2, h3]

/-- Without padding, the code of `Init` and the code and output image of a
following `Run` do not depend on `keep_aspect_ratio` and `stretch`. -/
theorem NativeLayout.without_padding_ignores_aspect (u : Utilities) (env : InitEnv)
    (frame : FrameEnv) (out : Image) (p : LayoutParameter) (keep stretch : Bool)
    (hcan : NativeLayout.CanUsePadding out = false) :
    (NativeLayout.Init u env out
        (NativeLayout.new { p with keep_aspect_ratio := keep, stretch := stretch })).1
      = (NativeLayout.Init u env out (NativeLayout.new p)).1 ∧
    (NativeLayout.Run frame (NativeLayout.Init u env out
        (NativeLayout.new { p with keep_aspect_ratio := keep, stretch := stretch })).2 out).map
        (fun r => (r.1, r.2.2))
      = (NativeLayout.Run frame (NativeLayout.Init u env out (NativeLayout.new p)).2 out).map
        (fun r => (r.1, r.2.2)) := by
  constructor
  · simp only [NativeLayout.Init, NativeLayout.new, hcan, NativeLayout.ErrorOccured,
      NativeLayout.InitDone, Bool.false_eq_true, if_false]
    split_ifs <;> rfl
  · simp only [NativeLayout.Init, NativeLayout.new, hcan, NativeLayout.ErrorOccured,
      NativeLayout.InitDone, Image.Create, Bool.false_eq_true, if_false]
    split_ifs <;>
      simp [NativeLayout.Run, hcan, Processor.ErrorOccured, Processor.InitDone,
        NativeLayout.ErrorOccured] <;>
      split_ifs <;> simp_all

/-- Counterexample to C11: YV12 is a format that draw-utils can handle (planar in
the spec), yet `CanUsePadding` is false for a YV12 output. On the 2x1 YV12 image
a successful `Init` makes no padding operator and no converted image, and `Run`
writes the scaled frame `7, 7` straight into the output. -/
theorem C11_native_layout_padding_counterexample :
    CanUseDrawUtils ImagePixelFormat.kYV12 = true ∧
    NativeLayout.CanUsePadding (exEngine ImagePixelFormat.kYV12).front_image_ = false ∧
    (NativeLayout.Init exUtilities exInitEnv (exEngine ImagePixelFormat.kYV12).front_image_
      (NativeLayout.new exKeepAspectParameter)).1 = ErrorCode.kNoError ∧
    (NativeLayout.Init exUtilities exInitEnv (exEngine ImagePixelFormat.kYV12).front_image_
      (NativeLayout.new exKeepAspectParameter)).2.padding_.isNone = true ∧
    (NativeLayout.Init exUtilities exInitEnv (exEngine ImagePixelFormat.kYV12).front_image_
      (NativeLayout.new exKeepAspectParameter)).2.converted_image_.IsEmpty = true ∧
    (NativeLayout.Run (exFrame 7)
        (NativeLayout.Init exUtilities exInitEnv (exEngine ImagePixelFormat.kYV12).front_image_
          (NativeLayout.new exKeepAspectParameter)).2
        (exEngine ImagePixelFormat.kYV12).front_image_).map
        (fun r => (r.1, r.2.2.avpicture.map (fun b => canonicalBytes b 2 1)))
      = some (ErrorCode.kNoError, some [7, 7]) := by
  decide

/-- C11, amended. (1) For an output of format I420 or RGB0 the native layout
uses padding: a successful `Init` makes a converted image and a padding
operator, and a `Run` in which every operator passes writes to the output the
padding of the freshly scaled converted image. (2) For an output of format
UYVY it uses none: `Init` makes no converted image and no padding operator, a
passing `Run` writes the scaled image straight into the output, and the code of
`Init` and the code and output of `Run` are the same for every
`keep_aspect_ratio` and `stretch`. -/
theorem C11_native_layout_padding (u : Utilities) (env : InitEnv) (frame : FrameEnv)
    (out : Image) (p : LayoutParameter) :
    (out.pixel_format = ImagePixelFormat.kI420 ∨ out.pixel_format = ImagePixelFormat.kRGB0 →
      NativeLayout.CanUsePadding out = true ∧
      ((NativeLayout.Init u env out (NativeLayout.new p)).1 = ErrorCode.kNoError →
        (∃ pd, (NativeLayout.Init u env out (NativeLayout.new p)).2.padding_ = some pd) ∧
        (NativeLayout.Init u env out (NativeLayout.new p)).2.converted_image_.IsEmpty = false ∧
        (frame.error_screen_capture = ErrorCode.kNoError →
          frame.error_scale 0 = ErrorCode.kNoError →
          frame.error_padding = ErrorCode.kNoError →
          (∃ b, out.avpicture = some b) →
          ∃ l1 pd outer,
            (NativeLayout.Init u env out (NativeLayout.new p)).2.padding_ = some pd ∧
            out.avpicture = some outer ∧
            NativeLayout.Run frame (NativeLayout.Init u env out (NativeLayout.new p)).2 out
              = some (ErrorCode.kNoError, l1,
                  out.store (Padding.Run pd (frame.converted 0)
                    (NativeLayout.Init u env out (NativeLayout.new p)).2.converted_image_.width
                    (NativeLayout.Init u env out (NativeLayout.new p)).2.converted_image_.height
                    outer out.width out.height))))) ∧
    (out.pixel_format = ImagePixelFormat.kUYVY →
      NativeLayout.CanUsePadding out = false ∧
      (NativeLayout.Init u env out (NativeLayout.new p)).2.padding_ = none ∧
      (NativeLayout.Init u env out (NativeLayout.new p)).2.converted_image_.IsEmpty = true ∧
      ((NativeLayout.Init u env out (NativeLayout.new p)).1 = ErrorCode.kNoError →
        frame.error_screen_capture = ErrorCode.kNoError →
        frame.error_scale 0 = ErrorCode.kNoError →
        ∃ l1, NativeLayout.Run frame (NativeLayout.Init u env out (NativeLayout.new p)).2 out
          = some (ErrorCode.kNoError, l1, out.store (frame.converted 0))) ∧
      ∀ keep stretch : Bool,
        (NativeLayout.Init u env out
            (NativeLayout.new { p with keep_aspect_ratio := keep, stretch := stretch })).1
          = (NativeLayout.Init u env out (NativeLayout.new p)).1 ∧
        (NativeLayout.Run frame (NativeLayout.Init u env out
            (NativeLayout.new { p with keep_aspect_ratio := keep, stretch := stretch })).2
            out).map (fun r => (r.1, r.2.2))
          = (NativeLayout.Run frame
              (NativeLayout.Init u env out (NativeLayout.new p)).2 out).map
              (fun r => (r.1, r.2.2))) := by
  constructor
  · intro hformat
    have hcan : NativeLayout.CanUsePadding out = true := by
      rcases hformat with h | h
      · exact (NativeLayout.CanUsePadding_formats out).1 h
      · exact (NativeLayout.CanUsePadding_formats out).2.1 h
    refine ⟨hcan, ?_⟩
    intro hok
    obtain ⟨hcode, hsc, hs, hpd, hconv, _⟩ := NativeLayout.Init_with_padding u env out p hcan hok
    refine ⟨⟨_, hpd⟩, by simp [Image.IsEmpty, hconv], ?_⟩
    intro hcapture hscale hpadding hout
    exact ((NativeLayout.nativeRun_order frame _ out).2.2 hcode
      ⟨hsc, hs, fun _ => ⟨⟨_, hpd⟩, ⟨_, hconv⟩, hout⟩⟩).2.2.2.1 hcapture hscale hcan hpadding
  · intro hformat
    have hcan : NativeLayout.CanUsePadding out = false :=
      (NativeLayout.CanUsePadding_formats out).2.2.1 hformat
    obtain ⟨hpd, hconv, hready⟩ := NativeLayout.Init_without_padding u env out p hcan
    refine ⟨hcan, hpd, by rw [hconv]; rfl, ?_, ?_⟩
    · intro hok hcapture hscale
      obtain ⟨hcode, hsc, hs⟩ := hready hok
      exact ⟨_, ((NativeLayout.nativeRun_order frame _ out).2.2 hcode
        ⟨hsc, hs, fun h => absurd h (by simp [hcan])⟩).2.2.2.2 hcapture hscale hcan⟩
    · intro keep stretch
      exact NativeLayout.without_padding_ignores_aspect u env frame out p keep stretch hcan

/-- Witness of C11 (amended): the 2x1 I420 image uses padding, the 2x1 UYVY
image does not. -/
theorem C11_native_layout_padding_witness :
    NativeLayout.CanUsePadding (exEngine ImagePixelFormat.kI420).front_image_ = true ∧
    NativeLayout.CanUsePadding (exEngine ImagePixelFormat.kUYVY).front_image_ = false ∧
    (∃ l1, NativeLayout.Run (exFrame 7)
        (NativeLayout.Init exUtilities exInitEnv (exEngine ImagePixelFormat.kUYVY).front_image_
          (NativeLayout.new exKeepAspectParameter)).2
        (exEngine ImagePixelFormat.kUYVY).front_image_
      = some (ErrorCode.kNoError, l1,
          (exEngine ImagePixelFormat.kUYVY).front_image_.store ((exFrame 7).converted 0))) :=
  ⟨((C11_native_layout_padding exUtilities exInitEnv (exFrame 7)
      (exEngine ImagePixelFormat.kI420).front_image_ exKeepAspectParameter).1 (Or.inl rfl)).1,
    ((C11_native_layout_padding exUtilities exInitEnv (exFrame 7)
      (exEngine ImagePixelFormat.kUYVY).front_image_ exKeepAspectParameter).2 rfl).1,
    ((C11_native_layout_padding exUtilities exInitEnv (exFrame 7)
      (exEngine ImagePixelFormat.kUYVY).front_image_ exKeepAspectParameter).2 rfl).2.2.2.1
      rfl rfl rfl⟩

/-! ## Creation of an image -/

/-- `Create` on an empty image, on the paths on which it returns:
(1) it returns `kNoError` exactly when the base `Image::Create` reports no
error, `av_malloc` returns a block, `new AVPicture()` an object and the byte
count reported by `avpicture_fill` equals
`CalculateDataSize(pixel_format, width, height)`; (2) whenever it returns, the
image is not empty afterwards exactly when the returned code is `kNoError`;
(3) a created image has the requested format and size and a buffer of exactly
the canonical number of bytes, which is also the count the fill reported;
(4) whenever it returns an error, the image is empty afterwards; (5) it does
not return exactly when, after a successful `av_malloc`, there is no
`AVPicture` object or the fill count differs from the data size: the two paths
through `av_freep(raw_bitmap)`. -/
theorem AVPictureWithFillImage.Create_returns
    (CalculateDataSize : ImagePixelFormat → Int → Int → Int)
    (env : CreateEnv) (img : AVPictureWithFillImage) (pixel_format : ImagePixelFormat)
    (width height : Int) (hempty : img.IsEmpty = true) :
    ((∃ img1, AVPictureWithFillImage.Create CalculateDataSize env img pixel_format width height
        = some (ErrorCode.kNoError, img1)) ↔
      env.error_create = ErrorCode.kNoError ∧
        ((av_malloc env (CalculateDataSize pixel_format width height)).isSome = true ∧
          env.new_avpicture_ok = true) ∧
        env.result_fill = CalculateDataSize pixel_format width height) ∧
    (∀ r, AVPictureWithFillImage.Create CalculateDataSize env img pixel_format width height
        = some r → (r.2.IsEmpty = false ↔ r.1 = ErrorCode.kNoError)) ∧
    (∀ r, AVPictureWithFillImage.Create CalculateDataSize env img pixel_format width height
        = some r → r.1 = ErrorCode.kNoError →
      ∃ raw_bitmap,
        r.2.raw_bitmap_ = some raw_bitmap ∧
        (raw_bitmap.length : Int) = CalculateDataSize pixel_format width height ∧
        r.2.avpicture_ = some { filled_size := CalculateDataSize pixel_format width height } ∧
        r.2.pixel_format = pixel_format ∧ r.2.width = width ∧ r.2.height = height) ∧
    (∀ r, AVPictureWithFillImage.Create CalculateDataSize env img pixel_format width height
        = some r → r.1 ≠ ErrorCode.kNoError → r.2.IsEmpty = true) ∧
    (AVPictureWithFillImage.Create CalculateDataSize env img pixel_format width height = none ↔
      env.error_create = ErrorCode.kNoError ∧
        (av_malloc env (CalculateDataSize pixel_format width height)).isSome = true ∧
        (env.new_avpicture_ok = false ∨
          env.result_fill ≠ CalculateDataSize pixel_format width height)) := by
  simp only [AVPictureWithFillImage.IsEmpty, Option.isNone_iff_eq_none] at hempty
  by_cases hbase : env.error_create = ErrorCode.kNoError
  · by_cases hneg : CalculateDataSize pixel_format width height < 0
    · simp [AVPictureWithFillImage.Create, av_malloc, hbase, hneg,
        AVPictureWithFillImage.IsEmpty, hempty]
    · by_cases hmalloc : env.malloc_ok = true
      · by_cases hnew : env.new_avpicture_ok = true
        · by_cases hfill : env.result_fill = CalculateDataSize pixel_format width height
          · have hsize : ((CalculateDataSize pixel_format width height).toNat : Int)
                = CalculateDataSize pixel_format width height := by omega
            simp [AVPictureWithFillImage.Create, av_malloc, hbase, hneg, hmalloc, hnew, hfill,
              AVPictureWithFillImage.IsEmpty, hsize]
          · simp [AVPictureWithFillImage.Create, av_malloc, hbase, hneg, hmalloc, hnew, hfill,
              AVPictureWithFillImage.IsEmpty, hempty]
        · simp [AVPictureWithFillImage.Create, av_malloc, hbase, hneg, hmalloc, hnew,
            AVPictureWithFillImage.IsEmpty, hempty]
      · simp [AVPictureWithFillImage.Create, av_malloc, hbase, hneg, hmalloc,
          AVPictureWithFillImage.IsEmpty, hempty]
  · simp [AVPictureWithFillImage.Create, hbase, AVPictureWithFillImage.IsEmpty, hempty]

/-- C12 does not hold when the fill count differs from the data size. `Create`
of a 3x2 image on an empty image, the data size being 6 bytes. The base `Image::Create` reports no error,
`av_malloc` returns a block of 6 bytes and `new AVPicture()` an object, and
`avpicture_fill` reports 4 bytes: `Create` reaches `av_freep(raw_bitmap)` and
does not return. With a fill count of 6 it returns `kNoError` and the image is
not empty; without memory it returns the out-of-memory code and the image is
empty. -/
theorem C12_create_fill_mismatch :
    AVPictureWithFillImage.new.IsEmpty = true ∧
    exCalculateDataSize ImagePixelFormat.kRGB0 3 2 = 6 ∧
    ((exCreateEnv 4).error_create, (exCreateEnv 4).new_avpicture_ok, (exCreateEnv 4).result_fill,
        (av_malloc (exCreateEnv 4) 6).map List.length)
      = (ErrorCode.kNoError, true, 4, some 6) ∧
    (AVPictureWithFillImage.Create exCalculateDataSize (exCreateEnv 4)
      AVPictureWithFillImage.new ImagePixelFormat.kRGB0 3 2).isNone = true ∧
    (AVPictureWithFillImage.Create exCalculateDataSize (exCreateEnv 6)
        AVPictureWithFillImage.new ImagePixelFormat.kRGB0 3 2).map
        (fun r => (r.1, r.2.IsEmpty, r.2.raw_bitmap_.map List.length))
      = some (ErrorCode.kNoError, false, some 6) ∧
    (AVPictureWithFillImage.Create exCalculateDataSize
        { exCreateEnv 6 with malloc_ok := false }
        AVPictureWithFillImage.new ImagePixelFormat.kRGB0 3 2).map
        (fun r => (r.1, r.2.IsEmpty))
      = some (ErrorCode.kAVPictureWithFillImageOutOfMemoryError, true) := by
  decide

end scff_imaging
